import Mathlib

/-!
Transaction-processing core: BallotCreate and Payment.

A shallow embedding of `src/ripple/app/tx/impl/BallotCreate.cpp`, of
`src/ripple/app/tx/impl/Payment.cpp` and of the flag constants of
`src/ripple/protocol/TxFlags.h`, with the properties of the three stages
(`preflight`, `preclaim`, `doApply`) of the two transactors proved over it.

Conventions of the embedding:

* `std::uint32_t` values are natural numbers; where the width matters
  (`~x`, `getFlags`, `OwnerCount + 1`) the reduction modulo `2^32` is written
  out.  Amounts of drops are integers.
* An optional field of a transaction is an `Option`; `isFieldPresent(sf)` is
  `isSome`, and `tx[sf]` is only read under the presence test that guards it
  in the source.
* A stage that changes the ledger is a function from the view it is given to
  its result code and the view it leaves; a write through a handle returned by
  `peek` is a write to the entry under that key.
* Logging (`JLOG`) has no effect on the result and is left out.
-/

namespace ripple

/-! ## Result codes -/

/-- Result codes (`TER` / `NotTEC`).  The constructors are the codes named in
the transactor sources; `other` stands for any further code of the taxonomy,
which the shared checks `preflight1` / `preflight2` may return. -/
inductive TER where
  | tesSUCCESS
  | telNO_DST_PARTIAL
  | temDISABLED
  | temINVALID_FLAG
  | temMALFORMED
  | temBAD_AMOUNT
  | temBAD_CURRENCY
  | temDST_NEEDED
  | temREDUNDANT
  | temBAD_SEND_XRP_MAX
  | temBAD_SEND_XRP_PARTIAL
  | temBAD_SEND_XRP_LIMIT
  | temBAD_SEND_XRP_NO_DIRECT
  | tefINTERNAL
  | tecINTERNAL
  | tecINSUFFICIENT_RESERVE
  | tecDIR_FULL
  | tecUNFUNDED_PAYMENT
  | tecNO_DST_INSUF_XRP
  | tecDST_TAG_NEEDED
  | other (tag : Nat)
  deriving DecidableEq, Repr

/-- The test `isTesSuccess(ret)`: the code is `tesSUCCESS`. -/
def isTesSuccess (t : TER) : Bool := decide (t = TER.tesSUCCESS)

/-- Modelled from the spec: the header `TER.h`, which declares the result
codes by class, is not among the sources.  The classes of result codes are
local retryable (`tel`), malformed (`tem`), failure (`tef`), retry (`ter`),
success (`tes`) and claimed-cost (`tec`). -/
inductive TERClass where
  | tel
  | tem
  | tef
  | ter
  | tes
  | tec
  deriving DecidableEq, Repr

/-- Modelled from the spec: the header `TER.h` is not among the sources.  The
class of a result code is the prefix of its name; a code that the sources do
not name has no known class. -/
def TER.codeClass : TER → Option TERClass
  | .tesSUCCESS => some .tes
  | .telNO_DST_PARTIAL => some .tel
  | .temDISABLED => some .tem
  | .temINVALID_FLAG => some .tem
  | .temMALFORMED => some .tem
  | .temBAD_AMOUNT => some .tem
  | .temBAD_CURRENCY => some .tem
  | .temDST_NEEDED => some .tem
  | .temREDUNDANT => some .tem
  | .temBAD_SEND_XRP_MAX => some .tem
  | .temBAD_SEND_XRP_PARTIAL => some .tem
  | .temBAD_SEND_XRP_LIMIT => some .tem
  | .temBAD_SEND_XRP_NO_DIRECT => some .tem
  | .tefINTERNAL => some .tef
  | .tecINTERNAL => some .tec
  | .tecINSUFFICIENT_RESERVE => some .tec
  | .tecDIR_FULL => some .tec
  | .tecUNFUNDED_PAYMENT => some .tec
  | .tecNO_DST_INSUF_XRP => some .tec
  | .tecDST_TAG_NEEDED => some .tec
  | .other _ => none

/-! ## Transaction flags (`TxFlags.h`) -/

/-- Bitwise complement `~x` of a `std::uint32_t`. -/
def not32 (x : Nat) : Nat := (2 ^ 32 - 1 - x % 2 ^ 32) % 2 ^ 32

/-- The constant `tfFullyCanonicalSig = 0x80000000`. -/
def tfFullyCanonicalSig : Nat := 0x80000000

/-- The constant `tfUniversal = tfFullyCanonicalSig`. -/
def tfUniversal : Nat := tfFullyCanonicalSig

/-- The constant `tfUniversalMask = ~tfUniversal`. -/
def tfUniversalMask : Nat := not32 tfUniversal

/-- The Payment flag `tfNoRippleDirect = 0x00010000`. -/
def tfNoRippleDirect : Nat := 0x00010000

/-- The Payment flag `tfPartialPayment = 0x00020000`. -/
def tfPartialPayment : Nat := 0x00020000

/-- The Payment flag `tfLimitQuality = 0x00040000`. -/
def tfLimitQuality : Nat := 0x00040000

/-- The constant `tfPaymentMask =
~(tfUniversal | tfPartialPayment | tfLimitQuality | tfNoRippleDirect)`. -/
def tfPaymentMask : Nat :=
  not32 (tfUniversal ||| tfPartialPayment ||| tfLimitQuality ||| tfNoRippleDirect)

/-- The AccountSet flag `tfRequireDestTag = 0x00010000`. -/
def tfRequireDestTag : Nat := 0x00010000

/-- The AccountSet flag `tfOptionalDestTag = 0x00020000`. -/
def tfOptionalDestTag : Nat := 0x00020000

/-- The AccountSet flag `tfOptionalAuth = 0x00080000`. -/
def tfOptionalAuth : Nat := 0x00080000

/-- The AccountSet flag `tfDisallowXRP = 0x00100000`. -/
def tfDisallowXRP : Nat := 0x00100000

/-- The AccountSet flag `tfAllowXRP = 0x00200000`. -/
def tfAllowXRP : Nat := 0x00200000

/-- The OfferCreate flag `tfPassive = 0x00010000`. -/
def tfPassive : Nat := 0x00010000

/-- The OfferCreate flag `tfImmediateOrCancel = 0x00020000`. -/
def tfImmediateOrCancel : Nat := 0x00020000

/-- The OfferCreate flag `tfFillOrKill = 0x00040000`. -/
def tfFillOrKill : Nat := 0x00040000

/-- The OfferCreate flag `tfSell = 0x00080000`. -/
def tfSell : Nat := 0x00080000

/-- The TrustSet flag `tfSetfAuth = 0x00010000`. -/
def tfSetfAuth : Nat := 0x00010000

/-- The TrustSet flag `tfSetNoRipple = 0x00020000`. -/
def tfSetNoRipple : Nat := 0x00020000

/-- The TrustSet flag `tfClearNoRipple = 0x00040000`. -/
def tfClearNoRipple : Nat := 0x00040000

/-- The TrustSet flag `tfSetFreeze = 0x00100000`. -/
def tfSetFreeze : Nat := 0x00100000

/-- The TrustSet flag `tfClearFreeze = 0x00200000`. -/
def tfClearFreeze : Nat := 0x00200000

/-- The EnableAmendment flag `tfGotMajority = 0x00010000`. -/
def tfGotMajority : Nat := 0x00010000

/-- The EnableAmendment flag `tfLostMajority = 0x00020000`. -/
def tfLostMajority : Nat := 0x00020000

/-- The PaymentChannelClaim flag `tfRenew = 0x00010000`. -/
def tfRenew : Nat := 0x00010000

/-- The PaymentChannelClaim flag `tfClose = 0x00020000`. -/
def tfClose : Nat := 0x00020000

/-- The universal transaction flags of `TxFlags.h`. -/
def universalFlags : List Nat := [tfFullyCanonicalSig, tfUniversal]

/-- Every transaction-specific flag of `TxFlags.h`, section by section:
AccountSet, OfferCreate, Payment, TrustSet, EnableAmendment,
PaymentChannelClaim. -/
def txSpecificFlags : List Nat :=
  [tfRequireDestTag, tfOptionalDestTag, tfOptionalAuth, tfDisallowXRP, tfAllowXRP,
   tfPassive, tfImmediateOrCancel, tfFillOrKill, tfSell,
   tfNoRippleDirect, tfPartialPayment, tfLimitQuality,
   tfSetfAuth, tfSetNoRipple, tfClearNoRipple, tfSetFreeze, tfClearFreeze,
   tfGotMajority, tfLostMajority,
   tfRenew, tfClose]

/-! ## Transactions and the preflight context -/

/-- Amendments consulted by the transactors. -/
inductive Feature where
  | featureBallotsV1
  | featureDeletableAccounts
  deriving DecidableEq, Repr

/-- The enabled-amendment set (`Rules`), read through `enabled`. -/
structure Rules where
  enabled : Feature → Bool

/-- A byte string (`Blob`). -/
abbrev Blob := List Nat

/-- An account identifier (`AccountID`); zero is the account that is "not
specified". -/
abbrev AccountID := Nat

/-- Modelled from the spec: the amount type `STAmount` is not among the
sources.  An amount is a signed quantity of an issue, the pair of a currency
and an issuer; the currency zero is the native one ("isZero() is XRP"), whose
quantities are counted in drops.  Amounts are compared by quantity, and
`xrp()` reads the quantity. -/
structure STAmount where
  currency : Nat := 0
  issuer : AccountID := 0
  value : Int := 0
  deriving DecidableEq, Repr

/-- The accessor `getCurrency()`. -/
def STAmount.getCurrency (a : STAmount) : Nat := a.currency

/-- The accessor `issue()`: currency and issuer. -/
def STAmount.issue (a : STAmount) : Nat × AccountID := (a.currency, a.issuer)

/-- The accessor `xrp()`: the quantity, in drops. -/
def STAmount.xrp (a : STAmount) : Int := a.value

/-- The fields of a transaction (`STTx`) read by `BallotCreate` and `Payment`.
`Flags`, `Account`, `Destination`, `Amount` and `Fee` are read through
accessors that yield a zero value for an absent field (`getFlags`,
`getAccountID`, `getFieldAmount`); `seqProxy` is the value of
`getSeqProxy()`; the other fields are optional.  256-bit values are natural
numbers, `sfBallotChoiceIDs` is a vector of 256-bit values. -/
structure STTx where
  sfFlags : Nat := 0
  sfInitialVotes : Option Nat := none
  sfBallotChoiceIDs : Option (List Nat) := none
  sfBallotDocumentURI : Option Blob := none
  sfBallotDocumentHash : Option Nat := none
  sfOpenTime : Option Nat := none
  sfCloseTime : Option Nat := none
  sfMembershipNFTTaxon : Option Nat := none
  sfMembershipNFTIssuer : Option Nat := none
  seqProxy : Nat := 0
  sfAccount : AccountID := 0
  sfDestination : AccountID := 0
  sfDestinationTag : Option Nat := none
  sfAmount : STAmount := {}
  sfFee : STAmount := {}
  sfSendMax : Option STAmount := none
  sfDeliverMin : Option STAmount := none

/-- The accessor `getFlags()`, a `std::uint32_t`. -/
def STTx.getFlags (tx : STTx) : Nat := tx.sfFlags % 2 ^ 32

/-- The context handed to `preflight`: the transaction and the rules. -/
structure PreflightContext where
  tx : STTx
  rules : Rules

/-- What `BallotCreate::preflight` uses from outside the modelled sources: the
shared checks `preflight1` and `preflight2` (declared in `Transactor.h`) and
the two protocol limits `maxBallotChoiceIDsLength` and
`maxBallotDocumentUriLength`.  They are parameters of the embedding. -/
structure Externals where
  preflight1 : PreflightContext → TER
  preflight2 : PreflightContext → TER
  maxBallotChoiceIDsLength : Nat
  maxBallotDocumentUriLength : Nat

/-! ## `BallotCreate::preflight` -/

/-- The local lambda `isTooLong` of `BallotCreate::preflight`: an absent field
is never too long, a present one is when its length exceeds `length`. -/
def BallotCreate.isTooLong (field : Option Blob) (length : Nat) : Bool :=
  match field with
  | some f => decide (f.length > length)
  | none => false

/-- The function `BallotCreate::preflight`, check by check in source order. -/
def BallotCreate.preflight (ext : Externals) (ctx : PreflightContext) : TER :=
  if !ctx.rules.enabled Feature.featureBallotsV1 then
    TER.temDISABLED
  else if ctx.tx.getFlags &&& tfUniversalMask ≠ 0 then
    TER.temINVALID_FLAG
  else if (match ctx.tx.sfInitialVotes with
           | none => true
           | some v => decide (v < 1)) then
    TER.temMALFORMED
  else
    match ctx.tx.sfBallotChoiceIDs with
    | none => TER.temMALFORMED
    | some ids =>
      if ids.isEmpty then
        TER.temMALFORMED
      else if ids.length > ext.maxBallotChoiceIDsLength then
        TER.temMALFORMED
      else
        let ret := ext.preflight1 ctx
        if !isTesSuccess ret then
          ret
        else if (match ctx.tx.sfBallotDocumentURI with
                 | none => false
                 | some uri =>
                   if ctx.tx.sfBallotDocumentHash.isNone then true
                   else if uri.isEmpty then true
                   else BallotCreate.isTooLong ctx.tx.sfBallotDocumentURI
                          ext.maxBallotDocumentUriLength) then
          TER.temMALFORMED
        else if (match ctx.tx.sfOpenTime, ctx.tx.sfCloseTime with
                 | some o, some c => decide (o > c)
                 | _, _ => false) then
          TER.temMALFORMED
        else if ctx.tx.sfMembershipNFTTaxon.isSome
                && ctx.tx.sfMembershipNFTIssuer.isNone then
          TER.temMALFORMED
        else
          ext.preflight2 ctx

/-- The acceptance conditions of `BallotCreate::preflight` as the
specification lists them, in its order; a second definition, in the
specification's words, to be compared with `BallotCreate.preflight`:
`featureBallotsV1` is enabled; `flags & ~tfUniversal == 0`; `InitialVotes` is
present and at least 1; `BallotChoiceIDs` is present with between 1 and
`maxBallotChoiceIDsLength` entries; `preflight1` succeeds; `BallotDocumentURI`
is absent, or `BallotDocumentHash` is present and the length of the URI is
between 1 and `maxBallotDocumentUriLength`; `OpenTime` and `CloseTime` are not
both present with `OpenTime > CloseTime`; `MembershipNFTTaxon` is absent or
`MembershipNFTIssuer` is present. -/
def BallotCreate.specAccepts (ext : Externals) (ctx : PreflightContext) : Bool :=
  ctx.rules.enabled Feature.featureBallotsV1 &&
  decide (ctx.tx.getFlags &&& not32 tfUniversal = 0) &&
  (match ctx.tx.sfInitialVotes with
    | some v => decide (1 ≤ v)
    | none => false) &&
  (match ctx.tx.sfBallotChoiceIDs with
    | some ids =>
      decide (1 ≤ ids.length ∧ ids.length ≤ ext.maxBallotChoiceIDsLength)
    | none => false) &&
  isTesSuccess (ext.preflight1 ctx) &&
  (match ctx.tx.sfBallotDocumentURI with
    | none => true
    | some uri =>
      ctx.tx.sfBallotDocumentHash.isSome &&
        decide (1 ≤ uri.length ∧ uri.length ≤ ext.maxBallotDocumentUriLength)) &&
  (match ctx.tx.sfOpenTime, ctx.tx.sfCloseTime with
    | some o, some c => decide (¬ o > c)
    | _, _ => true) &&
  (ctx.tx.sfMembershipNFTTaxon.isNone || ctx.tx.sfMembershipNFTIssuer.isSome)

/-! ## `BallotCreate::preclaim` -/

/-- The context handed to `preclaim`: a read-only view and the transaction. -/
structure PreclaimContext (View : Type) where
  view : View
  tx : STTx

/-- The function `BallotCreate::preclaim`, which returns `tesSUCCESS`. -/
def BallotCreate.preclaim {View : Type} (_ctx : PreclaimContext View) : TER :=
  TER.tesSUCCESS

/-! ## The transactor pipeline -/

/-- Modelled from the spec: the pipeline driver is not among the sources
(only the stages of two transaction types are).  A transaction type is the
triple of operations of §4.1 / §6, "a triplet of function pointers
implementing preflight/preclaim/apply"; the apply stage works on a view and
returns its result code with the view it produced. -/
structure Transactor (View : Type) where
  preflight : PreflightContext → TER
  preclaim : PreclaimContext View → TER
  doApply : STTx → View → TER × View

/-- Modelled from the spec: what a pass of the pipeline driver (not among the
sources) leaves behind: the result code, the resulting view, and whether the
apply stage was invoked. -/
structure PipelineResult (View : Type) where
  ter : TER
  view : View
  applied : Bool

/-- Modelled from the spec: the pipeline driver, which is not among the
sources.  The stages run "strictly in this order" (§4.1); "apply is only
invoked if preflight(T) and preclaim(T, V) both returned" a code that lets the
transaction proceed and "never runs after a malformed result" (§8), here: only
after success of both; the apply stage "operates on a private, speculative
copy of the view", whose deltas are merged on success and "on failure they are
discarded wholesale" (§5).  The fee and sequence bookkeeping of a claimed-cost
outcome (§7) is outside this model. -/
def applyTransaction {View : Type} (T : Transactor View)
    (ctx : PreflightContext) (view : View) : PipelineResult View :=
  let pf := T.preflight ctx
  if !isTesSuccess pf then
    { ter := pf, view := view, applied := false }
  else
    let pc := T.preclaim { view := view, tx := ctx.tx }
    if !isTesSuccess pc then
      { ter := pc, view := view, applied := false }
    else
      let res := T.doApply ctx.tx view
      if isTesSuccess res.1 then
        { ter := res.1, view := res.2, applied := true }
      else
        { ter := res.1, view := view, applied := true }

/-! ## Ledger entries and the view -/

/-- Modelled from the spec: key derivation (`Indexes.h`) is not among the
sources.  A key is "derived deterministically from semantic identity plus
entry-type discriminant" (§3) and keys are "collision-resistant across entry
types" (§4.2): here a key is the semantic identity itself, tagged with the
entry type. -/
inductive Keylet where
  | account (id : AccountID)
  | ownerDir (id : AccountID)
  | ballot (id : AccountID) (seq : Nat)
  deriving DecidableEq, Repr

/-- A ledger entry (`SLE`): its key, the fields that the two transactors read
or write, and the ballot fields of the transaction that an entry can carry
(`OpenTime`, `CloseTime`, `BallotDocumentURI`, `BallotDocumentHash`,
`MembershipNFTIssuer`, `MembershipNFTTaxon`).  The entry made by
`std::make_shared<SLE>(key)` has every field at its default, an optional field
being absent. -/
structure SLE where
  key : Keylet
  sfFlags : Nat := 0
  sfAccount : Option AccountID := none
  sfSequence : Nat := 0
  sfBalance : Int := 0
  sfOwnerCount : Nat := 0
  sfOwnerNode : Option Nat := none
  sfInitialVotes : Option Nat := none
  sfBallotChoiceIDs : Option (List Nat) := none
  sfOpenTime : Option Nat := none
  sfCloseTime : Option Nat := none
  sfBallotDocumentURI : Option Blob := none
  sfBallotDocumentHash : Option Nat := none
  sfMembershipNFTIssuer : Option Nat := none
  sfMembershipNFTTaxon : Option Nat := none
  deriving DecidableEq, Repr

/-- The accessor `getFlags()` of an entry, a `std::uint32_t`. -/
def SLE.getFlags (sle : SLE) : Nat := sle.sfFlags % 2 ^ 32

/-- The mutator `clearFlag(f)` of an entry: `Flags = getFlags() & ~f`. -/
def SLE.clearFlag (sle : SLE) (f : Nat) : SLE :=
  { sle with sfFlags := sle.getFlags &&& not32 f }

/-- The fee schedule (`Fees`).  Only `accountReserve` is read; its arithmetic
is not among the sources, so the function is a parameter. -/
structure Fees where
  accountReserve : Nat → Int

/-- Modelled from the spec: the view classes (`ReadView`, `ApplyView`) are not
among the sources.  A view is "an abstract key→entry mapping over the current
ledger state" with the "derived structures (ordered per-owner directories, fee
schedule, enabled-amendment set)" of §2.  `entries` is the mapping; `updated`
lists the keys handed to `update`, latest first; a directory is a sequence of
pages, `dirLast` giving the number of its last page (none while the directory
does not exist) and `dirPages` the keys on each page; `dirNodeMaxEntries` and
`dirNodeMaxPages` are the page capacity and the "hard page-count ceiling" of
§4.3; `seq` is the ledger sequence and `open_` the result of `open()`. -/
structure ApplyView where
  entries : Keylet → Option SLE
  updated : List Keylet := []
  dirLast : Keylet → Option Nat := fun _ => none
  dirPages : Keylet → Nat → List Keylet := fun _ _ => []
  dirNodeMaxEntries : Nat := 32
  dirNodeMaxPages : Nat := 262144
  fees : Fees
  rules : Rules
  seq : Nat := 1
  open_ : Bool := true

/-- Modelled from the spec: `read(key) → optional Entry` of the object store
interface (§6), whose code is not among the sources. -/
def ApplyView.read (v : ApplyView) (k : Keylet) : Option SLE := v.entries k

/-- Modelled from the spec: `peek(key) → optional mutable-handle` of the object
store interface (§6), whose code is not among the sources.  The handle is the
entry under the key; writes through it are `ApplyView.modify`. -/
def ApplyView.peek (v : ApplyView) (k : Keylet) : Option SLE := v.entries k

/-- Modelled from the spec: `insert(Entry)` of the object store interface
(§6), whose code is not among the sources: the entry is stored under its
key. -/
def ApplyView.insert (v : ApplyView) (sle : SLE) : ApplyView :=
  { v with entries := fun k => if k = sle.key then some sle else v.entries k }

/-- Modelled from the spec: `update(Entry)` of the object store interface
(§6), whose code is not among the sources: the entry under the key is marked
as modified. -/
def ApplyView.update (v : ApplyView) (k : Keylet) : ApplyView :=
  { v with updated := k :: v.updated }

/-- Modelled from the spec: a write through the mutable handle that `peek`
returned for a key (§6; the handle classes are not among the sources): the
entry under the key is replaced by its image. -/
def ApplyView.modify (v : ApplyView) (k : Keylet) (f : SLE → SLE) : ApplyView :=
  { v with entries := fun k2 =>
      if k2 = k then (v.entries k).map f else v.entries k2 }

/-- Modelled from the spec: `dirInsert` (§4.3), whose code is not among the
sources: it "appends entryKey to the directory, allocating a new page if the
current page is full; returns nothing (failure) only if a hard page-count
ceiling is exceeded"; the page identifier it returns is the number of the page
that received the key.  The `describe` callback only labels a new page and is
left out. -/
def ApplyView.dirInsert (v : ApplyView) (directory key : Keylet) :
    Option Nat × ApplyView :=
  match v.dirLast directory with
  | none =>
    (some 0,
      { v with
        dirLast := fun d => if d = directory then some 0 else v.dirLast d
        dirPages := fun d n =>
          if d = directory ∧ n = 0 then [key] else v.dirPages d n })
  | some page =>
    if (v.dirPages directory page).length < v.dirNodeMaxEntries then
      (some page,
        { v with
          dirPages := fun d n =>
            if d = directory ∧ n = page then v.dirPages directory page ++ [key]
            else v.dirPages d n })
    else if page + 1 ≥ v.dirNodeMaxPages then
      (none, v)
    else
      (some (page + 1),
        { v with
          dirLast := fun d =>
            if d = directory then some (page + 1) else v.dirLast d
          dirPages := fun d n =>
            if d = directory ∧ n = page + 1 then [key] else v.dirPages d n })

/-- Modelled from the spec: `adjustOwnerCount` (§4.3), whose code is not among
the sources: it "increments/decrements the account's owner-object counter;
never allowed to underflow below zero", and the account root is marked as
modified.  Nothing happens when there is no entry under the key. -/
def adjustOwnerCount (v : ApplyView) (acct : Keylet) (amount : Int) : ApplyView :=
  match v.entries acct with
  | none => v
  | some _ =>
    (v.modify acct (fun sle =>
      { sle with sfOwnerCount := ((sle.sfOwnerCount : Int) + amount).toNat })).update
      acct

/-- The members of the transactor object that `doApply` reads: the transaction
(`ctx_.tx`), the account `account_`, the balance before the fee was charged
(`mPriorBalance`) and after (`mSourceBalance`). -/
structure TransactorState where
  tx : STTx
  account_ : AccountID
  mPriorBalance : Int
  mSourceBalance : Int

/-! ## `BallotCreate::doApply` -/

/-- The function `BallotCreate::doApply`, as a function from the view it is
given to the result code and the view it leaves.  The sum
`(*acct)[sfOwnerCount] + 1` is a `std::uint32_t` sum. -/
def BallotCreate.doApply (t : TransactorState) (view : ApplyView) :
    TER × ApplyView :=
  match view.peek (Keylet.account t.account_) with
  | none => (TER.tecINTERNAL, view)
  | some acct =>
    if t.mPriorBalance <
        view.fees.accountReserve ((acct.sfOwnerCount + 1) % 2 ^ 32) then
      (TER.tecINSUFFICIENT_RESERVE, view)
    else
      let ballotID := Keylet.ballot t.account_ t.tx.seqProxy
      match view.dirInsert (Keylet.ownerDir t.account_) ballotID with
      | (none, v1) => (TER.tecDIR_FULL, v1)
      | (some ownerNode, v1) =>
        let ballot : SLE :=
          { key := ballotID
            sfFlags := t.tx.getFlags &&& not32 tfUniversal
            sfOwnerNode := some ownerNode
            sfInitialVotes := t.tx.sfInitialVotes
            sfBallotChoiceIDs := t.tx.sfBallotChoiceIDs }
        let v2 := v1.insert ballot
        let v3 := adjustOwnerCount v2 (Keylet.account t.account_) 1
        (TER.tesSUCCESS, v3)

/-! ## `Payment` -/

/-- What `Payment::preflight` uses from outside the modelled sources, besides
the shared checks: the predicate `isLegalNet` and the constant
`badCurrency()`.  They are parameters of the embedding. -/
structure AmountExternals where
  isLegalNet : STAmount → Bool
  badCurrency : Nat

/-- The ledger-entry flags of `LedgerFormats.h` that `Payment` tests; the
header is not among the sources, so the constants are parameters. -/
structure LedgerFlags where
  lsfPasswordSpent : Nat
  lsfRequireDestTag : Nat

/-- The function `Payment::preflight`, check by check in source order. -/
def Payment.preflight (ext : Externals) (amt : AmountExternals)
    (ctx : PreflightContext) : TER :=
  let ret := ext.preflight1 ctx
  if !isTesSuccess ret then
    ret
  else
    let tx := ctx.tx
    let uTxFlags := tx.getFlags
    if uTxFlags &&& tfPaymentMask ≠ 0 then
      TER.temINVALID_FLAG
    else
      let partialPaymentAllowed : Bool := decide (uTxFlags &&& tfPartialPayment ≠ 0)
      let limitQuality : Bool := decide (uTxFlags &&& tfLimitQuality ≠ 0)
      let defaultPathsAllowed : Bool := !decide (uTxFlags &&& tfNoRippleDirect ≠ 0)
      let bMax : Bool := tx.sfSendMax.isSome
      let saDstAmount := tx.sfAmount
      let account := tx.sfAccount
      let maxSourceAmount : STAmount :=
        match tx.sfSendMax with
        | some sendMax => sendMax
        | none => saDstAmount
      let uSrcCurrency := maxSourceAmount.getCurrency
      let uDstCurrency := saDstAmount.getCurrency
      if !amt.isLegalNet saDstAmount || !amt.isLegalNet maxSourceAmount then
        TER.temBAD_AMOUNT
      else
        let uDstAccountID := tx.sfDestination
        if uDstAccountID = 0 then
          TER.temDST_NEEDED
        else if bMax && decide (maxSourceAmount.value ≤ 0) then
          TER.temBAD_AMOUNT
        else if saDstAmount.value ≤ 0 then
          TER.temBAD_AMOUNT
        else if amt.badCurrency = uSrcCurrency ∨ amt.badCurrency = uDstCurrency then
          TER.temBAD_CURRENCY
        else if account = uDstAccountID ∧ uSrcCurrency = uDstCurrency then
          TER.temREDUNDANT
        else if bMax then
          TER.temBAD_SEND_XRP_MAX
        else if partialPaymentAllowed then
          TER.temBAD_SEND_XRP_PARTIAL
        else if limitQuality then
          TER.temBAD_SEND_XRP_LIMIT
        else if !defaultPathsAllowed then
          TER.temBAD_SEND_XRP_NO_DIRECT
        else
          match tx.sfDeliverMin with
          | some dMin =>
            if !partialPaymentAllowed then
              TER.temBAD_AMOUNT
            else if !amt.isLegalNet dMin || decide (dMin.value ≤ 0) then
              TER.temBAD_AMOUNT
            else if dMin.issue ≠ saDstAmount.issue then
              TER.temBAD_AMOUNT
            else if dMin.value > saDstAmount.value then
              TER.temBAD_AMOUNT
            else
              ext.preflight2 ctx
          | none => ext.preflight2 ctx

/-- The function `Payment::preclaim`. -/
def Payment.preclaim (lf : LedgerFlags) (ctx : PreclaimContext ApplyView) : TER :=
  let uTxFlags := ctx.tx.getFlags
  let partialPaymentAllowed : Bool := decide (uTxFlags &&& tfPartialPayment ≠ 0)
  let uDstAccountID := ctx.tx.sfDestination
  let saDstAmount := ctx.tx.sfAmount
  let k := Keylet.account uDstAccountID
  match ctx.view.read k with
  | none =>
    if ctx.view.open_ && partialPaymentAllowed then
      TER.telNO_DST_PARTIAL
    else if saDstAmount.value < ctx.view.fees.accountReserve 0 then
      TER.tecNO_DST_INSUF_XRP
    else
      TER.tesSUCCESS
  | some sleDst =>
    if sleDst.getFlags &&& lf.lsfRequireDestTag ≠ 0
        ∧ ctx.tx.sfDestinationTag.isNone = true then
      TER.tecDST_TAG_NEEDED
    else
      TER.tesSUCCESS

/-- The function `Payment::doApply`, as a function from the view it is given
to the result code and the view it leaves.  The destination's account root is
created or marked first; the source is looked up and the funds are checked
after that. -/
def Payment.doApply (lf : LedgerFlags) (t : TransactorState) (view : ApplyView) :
    TER × ApplyView :=
  let uDstAccountID := t.tx.sfDestination
  let saDstAmount := t.tx.sfAmount
  let k := Keylet.account uDstAccountID
  let v1 :=
    match view.peek k with
    | none =>
      let seqno :=
        if view.rules.enabled Feature.featureDeletableAccounts then view.seq else 1
      view.insert { key := k, sfAccount := some uDstAccountID, sfSequence := seqno }
    | some _ => view.update k
  match v1.peek (Keylet.account t.account_) with
  | none => (TER.tefINTERNAL, v1)
  | some sleSrc =>
    let uOwnerCount := sleSrc.sfOwnerCount
    let reserve := v1.fees.accountReserve uOwnerCount
    let mmm := max reserve t.tx.sfFee.xrp
    if t.mPriorBalance < saDstAmount.xrp + mmm then
      (TER.tecUNFUNDED_PAYMENT, v1)
    else
      let v2 := v1.modify (Keylet.account t.account_) (fun sle =>
        { sle with sfBalance := t.mSourceBalance - saDstAmount.value })
      let v3 := v2.modify k (fun sle =>
        { sle with sfBalance := sle.sfBalance + saDstAmount.value })
      let v4 := v3.modify k (fun sle =>
        if sle.getFlags &&& lf.lsfPasswordSpent ≠ 0 then
          sle.clearFlag lf.lsfPasswordSpent
        else sle)
      (TER.tesSUCCESS, v4)

/-! ## The query surface: `doLedgerEntry` -/

/-- A JSON value (`Json::Value`), the type of the request parameters. -/
inductive Json where
  | null
  | bool (b : Bool)
  | int (n : Int)
  | str (s : String)
  | arr (items : List Json)
  | obj (members : List (String × Json))

/-- The test `isMember(key)`: the value is an object with that member. -/
def Json.isMember (j : Json) (key : String) : Bool :=
  match j with
  | .obj members => (members.lookup key).isSome
  | _ => false

/-- The read `value[key]`: the member, or null when there is none. -/
def Json.get (j : Json) (key : String) : Json :=
  match j with
  | .obj members => (members.lookup key).getD .null
  | _ => .null

/-- The read `value[i]` of an array: the element, or null when there is
none. -/
def Json.at (j : Json) (i : Nat) : Json :=
  match j with
  | .arr items => items.getD i .null
  | _ => .null

/-- The count `size()`: the number of elements or members. -/
def Json.size (j : Json) : Nat :=
  match j with
  | .arr items => items.length
  | .obj members => members.length
  | _ => 0

/-- The test `isNull()`. -/
def Json.isNull : Json → Bool
  | .null => true
  | _ => false

/-- The test `isBool()`. -/
def Json.isBool : Json → Bool
  | .bool _ => true
  | _ => false

/-- The test `isString()`. -/
def Json.isString : Json → Bool
  | .str _ => true
  | _ => false

/-- The test `isIntegral()`: an integer or a boolean. -/
def Json.isIntegral : Json → Bool
  | .int _ => true
  | .bool _ => true
  | _ => false

/-- The test `isArray()`. -/
def Json.isArray : Json → Bool
  | .arr _ => true
  | _ => false

/-- The test `isObject()`. -/
def Json.isObject : Json → Bool
  | .obj _ => true
  | _ => false

/-- The types of ledger entries that `doLedgerEntry` names; `other` is any
further type. -/
inductive LedgerEntryType where
  | ltANY
  | ltACCOUNT_ROOT
  | ltDEPOSIT_PREAUTH
  | ltDIR_NODE
  | ltOFFER
  | ltPAYCHAN
  | ltRIPPLE_STATE
  | ltTICKET
  | ltNFTOKEN_PAGE
  | other (n : Nat)
  deriving DecidableEq, Repr

/-- A ledger entry as the query surface reads it: its type (`getType()`), the
hexadecimal form of its serialization (`strHex(s.peekData())` after
`add(s)`), and its JSON form (`getJson(JsonOptions::none)`). -/
structure LedgerNode where
  getType : LedgerEntryType
  hex : String
  json : Json

/-- A ledger as the query surface reads it (`ReadView`): entries under raw
256-bit keys, which are natural numbers, zero being `beast::zero`. -/
structure ReadView where
  read : Nat → Option LedgerNode

/-- What `doLedgerEntry` uses from outside the modelled sources: the ledger
lookup `RPC::lookupLedger`, which yields the ledger (if the request resolves to
one) and the result object it fills in; the parsers `parseHex`,
`parseBase58<AccountID>` and `to_currency`, an absent value being a failed
parse; the conversions `asString`, `asUInt` and `asBool` of `Json::Value` and
`to_string` of a key; and the key derivations, each yielding the 256-bit
key.  They are parameters of the embedding. -/
structure RpcExternals where
  lookupLedger : Json → Option ReadView × Json
  parseHex : String → Option Nat
  parseBase58 : String → Option AccountID
  to_currency : String → Option Nat
  asString : Json → String
  asUInt : Json → Nat
  asBool : Json → Bool
  to_string : Nat → String
  keyletAccount : AccountID → Nat
  keyletDepositPreauth : AccountID → AccountID → Nat
  keyletPage : Nat → Nat → Nat
  keyletOwnerDir : AccountID → Nat
  keyletOffer : AccountID → Nat → Nat
  keyletLine : AccountID → AccountID → Nat → Nat
  getTicketIndex : AccountID → Nat → Nat

/-- The local state of `doLedgerEntry` after the selector has been resolved:
the key `uNodeIndex` (zero at its declaration), the `error` member set on the
result (if any), and `expectedType`. -/
structure KeyResolution where
  uNodeIndex : Nat := 0
  error : Option String := none
  expectedType : LedgerEntryType := LedgerEntryType.ltANY

/-- The recurring step `if (!uNodeIndex.parseHex(text)) { uNodeIndex =
beast::zero; jvResult[jss::error] = "malformedRequest"; }` of
`doLedgerEntry`. -/
def doLedgerEntry.parseIndex (ext : RpcExternals) (expected : LedgerEntryType)
    (text : String) : KeyResolution :=
  match ext.parseHex text with
  | some key => { uNodeIndex := key, expectedType := expected }
  | none =>
    { uNodeIndex := 0, error := some "malformedRequest", expectedType := expected }

/-- The selector chain of `doLedgerEntry` (the `if` / `else if` cascade over
the members of the request), branch by branch in source order. -/
def doLedgerEntry.resolve (ext : RpcExternals) (params : Json) : KeyResolution :=
  if params.isMember "index" then
    doLedgerEntry.parseIndex ext .ltANY (ext.asString (params.get "index"))
  else if params.isMember "account_root" then
    match ext.parseBase58 (ext.asString (params.get "account_root")) with
    | none => { error := some "malformedAddress", expectedType := .ltACCOUNT_ROOT }
    | some account =>
      if account = 0 then
        { error := some "malformedAddress", expectedType := .ltACCOUNT_ROOT }
      else
        { uNodeIndex := ext.keyletAccount account, expectedType := .ltACCOUNT_ROOT }
  else if params.isMember "deposit_preauth" then
    let dp := params.get "deposit_preauth"
    if !dp.isObject then
      if !dp.isString then
        { uNodeIndex := 0, error := some "malformedRequest",
          expectedType := .ltDEPOSIT_PREAUTH }
      else
        doLedgerEntry.parseIndex ext .ltDEPOSIT_PREAUTH (ext.asString dp)
    else if !dp.isMember "owner" || !(dp.get "owner").isString ||
        !dp.isMember "authorized" || !(dp.get "authorized").isString then
      { error := some "malformedRequest", expectedType := .ltDEPOSIT_PREAUTH }
    else
      match ext.parseBase58 (ext.asString (dp.get "owner")),
          ext.parseBase58 (ext.asString (dp.get "authorized")) with
      | none, _ =>
        { error := some "malformedOwner", expectedType := .ltDEPOSIT_PREAUTH }
      | some _, none =>
        { error := some "malformedAuthorized", expectedType := .ltDEPOSIT_PREAUTH }
      | some owner, some authorized =>
        { uNodeIndex := ext.keyletDepositPreauth owner authorized,
          expectedType := .ltDEPOSIT_PREAUTH }
  else if params.isMember "directory" then
    let dir := params.get "directory"
    if dir.isNull then
      { error := some "malformedRequest", expectedType := .ltDIR_NODE }
    else if !dir.isObject then
      doLedgerEntry.parseIndex ext .ltDIR_NODE (ext.asString dir)
    else if dir.isMember "sub_index" && !(dir.get "sub_index").isIntegral then
      { error := some "malformedRequest", expectedType := .ltDIR_NODE }
    else
      let uSubIndex :=
        if dir.isMember "sub_index" then ext.asUInt (dir.get "sub_index") else 0
      if dir.isMember "dir_root" then
        if dir.isMember "owner" then
          { error := some "malformedRequest", expectedType := .ltDIR_NODE }
        else
          match ext.parseHex (ext.asString (dir.get "dir_root")) with
          | none =>
            { uNodeIndex := 0, error := some "malformedRequest",
              expectedType := .ltDIR_NODE }
          | some uDirRoot =>
            { uNodeIndex := ext.keyletPage uDirRoot uSubIndex,
              expectedType := .ltDIR_NODE }
      else if dir.isMember "owner" then
        match ext.parseBase58 (ext.asString (dir.get "owner")) with
        | none => { error := some "malformedAddress", expectedType := .ltDIR_NODE }
        | some ownerID =>
          { uNodeIndex := ext.keyletPage (ext.keyletOwnerDir ownerID) uSubIndex,
            expectedType := .ltDIR_NODE }
      else
        { error := some "malformedRequest", expectedType := .ltDIR_NODE }
  else if params.isMember "offer" then
    let offer := params.get "offer"
    if !offer.isObject then
      doLedgerEntry.parseIndex ext .ltOFFER (ext.asString offer)
    else if !offer.isMember "account" || !offer.isMember "seq" ||
        !(offer.get "seq").isIntegral then
      { error := some "malformedRequest", expectedType := .ltOFFER }
    else
      match ext.parseBase58 (ext.asString (offer.get "account")) with
      | none => { error := some "malformedAddress", expectedType := .ltOFFER }
      | some id =>
        { uNodeIndex := ext.keyletOffer id (ext.asUInt (offer.get "seq")),
          expectedType := .ltOFFER }
  else if params.isMember "payment_channel" then
    doLedgerEntry.parseIndex ext .ltPAYCHAN
      (ext.asString (params.get "payment_channel"))
  else if params.isMember "ripple_state" then
    let jvRippleState := params.get "ripple_state"
    if !jvRippleState.isObject || !jvRippleState.isMember "currency" ||
        !jvRippleState.isMember "accounts" ||
        !(jvRippleState.get "accounts").isArray ||
        decide (2 ≠ (jvRippleState.get "accounts").size) ||
        !((jvRippleState.get "accounts").at 0).isString ||
        !((jvRippleState.get "accounts").at 1).isString ||
        decide (ext.asString ((jvRippleState.get "accounts").at 0) =
          ext.asString ((jvRippleState.get "accounts").at 1)) then
      { error := some "malformedRequest", expectedType := .ltRIPPLE_STATE }
    else
      match ext.parseBase58 (ext.asString ((jvRippleState.get "accounts").at 0)),
          ext.parseBase58 (ext.asString ((jvRippleState.get "accounts").at 1)) with
      | some id1, some id2 =>
        match ext.to_currency (ext.asString (jvRippleState.get "currency")) with
        | none =>
          { error := some "malformedCurrency", expectedType := .ltRIPPLE_STATE }
        | some uCurrency =>
          { uNodeIndex := ext.keyletLine id1 id2 uCurrency,
            expectedType := .ltRIPPLE_STATE }
      | _, _ =>
        { error := some "malformedAddress", expectedType := .ltRIPPLE_STATE }
  else if params.isMember "ticket" then
    let ticket := params.get "ticket"
    if !ticket.isObject then
      doLedgerEntry.parseIndex ext .ltTICKET (ext.asString ticket)
    else if !ticket.isMember "account" || !ticket.isMember "ticket_seq" ||
        !(ticket.get "ticket_seq").isIntegral then
      { error := some "malformedRequest", expectedType := .ltTICKET }
    else
      match ext.parseBase58 (ext.asString (ticket.get "account")) with
      | none => { error := some "malformedAddress", expectedType := .ltTICKET }
      | some id =>
        { uNodeIndex := ext.getTicketIndex id (ext.asUInt (ticket.get "ticket_seq")),
          expectedType := .ltTICKET }
  else if params.isMember "nft_page" then
    if (params.get "nft_page").isString then
      doLedgerEntry.parseIndex ext .ltNFTOKEN_PAGE
        (ext.asString (params.get "nft_page"))
    else
      { error := some "malformedRequest", expectedType := .ltNFTOKEN_PAGE }
  else
    if params.isMember "params" && (params.get "params").isArray &&
        decide ((params.get "params").size = 1) &&
        ((params.get "params").at 0).isString then
      doLedgerEntry.parseIndex ext .ltANY
        (ext.asString ((params.get "params").at 0))
    else
      { error := some "unknownOption" }

/-- The members of the result object `jvResult` of `doLedgerEntry`:
`ledgerInfo` is the object as `RPC::lookupLedger` filled it in, the other
fields are the members that `doLedgerEntry` sets. -/
structure LedgerEntryResult where
  ledgerInfo : Json
  error : Option String := none
  node : Option Json := none
  node_binary : Option String := none
  index : Option String := none

/-- The function `doLedgerEntry`: the ledger lookup, the selector chain, and
the read of the entry under a non-zero key. -/
def doLedgerEntry (ext : RpcExternals) (params : Json) : LedgerEntryResult :=
  match ext.lookupLedger params with
  | (none, jvResult) => { ledgerInfo := jvResult }
  | (some lpLedger, jvResult) =>
    let r := doLedgerEntry.resolve ext params
    let resolved : LedgerEntryResult := { ledgerInfo := jvResult, error := r.error }
    if r.uNodeIndex ≠ 0 then
      let bNodeBinary : Bool :=
        if params.isMember "binary" then ext.asBool (params.get "binary") else false
      match lpLedger.read r.uNodeIndex with
      | none => { resolved with error := some "entryNotFound" }
      | some sleNode =>
        if r.expectedType ≠ LedgerEntryType.ltANY ∧
            r.expectedType ≠ sleNode.getType then
          { resolved with error := some "unexpectedLedgerType" }
        else if bNodeBinary then
          { resolved with
            node_binary := some sleNode.hex
            index := some (ext.to_string r.uNodeIndex) }
        else
          { resolved with
            node := some sleNode.json
            index := some (ext.to_string r.uNodeIndex) }
    else
      resolved

/-! ## The query surface: `doUnsubscribe` -/

/-- The elements of a JSON array, in order (what `for (auto& it : value)`
visits); no element for a value that is not an array. -/
def Json.items : Json → List Json
  | .arr items => items
  | _ => []

/-- The error codes that `doUnsubscribe` hands to `rpcError`. -/
inductive RpcErrorCode where
  | rpcINVALID_PARAMS
  | rpcNO_PERMISSION
  | rpcSTREAM_MALFORMED
  | rpcACT_MALFORMED
  deriving DecidableEq, Repr

/-- The role of the caller (`Role`): `ADMIN`, or any other role. -/
inductive Role where
  | ADMIN
  | other (n : Nat)
  deriving DecidableEq, Repr

/-- A subscriber (`InfoSub`), with the sequence number that `getSeq()`
returns. -/
structure InfoSub where
  getSeq : Nat
  deriving DecidableEq, Repr

/-- The calls that `doUnsubscribe` makes on `context.netOps` to change the
subscriptions.  The subscription tables of `NetworkOPs` are not among the
sources: the effect of a run is the sequence of these calls, in the order in
which they are made. -/
inductive NetOpsCall where
  | unsubServer (seq : Nat)
  | unsubLedger (seq : Nat)
  | unsubManifests (seq : Nat)
  | unsubTransactions (seq : Nat)
  | unsubRTTransactions (seq : Nat)
  | unsubValidations (seq : Nat)
  | unsubPeerStatus (seq : Nat)
  | unsubConsensus (seq : Nat)
  | unsubAccount (sub : InfoSub) (ids : List AccountID) (rt : Bool)
  | unsubAccountHistory (sub : InfoSub) (id : AccountID)
      (stopHistoryOnly : Bool)
  | tryRemoveRpcSub (url : String)
  deriving DecidableEq, Repr

/-- The context of a call of `doUnsubscribe` (`RPC::JsonContext`): the
parameters, the subscriber of the connection (`infoSub`, which may be null),
and the role of the caller. -/
structure JsonContext where
  params : Json
  infoSub : Option InfoSub := none
  role : Role := Role.other 0

/-- What `doUnsubscribe` uses from outside the modelled sources, besides the
conversions of `RpcExternals`: the lookup `findRpcSub` of `NetworkOPs` and the
parser `RPC::parseAccountIds`, whose set of accounts is a list here.  They are
parameters of the embedding. -/
structure UnsubscribeExternals where
  findRpcSub : String → Option InfoSub
  parseAccountIds : Json → List AccountID

/-- What `doUnsubscribe` returns: the error object made by `rpcError(code)`,
or `jvResult`, which is the empty object throughout. -/
inductive UnsubscribeResult where
  | rpcError (code : RpcErrorCode)
  | jvResult
  deriving DecidableEq, Repr

/-- The chain of comparisons on `streamName` in the loop over `streams`: the
call made for a known stream name, none for any other name. -/
def doUnsubscribe.streamCall (seq : Nat) (streamName : String) :
    Option NetOpsCall :=
  if streamName = "server" then some (.unsubServer seq)
  else if streamName = "ledger" then some (.unsubLedger seq)
  else if streamName = "manifests" then some (.unsubManifests seq)
  else if streamName = "transactions" then some (.unsubTransactions seq)
  else if streamName = "transactions_proposed" ∨
      streamName = "rt_transactions" then
    some (.unsubRTTransactions seq)
  else if streamName = "validations" then some (.unsubValidations seq)
  else if streamName = "peer_status" then some (.unsubPeerStatus seq)
  else if streamName = "consensus" then some (.unsubConsensus seq)
  else none

/-- The loop `for (auto& it : context.params[jss::streams])`, from the
elements still to visit and the calls made so far: an error with the calls
made before it, or the calls of the whole loop. -/
def doUnsubscribe.streams (ext : RpcExternals) (seq : Nat) :
    List Json → List NetOpsCall → Option RpcErrorCode × List NetOpsCall
  | [], calls => (none, calls)
  | it :: rest, calls =>
    if !it.isString then
      (some RpcErrorCode.rpcSTREAM_MALFORMED, calls)
    else
      match doUnsubscribe.streamCall seq (ext.asString it) with
      | some call => doUnsubscribe.streams ext seq rest (calls ++ [call])
      | none => (some RpcErrorCode.rpcSTREAM_MALFORMED, calls)

/-- The part of `doUnsubscribe` that follows the choice of the subscriber
`ispSub`: the members `streams`, `accounts_proposed` (or `rt_accounts`),
`accounts` and `account_history_tx_stream` in this order, then the removal of
the URL subscriber.  The result comes with the calls made on `netOps`. -/
def doUnsubscribe.body (ext : RpcExternals) (ux : UnsubscribeExternals)
    (context : JsonContext) (ispSub : InfoSub) (removeUrl : Bool) :
    UnsubscribeResult × List NetOpsCall :=
  let params := context.params
  match (if params.isMember "streams" then
      if !(params.get "streams").isArray then
        (some RpcErrorCode.rpcINVALID_PARAMS, [])
      else
        doUnsubscribe.streams ext ispSub.getSeq (params.get "streams").items []
    else (none, [])) with
  | (some code, calls) => (.rpcError code, calls)
  | (none, calls) =>
    let accountsProposed :=
      if params.isMember "accounts_proposed" then "accounts_proposed"
      else "rt_accounts"
    match (if params.isMember accountsProposed then
        if !(params.get accountsProposed).isArray then
          (some RpcErrorCode.rpcINVALID_PARAMS, calls)
        else
          let ids := ux.parseAccountIds (params.get accountsProposed)
          if ids.isEmpty then (some RpcErrorCode.rpcACT_MALFORMED, calls)
          else (none, calls ++ [.unsubAccount ispSub ids true])
      else (none, calls)) with
    | (some code, calls) => (.rpcError code, calls)
    | (none, calls) =>
      match (if params.isMember "accounts" then
          if !(params.get "accounts").isArray then
            (some RpcErrorCode.rpcINVALID_PARAMS, calls)
          else
            let ids := ux.parseAccountIds (params.get "accounts")
            if ids.isEmpty then (some RpcErrorCode.rpcACT_MALFORMED, calls)
            else (none, calls ++ [.unsubAccount ispSub ids false])
        else (none, calls)) with
      | (some code, calls) => (.rpcError code, calls)
      | (none, calls) =>
        match (if params.isMember "account_history_tx_stream" then
            let req := params.get "account_history_tx_stream"
            if !req.isMember "account" || !(req.get "account").isString then
              (some RpcErrorCode.rpcINVALID_PARAMS, calls)
            else
              match ext.parseBase58 (ext.asString (req.get "account")) with
              | none => (some RpcErrorCode.rpcINVALID_PARAMS, calls)
              | some id =>
                if req.isMember "stop_history_tx_only" then
                  if !(req.get "stop_history_tx_only").isBool then
                    (some RpcErrorCode.rpcINVALID_PARAMS, calls)
                  else
                    (none, calls ++ [.unsubAccountHistory ispSub id
                      (ext.asBool (req.get "stop_history_tx_only"))])
                else
                  (none, calls ++ [.unsubAccountHistory ispSub id false])
          else (none, calls)) with
        | (some code, calls) => (.rpcError code, calls)
        | (none, calls) =>
          if removeUrl then
            (.jvResult,
              calls ++ [.tryRemoveRpcSub (ext.asString (params.get "url"))])
          else
            (.jvResult, calls)

/-- The function `doUnsubscribe`: the choice of the subscriber, then the
body.  The result comes with the calls made on `netOps`, in order. -/
def doUnsubscribe (ext : RpcExternals) (ux : UnsubscribeExternals)
    (context : JsonContext) : UnsubscribeResult × List NetOpsCall :=
  if context.infoSub.isNone && !context.params.isMember "url" then
    (.rpcError RpcErrorCode.rpcINVALID_PARAMS, [])
  else if context.params.isMember "url" then
    if context.role ≠ Role.ADMIN then
      (.rpcError RpcErrorCode.rpcNO_PERMISSION, [])
    else
      match ux.findRpcSub (ext.asString (context.params.get "url")) with
      | none => (.jvResult, [])
      | some ispSub => doUnsubscribe.body ext ux context ispSub true
  else
    match context.infoSub with
    | some ispSub => doUnsubscribe.body ext ux context ispSub false
    | none => (.rpcError RpcErrorCode.rpcINVALID_PARAMS, [])

/-! ## Sample inputs -/

/-- Rules with every amendment enabled. -/
def allEnabled : Rules := { enabled := fun _ => true }

/-- Rules with every amendment but `featureBallotsV1` enabled. -/
def ballotsDisabled : Rules :=
  { enabled := fun f => decide (f ≠ Feature.featureBallotsV1) }

/-- Shared checks that pass, with limits of 4 choices and 8 URI bytes. -/
def sampleExternals : Externals :=
  { preflight1 := fun _ => TER.tesSUCCESS
    preflight2 := fun _ => TER.tesSUCCESS
    maxBallotChoiceIDsLength := 4
    maxBallotDocumentUriLength := 8 }

/-- A well-formed ballot creation, after the test helper
`ballot::create(account)`: universal flag, one initial vote, one choice, a
document URI with its hash, a membership issuer with a taxon. -/
def sampleTx : STTx :=
  { sfFlags := tfUniversal
    sfInitialVotes := some 1
    sfBallotChoiceIDs := some [11]
    sfBallotDocumentURI := some [100, 105, 100]
    sfBallotDocumentHash := some 12
    sfMembershipNFTIssuer := some 5
    sfMembershipNFTTaxon := some 1 }

/-- A toy view for the pipeline: the owner count of the one account. -/
abbrev OwnerCountView := Nat

/-- An apply stage on the toy view that adds one owned object. -/
def sampleDoApply (_tx : STTx) (view : OwnerCountView) : TER × OwnerCountView :=
  (TER.tesSUCCESS, view + 1)

/-- A fee schedule with a base reserve of 10 drops and 2 drops per owned
object. -/
def sampleFees : Fees := { accountReserve := fun n => 10 + 2 * (n : Int) }

/-- Ledger-entry flags with the values `0x00010000` and `0x00020000`. -/
def sampleLedgerFlags : LedgerFlags :=
  { lsfPasswordSpent := 0x00010000, lsfRequireDestTag := 0x00020000 }

/-- The account root of account 5: 1000 drops, no owned object. -/
def sampleRoot : SLE :=
  { key := Keylet.account 5, sfAccount := some 5, sfSequence := 3,
    sfBalance := 1000 }

/-- The account root of account 8, which requires a destination tag. -/
def taggedRoot : SLE :=
  { key := Keylet.account 8, sfAccount := some 8, sfSequence := 1,
    sfBalance := 50, sfFlags := 0x00020000 }

/-- A view with no entry at all. -/
def emptyView : ApplyView :=
  { entries := fun _ => none, fees := sampleFees, rules := allEnabled }

/-- A view holding the account roots of accounts 5 and 8. -/
def sampleView : ApplyView :=
  { entries := fun k =>
      if k = Keylet.account 5 then some sampleRoot
      else if k = Keylet.account 8 then some taggedRoot
      else none
    fees := sampleFees
    rules := allEnabled }

/-- The sample view with an owner directory for account 5 that can take no
further key: one page of one key, at most one page. -/
def fullDirView : ApplyView :=
  { sampleView with
    dirLast := fun d => if d = Keylet.ownerDir 5 then some 0 else none
    dirPages := fun d n =>
      if d = Keylet.ownerDir 5 ∧ n = 0 then [Keylet.ballot 5 1] else []
    dirNodeMaxEntries := 1
    dirNodeMaxPages := 1 }

/-- The transactor for the sample ballot creation by account 5, with sequence 3
and a fee of 10 drops already charged. -/
def sampleState : TransactorState :=
  { tx := { sampleTx with sfAccount := 5, seqProxy := 3 }
    account_ := 5
    mPriorBalance := 1000
    mSourceBalance := 990 }

/-- A payment of 100 drops from account 5 to account 6, fee 10 drops. -/
def samplePayment : STTx :=
  { sfFlags := tfUniversal
    sfAccount := 5
    sfDestination := 6
    sfAmount := { value := 100 }
    sfFee := { value := 10 } }

/-- The transactor for the sample ballot creation with the flags
`0x80000005`. -/
def flaggedState : TransactorState :=
  { sampleState with tx := { sampleState.tx with sfFlags := 0x80000005 } }

/-- The transactor for the sample payment, fee already charged. -/
def samplePaymentState : TransactorState :=
  { tx := samplePayment
    account_ := 5
    mPriorBalance := 1000
    mSourceBalance := 990 }

/-- Amount helpers that accept every amount, with bad currency 1. -/
def sampleAmountExternals : AmountExternals :=
  { isLegalNet := fun _ => true, badCurrency := 1 }

/-- Shared checks of which the first fails with a code of its own: `other 0`
stands for a code that the transactor sources do not name. -/
def failingExternals : Externals :=
  { sampleExternals with preflight1 := fun _ => TER.other 0 }

/-- Shared checks of which the first fails with `temINVALID_FLAG`. -/
def rejectingExternals : Externals :=
  { sampleExternals with preflight1 := fun _ => TER.temINVALID_FLAG }

/-- The sample ballot creation with no initial vote. -/
def noVoteTx : STTx := { sampleTx with sfInitialVotes := some 0 }

/-- The account root of account 9, whose flags are `lsfPasswordSpent` and
`lsfRequireDestTag` of the sample ledger flags. -/
def spentRoot : SLE :=
  { key := Keylet.account 9, sfAccount := some 9, sfSequence := 2,
    sfBalance := 70, sfFlags := 0x00030000 }

/-- A view holding the account roots of accounts 5 and 9. -/
def spentView : ApplyView :=
  { entries := fun k =>
      if k = Keylet.account 5 then some sampleRoot
      else if k = Keylet.account 9 then some spentRoot
      else none
    fees := sampleFees
    rules := allEnabled }

/-- The transactor for a payment of 100 drops from account 5 to account 9. -/
def spentPaymentState : TransactorState :=
  { samplePaymentState with tx := { samplePayment with sfDestination := 9 } }

/-- The hexadecimal form of the zero key: 64 zeros. -/
def zeroKeyHex : String :=
  "0000000000000000000000000000000000000000000000000000000000000000"

/-- The hexadecimal form of the key 1. -/
def oneKeyHex : String :=
  "0000000000000000000000000000000000000000000000000000000000000001"

/-- A ledger with one entry, an account root under the key 1. -/
def sampleLedger : ReadView :=
  { read := fun key =>
      if key = 1 then
        some { getType := LedgerEntryType.ltACCOUNT_ROOT, hex := "1100612200000000",
               json := Json.obj [("LedgerEntryType", Json.str "AccountRoot")] }
      else none }

/-- Helpers for the query surface: every request resolves to the sample
ledger; the hexadecimal parser knows the keys 0 and 1; the address parser
knows one address, of account 5, whose account root has the key 1. -/
def sampleRpc : RpcExternals :=
  { lookupLedger := fun _ =>
      (some sampleLedger, Json.obj [("ledger_current_index", Json.int 3)])
    parseHex := fun text =>
      if text = zeroKeyHex then some 0
      else if text = oneKeyHex then some 1
      else none
    parseBase58 := fun text => if text = "rAlice" then some 5 else none
    to_currency := fun text => if text = "USD" then some 1 else none
    asString := fun j => match j with
      | Json.str text => text
      | _ => ""
    asUInt := fun j => match j with
      | Json.int n => n.toNat
      | _ => 0
    asBool := fun j => match j with
      | Json.bool b => b
      | _ => false
    to_string := fun key => if key = 0 then zeroKeyHex else oneKeyHex
    keyletAccount := fun id => id - 4
    keyletDepositPreauth := fun owner authorized => 1000 + 10 * owner + authorized
    keyletPage := fun root sub => 2000 + 10 * root + sub
    keyletOwnerDir := fun id => 3000 + id
    keyletOffer := fun id seq => 4000 + 10 * id + seq
    keyletLine := fun a b c => 5000 + 100 * a + 10 * b + c
    getTicketIndex := fun id seq => 6000 + 10 * id + seq }

/-- The sample payment from account 5 to itself. -/
def selfPayment : STTx := { samplePayment with sfDestination := 5 }

/-- The sample payment with a `SendMax` of 200 drops. -/
def sendMaxPayment : STTx :=
  { samplePayment with sfSendMax := some { value := 200 } }

/-- The sample payment with a `DeliverMin` of 50 drops. -/
def deliverMinPayment : STTx :=
  { samplePayment with sfDeliverMin := some { value := 50 } }

/-- The preflight context of the self-payment, every amendment enabled. -/
def selfPaymentContext : PreflightContext :=
  { tx := selfPayment, rules := allEnabled }

/-- The preflight context of the payment with `SendMax`. -/
def sendMaxContext : PreflightContext :=
  { tx := sendMaxPayment, rules := allEnabled }

/-- The preflight context of the payment with `DeliverMin`. -/
def deliverMinContext : PreflightContext :=
  { tx := deliverMinPayment, rules := allEnabled }

/-- The preflight context of the sample payment. -/
def samplePaymentContext : PreflightContext :=
  { tx := samplePayment, rules := allEnabled }

/-- Helpers for `doUnsubscribe`: one URL subscriber, and an account parser
that yields account 5. -/
def sampleUnsubscribe : UnsubscribeExternals :=
  { findRpcSub := fun url =>
      if url = "http://hook" then some { getSeq := 9 } else none
    parseAccountIds := fun _ => [5] }

/-- A call of `doUnsubscribe` on the connection of subscriber 7, with four
streams of which the third is not a stream name, and an account. -/
def sampleContext : JsonContext :=
  { params :=
      Json.obj
        [("streams",
            Json.arr [Json.str "ledger", Json.str "server", Json.str "bogus",
              Json.str "transactions"]),
          ("accounts", Json.arr [Json.str "rAlice"])]
    infoSub := some { getSeq := 7 } }

/-! ## Basic facts -/

theorem tfUniversalMask_eq : tfUniversalMask = 2 ^ 31 - 1 := by
  decide

theorem getFlags_lt (tx : STTx) : tx.getFlags < 2 ^ 32 := by
  unfold STTx.getFlags
  exact Nat.mod_lt _ (by norm_num)

/-- The mask test of the flag check, as a remainder. -/
theorem and_tfUniversalMask (x : Nat) : x &&& tfUniversalMask = x % 2 ^ 31 := by
  rw [tfUniversalMask_eq, Nat.and_pow_two_sub_one_eq_mod]

/-- Every result of `BallotCreate::preflight` comes from one of five places:
the feature gate, the flag check, a field check, `preflight1`, or
`preflight2`; the last only for a transaction that passes every check. -/
theorem BallotCreate.preflight_sources (ext : Externals)
    (ctx : PreflightContext) :
    (BallotCreate.preflight ext ctx = TER.temDISABLED ∧
        ctx.rules.enabled Feature.featureBallotsV1 = false) ∨
    (BallotCreate.preflight ext ctx = TER.temINVALID_FLAG ∧
        ctx.tx.getFlags &&& tfUniversalMask ≠ 0) ∨
    BallotCreate.preflight ext ctx = TER.temMALFORMED ∨
    (BallotCreate.preflight ext ctx = ext.preflight1 ctx ∧
        isTesSuccess (ext.preflight1 ctx) = false) ∨
    (BallotCreate.preflight ext ctx = ext.preflight2 ctx ∧
        isTesSuccess (ext.preflight1 ctx) = true ∧
        (∃ v, ctx.tx.sfInitialVotes = some v ∧ 1 ≤ v) ∧
        (∃ ids, ctx.tx.sfBallotChoiceIDs = some ids ∧ ids ≠ [] ∧
          ids.length ≤ ext.maxBallotChoiceIDsLength) ∧
        (∀ uri, ctx.tx.sfBallotDocumentURI = some uri →
          ctx.tx.sfBallotDocumentHash.isSome = true ∧ uri ≠ [] ∧
            uri.length ≤ ext.maxBallotDocumentUriLength) ∧
        (∀ o c, ctx.tx.sfOpenTime = some o → ctx.tx.sfCloseTime = some c →
          o ≤ c) ∧
        (ctx.tx.sfMembershipNFTTaxon.isSome = true →
          ctx.tx.sfMembershipNFTIssuer.isSome = true)) := by
  unfold BallotCreate.preflight
  generalize ctx.tx.getFlags &&& tfUniversalMask = m
  generalize hdoc : (match ctx.tx.sfBallotDocumentURI with
      | none => false
      | some uri =>
        if ctx.tx.sfBallotDocumentHash.isNone then true
        else if uri.isEmpty then true
        else BallotCreate.isTooLong ctx.tx.sfBallotDocumentURI
               ext.maxBallotDocumentUriLength) = db
  generalize htime : (match ctx.tx.sfOpenTime, ctx.tx.sfCloseTime with
      | some o, some c => decide (o > c)
      | _, _ => false) = tb
  generalize hnft : (ctx.tx.sfMembershipNFTTaxon.isSome
      && ctx.tx.sfMembershipNFTIssuer.isNone) = nb
  cases hen : ctx.rules.enabled Feature.featureBallotsV1
  · simp
  by_cases hm : m = 0
  swap
  · simp [hm]
  cases hiv : ctx.tx.sfInitialVotes with
  | none => simp [hm]
  | some v =>
    by_cases hv : v < 1
    · simp [hm, hv]
    cases hch : ctx.tx.sfBallotChoiceIDs with
    | none => simp [hm, hv]
    | some ids =>
      by_cases hemp : ids = []
      · simp [hm, hv, hemp]
      by_cases hlen : ids.length > ext.maxBallotChoiceIDsLength
      · simp [hm, hv, hemp, hlen]
      cases hr : isTesSuccess (ext.preflight1 ctx)
      · simp [hm, hv, hemp, hlen, hr]
      cases db
      swap
      · simp [hm, hv, hemp, hlen, hr]
      cases tb
      swap
      · simp [hm, hv, hemp, hlen, hr]
      cases nb
      swap
      · simp [hm, hv, hemp, hlen, hr]
      have hdocP : ∀ uri, ctx.tx.sfBallotDocumentURI = some uri →
          ctx.tx.sfBallotDocumentHash.isSome = true ∧ uri ≠ [] ∧
            uri.length ≤ ext.maxBallotDocumentUriLength := by
        intro uri hu
        rw [hu] at hdoc
        cases hh : ctx.tx.sfBallotDocumentHash with
        | none => simp [hh] at hdoc
        | some hval =>
          simp [hh, BallotCreate.isTooLong] at hdoc
          exact ⟨rfl, hdoc.1, hdoc.2⟩
      have htimeP : ∀ o c, ctx.tx.sfOpenTime = some o →
          ctx.tx.sfCloseTime = some c → o ≤ c := by
        intro o c ho hc
        rw [ho, hc] at htime
        simpa using htime
      have hnftP : ctx.tx.sfMembershipNFTTaxon.isSome = true →
          ctx.tx.sfMembershipNFTIssuer.isSome = true := by
        intro ht
        rw [ht] at hnft
        cases hi : ctx.tx.sfMembershipNFTIssuer with
        | none => simp [hi] at hnft
        | some i => rfl
      have hv1 : 1 ≤ v := by omega
      have hlen1 : ids.length ≤ ext.maxBallotChoiceIDsLength := by omega
      right; right; right; right
      refine ⟨?_, rfl, ⟨v, rfl, hv1⟩, ⟨ids, rfl, hemp, hlen1⟩, hdocP, htimeP,
        hnftP⟩
      simp [hm, hv, hemp, hlen, hr]

/-- A transaction that passes every check of `BallotCreate::preflight` gets
the result of `preflight2`. -/
theorem BallotCreate.preflight_accepts (ext : Externals)
    (ctx : PreflightContext)
    (hen : ctx.rules.enabled Feature.featureBallotsV1 = true)
    (hfl : ctx.tx.getFlags &&& tfUniversalMask = 0)
    (hv : ∃ v, ctx.tx.sfInitialVotes = some v ∧ 1 ≤ v)
    (hc : ∃ ids, ctx.tx.sfBallotChoiceIDs = some ids ∧ ids ≠ [] ∧
      ids.length ≤ ext.maxBallotChoiceIDsLength)
    (h1 : ext.preflight1 ctx = TER.tesSUCCESS)
    (hdoc : ∀ uri, ctx.tx.sfBallotDocumentURI = some uri →
      ctx.tx.sfBallotDocumentHash.isSome = true ∧ uri ≠ [] ∧
        uri.length ≤ ext.maxBallotDocumentUriLength)
    (htime : ∀ o c, ctx.tx.sfOpenTime = some o → ctx.tx.sfCloseTime = some c →
      o ≤ c)
    (hnft : ctx.tx.sfMembershipNFTTaxon.isSome = true →
      ctx.tx.sfMembershipNFTIssuer.isSome = true) :
    BallotCreate.preflight ext ctx = ext.preflight2 ctx := by
  obtain ⟨v, hv, hv1⟩ := hv
  obtain ⟨ids, hc, hne, hlen⟩ := hc
  have hv0 : ¬ v < 1 := by omega
  have hlen2 : ¬ ids.length > ext.maxBallotChoiceIDsLength := by omega
  have hdocB : (match ctx.tx.sfBallotDocumentURI with
      | none => false
      | some uri =>
        if ctx.tx.sfBallotDocumentHash.isNone then true
        else if uri.isEmpty then true
        else BallotCreate.isTooLong ctx.tx.sfBallotDocumentURI
               ext.maxBallotDocumentUriLength) = false := by
    cases hu : ctx.tx.sfBallotDocumentURI with
    | none => rfl
    | some uri =>
      obtain ⟨hh, hue, hul⟩ := hdoc uri hu
      cases hhash : ctx.tx.sfBallotDocumentHash with
      | none => rw [hhash] at hh; exact Bool.noConfusion hh
      | some hval =>
        have hul2 : ¬ uri.length > ext.maxBallotDocumentUriLength := by omega
        simp [BallotCreate.isTooLong, hue, hul2]
  have htimeB : (match ctx.tx.sfOpenTime, ctx.tx.sfCloseTime with
      | some o, some c => decide (o > c)
      | _, _ => false) = false := by
    cases ho : ctx.tx.sfOpenTime with
    | none => rfl
    | some o =>
      cases hcl : ctx.tx.sfCloseTime with
      | none => rfl
      | some c =>
        have := htime o c ho hcl
        simp
        omega
  have hnftB : (ctx.tx.sfMembershipNFTTaxon.isSome
      && ctx.tx.sfMembershipNFTIssuer.isNone) = false := by
    cases ht : ctx.tx.sfMembershipNFTTaxon with
    | none => rfl
    | some t =>
      rw [ht] at hnft
      cases hi : ctx.tx.sfMembershipNFTIssuer with
      | none => rw [hi] at hnft; exact Bool.noConfusion (hnft rfl)
      | some i => rfl
  unfold BallotCreate.preflight
  rw [hdocB, htimeB, hnftB]
  simp [hen, hfl, hv, hv0, hc, hne, hlen2, h1, isTesSuccess]

/-- A transaction that fails a type-specific field check is never accepted,
and gets `temMALFORMED` once the feature gate, the flag check and `preflight1`
let it through. -/
theorem BallotCreate.preflight_fails (ext : Externals)
    (ctx : PreflightContext)
    (hrej : ¬ ((∃ v, ctx.tx.sfInitialVotes = some v ∧ 1 ≤ v) ∧
        (∃ ids, ctx.tx.sfBallotChoiceIDs = some ids ∧ ids ≠ [] ∧
          ids.length ≤ ext.maxBallotChoiceIDsLength) ∧
        (∀ uri, ctx.tx.sfBallotDocumentURI = some uri →
          ctx.tx.sfBallotDocumentHash.isSome = true ∧ uri ≠ [] ∧
            uri.length ≤ ext.maxBallotDocumentUriLength) ∧
        (∀ o c, ctx.tx.sfOpenTime = some o → ctx.tx.sfCloseTime = some c →
          o ≤ c) ∧
        (ctx.tx.sfMembershipNFTTaxon.isSome = true →
          ctx.tx.sfMembershipNFTIssuer.isSome = true))) :
    isTesSuccess (BallotCreate.preflight ext ctx) = false ∧
    (ctx.rules.enabled Feature.featureBallotsV1 = true →
      ctx.tx.getFlags &&& tfUniversalMask = 0 →
      ext.preflight1 ctx = TER.tesSUCCESS →
      BallotCreate.preflight ext ctx = TER.temMALFORMED) := by
  rcases BallotCreate.preflight_sources ext ctx with h | h | h | h | h
  · refine ⟨by rw [h.1]; rfl, fun hen _ _ => ?_⟩
    rw [hen] at h
    exact Bool.noConfusion h.2
  · exact ⟨by rw [h.1]; rfl, fun _ hfl _ => absurd hfl h.2⟩
  · exact ⟨by rw [h]; rfl, fun _ _ _ => h⟩
  · refine ⟨by rw [h.1]; exact h.2, fun _ _ h1 => ?_⟩
    rw [h1] at h
    exact Bool.noConfusion h.2
  · exact absurd h.2.2 hrej

/-- C1: whatever the fields and flags of the transaction, when the rules do
not enable `featureBallotsV1`, `BallotCreate::preflight` returns
`temDISABLED`. -/
theorem BallotCreate_preflight_feature_gate (ext : Externals)
    (ctx : PreflightContext)
    (h : ctx.rules.enabled Feature.featureBallotsV1 = false) :
    BallotCreate.preflight ext ctx = TER.temDISABLED := by
  unfold BallotCreate.preflight
  simp [h]

/-- C2: with `featureBallotsV1` enabled, a `Flags` value with any bit other
than bit 31 (`tfUniversal`) set makes `BallotCreate::preflight` return
`temINVALID_FLAG`; a `Flags` value of `0` or of exactly `tfUniversal` passes
the flag check, so that `temINVALID_FLAG` can then only be the verdict of the
shared checks `preflight1` / `preflight2`. -/
theorem BallotCreate_preflight_flag_check (ext : Externals)
    (ctx : PreflightContext)
    (hen : ctx.rules.enabled Feature.featureBallotsV1 = true) :
    ((∃ i, i ≠ 31 ∧ ctx.tx.getFlags.testBit i = true) →
        BallotCreate.preflight ext ctx = TER.temINVALID_FLAG) ∧
    ((ctx.tx.getFlags = 0 ∨ ctx.tx.getFlags = tfUniversal) →
        ctx.tx.getFlags &&& tfUniversalMask = 0 ∧
        (BallotCreate.preflight ext ctx = TER.temINVALID_FLAG →
          ext.preflight1 ctx = TER.temINVALID_FLAG ∨
            ext.preflight2 ctx = TER.temINVALID_FLAG)) := by
  refine ⟨?_, ?_⟩
  · rintro ⟨i, hi, hbit⟩
    have hlt : i < 31 := by
      have h32 : i < 32 := by
        by_contra hge
        have hpow : ctx.tx.getFlags < 2 ^ i :=
          lt_of_lt_of_le (getFlags_lt ctx.tx)
            (Nat.pow_le_pow_right (by norm_num) (by omega))
        rw [Nat.testBit_lt_two_pow hpow] at hbit
        exact Bool.noConfusion hbit
      omega
    have hne : ctx.tx.getFlags &&& tfUniversalMask ≠ 0 := by
      rw [and_tfUniversalMask]
      intro h0
      have hb := Nat.testBit_mod_two_pow ctx.tx.getFlags 31 i
      rw [h0, hbit] at hb
      simp [hlt] at hb
    unfold BallotCreate.preflight
    simp [hen, hne]
  · intro hfl
    have hmask : ctx.tx.getFlags &&& tfUniversalMask = 0 := by
      rw [and_tfUniversalMask]
      rcases hfl with h | h <;> rw [h] <;> decide
    refine ⟨hmask, ?_⟩
    intro h
    rcases BallotCreate.preflight_sources ext ctx with h1 | h1 | h1 | h1 | h1
    · rw [h1.1] at h
      exact TER.noConfusion h
    · exact absurd hmask h1.2
    · rw [h1] at h
      exact TER.noConfusion h
    · left
      rw [← h1.1]
      exact h
    · right
      rw [← h1.1]
      exact h

/-- C3: with `featureBallotsV1` enabled and valid flags, a transaction whose
`InitialVotes` is absent, or present with a value below 1 (that is, 0), gets
`temMALFORMED` from `BallotCreate::preflight`. -/
theorem BallotCreate_preflight_initial_votes (ext : Externals)
    (ctx : PreflightContext)
    (hen : ctx.rules.enabled Feature.featureBallotsV1 = true)
    (hfl : ctx.tx.getFlags &&& tfUniversalMask = 0)
    (hv : ctx.tx.sfInitialVotes = none ∨
      ∃ v, ctx.tx.sfInitialVotes = some v ∧ v < 1) :
    BallotCreate.preflight ext ctx = TER.temMALFORMED := by
  unfold BallotCreate.preflight
  rcases hv with hv | ⟨v, hv, hlt⟩
  · simp [hen, hfl, hv]
  · simp [hen, hfl, hv, hlt]

/-- C4: with `featureBallotsV1` enabled, valid flags and `InitialVotes >= 1`,
a transaction whose `BallotChoiceIDs` is absent, is the empty list, or has
more than `maxBallotChoiceIDsLength` entries gets `temMALFORMED` from
`BallotCreate::preflight`. -/
theorem BallotCreate_preflight_choice_ids (ext : Externals)
    (ctx : PreflightContext)
    (hen : ctx.rules.enabled Feature.featureBallotsV1 = true)
    (hfl : ctx.tx.getFlags &&& tfUniversalMask = 0)
    (hv : ∃ v, ctx.tx.sfInitialVotes = some v ∧ 1 ≤ v)
    (hc : ctx.tx.sfBallotChoiceIDs = none ∨
      ctx.tx.sfBallotChoiceIDs = some [] ∨
      ∃ ids, ctx.tx.sfBallotChoiceIDs = some ids ∧
        ids.length > ext.maxBallotChoiceIDsLength) :
    BallotCreate.preflight ext ctx = TER.temMALFORMED := by
  obtain ⟨v, hv, _⟩ := hv
  unfold BallotCreate.preflight
  rcases hc with hc | hc | ⟨ids, hc, hlen⟩
  · simp [hen, hfl, hv, hc]
  · simp [hen, hfl, hv, hc]
  · simp [hen, hfl, hv, hc, hlen]

/-- C5: the document requirement is one-directional.  A transaction with a
`BallotDocumentURI` but no `BallotDocumentHash` is never accepted, and is
rejected with `temMALFORMED` once the feature gate, the flag check and
`preflight1` let it through; a transaction with a `BallotDocumentHash` but no
`BallotDocumentURI` that passes every other check gets the result of
`preflight2`. -/
theorem BallotCreate_preflight_document_hash_one_directional
    (ext : Externals) (ctx : PreflightContext) :
    (ctx.tx.sfBallotDocumentURI.isSome = true →
      ctx.tx.sfBallotDocumentHash = none →
      isTesSuccess (BallotCreate.preflight ext ctx) = false ∧
      (ctx.rules.enabled Feature.featureBallotsV1 = true →
        ctx.tx.getFlags &&& tfUniversalMask = 0 →
        ext.preflight1 ctx = TER.tesSUCCESS →
        BallotCreate.preflight ext ctx = TER.temMALFORMED)) ∧
    (ctx.tx.sfBallotDocumentHash.isSome = true →
      ctx.tx.sfBallotDocumentURI = none →
      ctx.rules.enabled Feature.featureBallotsV1 = true →
      ctx.tx.getFlags &&& tfUniversalMask = 0 →
      (∃ v, ctx.tx.sfInitialVotes = some v ∧ 1 ≤ v) →
      (∃ ids, ctx.tx.sfBallotChoiceIDs = some ids ∧ ids ≠ [] ∧
        ids.length ≤ ext.maxBallotChoiceIDsLength) →
      ext.preflight1 ctx = TER.tesSUCCESS →
      (∀ o c, ctx.tx.sfOpenTime = some o → ctx.tx.sfCloseTime = some c →
        o ≤ c) →
      (ctx.tx.sfMembershipNFTTaxon.isSome = true →
        ctx.tx.sfMembershipNFTIssuer.isSome = true) →
      BallotCreate.preflight ext ctx = ext.preflight2 ctx) := by
  refine ⟨fun huri hhash => ?_, fun _ huri hen hfl hv hc h1 ht hn => ?_⟩
  · apply BallotCreate.preflight_fails
    rintro ⟨_, _, hdoc, _, _⟩
    obtain ⟨uri, hu⟩ := Option.isSome_iff_exists.mp huri
    have := (hdoc uri hu).1
    rw [hhash] at this
    exact Bool.noConfusion this
  · refine BallotCreate.preflight_accepts ext ctx hen hfl hv hc h1 ?_ ht hn
    intro uri hu
    rw [huri] at hu
    exact Option.noConfusion hu

/-- C6: a transaction that reaches the document checks (feature enabled,
valid flags, `InitialVotes >= 1`, a valid choice list, `preflight1` passing)
with `BallotDocumentURI` and `BallotDocumentHash` both present gets
`temMALFORMED` when the URI is empty or longer than
`maxBallotDocumentUriLength`. -/
theorem BallotCreate_preflight_document_uri (ext : Externals)
    (ctx : PreflightContext) (uri : Blob)
    (hen : ctx.rules.enabled Feature.featureBallotsV1 = true)
    (hfl : ctx.tx.getFlags &&& tfUniversalMask = 0)
    (_hv : ∃ v, ctx.tx.sfInitialVotes = some v ∧ 1 ≤ v)
    (_hc : ∃ ids, ctx.tx.sfBallotChoiceIDs = some ids ∧ ids ≠ [] ∧
      ids.length ≤ ext.maxBallotChoiceIDsLength)
    (h1 : ext.preflight1 ctx = TER.tesSUCCESS)
    (huri : ctx.tx.sfBallotDocumentURI = some uri)
    (_hhash : ctx.tx.sfBallotDocumentHash.isSome = true)
    (hbad : uri = [] ∨ uri.length > ext.maxBallotDocumentUriLength) :
    BallotCreate.preflight ext ctx = TER.temMALFORMED := by
  refine (BallotCreate.preflight_fails ext ctx ?_).2 hen hfl h1
  rintro ⟨_, _, hdoc, _, _⟩
  obtain ⟨_, hne, hlen⟩ := hdoc uri huri
  rcases hbad with hbad | hbad
  · exact hne hbad
  · omega

/-- C7: with `OpenTime` and `CloseTime` both present, a transaction whose
`CloseTime` is strictly before its `OpenTime` is never accepted, and is
rejected with `temMALFORMED` once the feature gate, the flag check and
`preflight1` let it through; a transaction whose `CloseTime` equals its
`OpenTime` and that passes every other check gets the result of
`preflight2`. -/
theorem BallotCreate_preflight_open_close_times (ext : Externals)
    (ctx : PreflightContext) (o c : Nat)
    (hopen : ctx.tx.sfOpenTime = some o)
    (hclose : ctx.tx.sfCloseTime = some c) :
    (c < o →
      isTesSuccess (BallotCreate.preflight ext ctx) = false ∧
      (ctx.rules.enabled Feature.featureBallotsV1 = true →
        ctx.tx.getFlags &&& tfUniversalMask = 0 →
        ext.preflight1 ctx = TER.tesSUCCESS →
        BallotCreate.preflight ext ctx = TER.temMALFORMED)) ∧
    (c = o →
      ctx.rules.enabled Feature.featureBallotsV1 = true →
      ctx.tx.getFlags &&& tfUniversalMask = 0 →
      (∃ v, ctx.tx.sfInitialVotes = some v ∧ 1 ≤ v) →
      (∃ ids, ctx.tx.sfBallotChoiceIDs = some ids ∧ ids ≠ [] ∧
        ids.length ≤ ext.maxBallotChoiceIDsLength) →
      ext.preflight1 ctx = TER.tesSUCCESS →
      (∀ uri, ctx.tx.sfBallotDocumentURI = some uri →
        ctx.tx.sfBallotDocumentHash.isSome = true ∧ uri ≠ [] ∧
          uri.length ≤ ext.maxBallotDocumentUriLength) →
      (ctx.tx.sfMembershipNFTTaxon.isSome = true →
        ctx.tx.sfMembershipNFTIssuer.isSome = true) →
      BallotCreate.preflight ext ctx = ext.preflight2 ctx) := by
  refine ⟨fun hlt => ?_, fun heq hen hfl hv hc h1 hdoc hn => ?_⟩
  · apply BallotCreate.preflight_fails
    rintro ⟨_, _, _, htime, _⟩
    have := htime o c hopen hclose
    omega
  · refine BallotCreate.preflight_accepts ext ctx hen hfl hv hc h1 hdoc ?_ hn
    intro o2 c2 ho2 hc2
    rw [hopen] at ho2
    rw [hclose] at hc2
    cases ho2
    cases hc2
    omega

/-- C8: the membership-NFT requirement is one-directional.  A transaction
with a `MembershipNFTTaxon` but no `MembershipNFTIssuer` is never accepted, and
is rejected with `temMALFORMED` once the feature gate, the flag check and
`preflight1` let it through; a transaction with a `MembershipNFTIssuer`, with
or without a `MembershipNFTTaxon`, that passes every other check gets the
result of `preflight2`. -/
theorem BallotCreate_preflight_membership_nft_one_directional
    (ext : Externals) (ctx : PreflightContext) :
    (ctx.tx.sfMembershipNFTTaxon.isSome = true →
      ctx.tx.sfMembershipNFTIssuer = none →
      isTesSuccess (BallotCreate.preflight ext ctx) = false ∧
      (ctx.rules.enabled Feature.featureBallotsV1 = true →
        ctx.tx.getFlags &&& tfUniversalMask = 0 →
        ext.preflight1 ctx = TER.tesSUCCESS →
        BallotCreate.preflight ext ctx = TER.temMALFORMED)) ∧
    (ctx.tx.sfMembershipNFTIssuer.isSome = true →
      ctx.rules.enabled Feature.featureBallotsV1 = true →
      ctx.tx.getFlags &&& tfUniversalMask = 0 →
      (∃ v, ctx.tx.sfInitialVotes = some v ∧ 1 ≤ v) →
      (∃ ids, ctx.tx.sfBallotChoiceIDs = some ids ∧ ids ≠ [] ∧
        ids.length ≤ ext.maxBallotChoiceIDsLength) →
      ext.preflight1 ctx = TER.tesSUCCESS →
      (∀ uri, ctx.tx.sfBallotDocumentURI = some uri →
        ctx.tx.sfBallotDocumentHash.isSome = true ∧ uri ≠ [] ∧
          uri.length ≤ ext.maxBallotDocumentUriLength) →
      (∀ o c, ctx.tx.sfOpenTime = some o → ctx.tx.sfCloseTime = some c →
        o ≤ c) →
      BallotCreate.preflight ext ctx = ext.preflight2 ctx) := by
  refine ⟨fun htax hiss => ?_, fun hiss hen hfl hv hc h1 hdoc ht => ?_⟩
  · apply BallotCreate.preflight_fails
    rintro ⟨_, _, _, _, hnft⟩
    have := hnft htax
    rw [hiss] at this
    exact Bool.noConfusion this
  · exact BallotCreate.preflight_accepts ext ctx hen hfl hv hc h1 hdoc ht
      (fun _ => hiss)

/-- C9: the length ceilings are strict.  A `BallotChoiceIDs` list of exactly
`maxBallotChoiceIDsLength` entries, and a `BallotDocumentURI` of exactly
`maxBallotDocumentUriLength` bytes, pass when every other check passes (the
limits being positive); `maxBallotChoiceIDsLength + 1` entries give
`temMALFORMED` once the feature gate and the flag check let the transaction
through, and `maxBallotDocumentUriLength + 1` bytes give `temMALFORMED` once
the feature gate, the flag check and `preflight1` do; neither is ever
accepted. -/
theorem BallotCreate_preflight_length_ceilings (ext : Externals)
    (ctx : PreflightContext) :
    (∀ ids, ctx.tx.sfBallotChoiceIDs = some ids →
      ids.length = ext.maxBallotChoiceIDsLength →
      0 < ext.maxBallotChoiceIDsLength →
      ctx.rules.enabled Feature.featureBallotsV1 = true →
      ctx.tx.getFlags &&& tfUniversalMask = 0 →
      (∃ v, ctx.tx.sfInitialVotes = some v ∧ 1 ≤ v) →
      ext.preflight1 ctx = TER.tesSUCCESS →
      (∀ uri, ctx.tx.sfBallotDocumentURI = some uri →
        ctx.tx.sfBallotDocumentHash.isSome = true ∧ uri ≠ [] ∧
          uri.length ≤ ext.maxBallotDocumentUriLength) →
      (∀ o c, ctx.tx.sfOpenTime = some o → ctx.tx.sfCloseTime = some c →
        o ≤ c) →
      (ctx.tx.sfMembershipNFTTaxon.isSome = true →
        ctx.tx.sfMembershipNFTIssuer.isSome = true) →
      BallotCreate.preflight ext ctx = ext.preflight2 ctx) ∧
    (∀ uri, ctx.tx.sfBallotDocumentURI = some uri →
      uri.length = ext.maxBallotDocumentUriLength →
      0 < ext.maxBallotDocumentUriLength →
      ctx.tx.sfBallotDocumentHash.isSome = true →
      ctx.rules.enabled Feature.featureBallotsV1 = true →
      ctx.tx.getFlags &&& tfUniversalMask = 0 →
      (∃ v, ctx.tx.sfInitialVotes = some v ∧ 1 ≤ v) →
      (∃ ids, ctx.tx.sfBallotChoiceIDs = some ids ∧ ids ≠ [] ∧
        ids.length ≤ ext.maxBallotChoiceIDsLength) →
      ext.preflight1 ctx = TER.tesSUCCESS →
      (∀ o c, ctx.tx.sfOpenTime = some o → ctx.tx.sfCloseTime = some c →
        o ≤ c) →
      (ctx.tx.sfMembershipNFTTaxon.isSome = true →
        ctx.tx.sfMembershipNFTIssuer.isSome = true) →
      BallotCreate.preflight ext ctx = ext.preflight2 ctx) ∧
    (∀ ids, ctx.tx.sfBallotChoiceIDs = some ids →
      ids.length = ext.maxBallotChoiceIDsLength + 1 →
      isTesSuccess (BallotCreate.preflight ext ctx) = false ∧
      (ctx.rules.enabled Feature.featureBallotsV1 = true →
        ctx.tx.getFlags &&& tfUniversalMask = 0 →
        BallotCreate.preflight ext ctx = TER.temMALFORMED)) ∧
    (∀ uri, ctx.tx.sfBallotDocumentURI = some uri →
      uri.length = ext.maxBallotDocumentUriLength + 1 →
      isTesSuccess (BallotCreate.preflight ext ctx) = false ∧
      (ctx.rules.enabled Feature.featureBallotsV1 = true →
        ctx.tx.getFlags &&& tfUniversalMask = 0 →
        ext.preflight1 ctx = TER.tesSUCCESS →
        BallotCreate.preflight ext ctx = TER.temMALFORMED)) := by
  refine ⟨?_, ?_, ?_, ?_⟩
  · intro ids hids hlen hpos hen hfl hv h1 hdoc ht hn
    refine BallotCreate.preflight_accepts ext ctx hen hfl hv ⟨ids, hids, ?_, ?_⟩
      h1 hdoc ht hn
    · intro hnil
      rw [hnil] at hlen
      simp at hlen
      omega
    · omega
  · intro uri huri hlen hpos hhash hen hfl hv hc h1 ht hn
    refine BallotCreate.preflight_accepts ext ctx hen hfl hv hc h1 ?_ ht hn
    intro uri2 hu2
    rw [huri] at hu2
    cases hu2
    refine ⟨hhash, ?_, by omega⟩
    intro hnil
    rw [hnil] at hlen
    simp at hlen
    omega
  · intro ids hids hlen
    have hrej : ¬ ∃ ids, ctx.tx.sfBallotChoiceIDs = some ids ∧ ids ≠ [] ∧
        ids.length ≤ ext.maxBallotChoiceIDsLength := by
      rintro ⟨ids2, h2, _, hle⟩
      rw [hids] at h2
      cases h2
      omega
    refine ⟨(BallotCreate.preflight_fails ext ctx
      (fun h => hrej h.2.1)).1, fun hen hfl => ?_⟩
    have hgt : ids.length > ext.maxBallotChoiceIDsLength := by omega
    unfold BallotCreate.preflight
    cases hiv : ctx.tx.sfInitialVotes <;> simp [hen, hfl, hids, hgt]
  · intro uri huri hlen
    apply BallotCreate.preflight_fails
    rintro ⟨_, _, hdoc, _, _⟩
    have := (hdoc uri huri).2.2
    omega

/-- C10: when `BallotCreate::preflight` returns a non-success code, the
pipeline returns that code without invoking the apply stage, whatever that
stage would do, and the view is the one it was given; so every observation of
the view, the owner count of the submitting account among them, is the same
before and after. -/
theorem BallotCreate_rejected_preflight_leaves_view {View : Type}
    (ext : Externals) (doApply : STTx → View → TER × View)
    (ctx : PreflightContext) (view : View)
    (h : isTesSuccess (BallotCreate.preflight ext ctx) = false) :
    (applyTransaction
      { preflight := BallotCreate.preflight ext
        preclaim := BallotCreate.preclaim
        doApply := doApply } ctx view).applied = false ∧
    (applyTransaction
      { preflight := BallotCreate.preflight ext
        preclaim := BallotCreate.preclaim
        doApply := doApply } ctx view).view = view ∧
    (applyTransaction
      { preflight := BallotCreate.preflight ext
        preclaim := BallotCreate.preclaim
        doApply := doApply } ctx view).ter = BallotCreate.preflight ext ctx ∧
    ∀ ownerCount : View → Nat,
      ownerCount (applyTransaction
        { preflight := BallotCreate.preflight ext
          preclaim := BallotCreate.preclaim
          doApply := doApply } ctx view).view = ownerCount view := by
  have hres : applyTransaction
      { preflight := BallotCreate.preflight ext
        preclaim := BallotCreate.preclaim
        doApply := doApply } ctx view =
      { ter := BallotCreate.preflight ext ctx, view := view,
        applied := false } := by
    unfold applyTransaction
    simp [h]
  rw [hres]
  exact ⟨rfl, rfl, rfl, fun _ => rfl⟩

/-! ## Witnesses

Each property above, applied to a concrete transaction after the scenarios of
`Ballot_test.cpp`. -/

/-- The feature gate on the sample transaction, with the amendment disabled. -/
theorem BallotCreate_preflight_feature_gate_witness :
    ballotsDisabled.enabled Feature.featureBallotsV1 = false ∧
    BallotCreate.preflight sampleExternals
      { tx := sampleTx, rules := ballotsDisabled } = TER.temDISABLED :=
  ⟨by decide,
    BallotCreate_preflight_feature_gate sampleExternals
      { tx := sampleTx, rules := ballotsDisabled } (by decide)⟩

/-- The flag check on `Flags = 0x00000001` (rejected) and on `Flags = tfUniversal`
(passed). -/
theorem BallotCreate_preflight_flag_check_witness :
    BallotCreate.preflight sampleExternals
      { tx := { sampleTx with sfFlags := 1 }, rules := allEnabled } =
        TER.temINVALID_FLAG ∧
    sampleTx.getFlags &&& tfUniversalMask = 0 :=
  ⟨(BallotCreate_preflight_flag_check sampleExternals
      { tx := { sampleTx with sfFlags := 1 }, rules := allEnabled }
      (by decide)).1 ⟨0, by decide, by decide⟩,
    ((BallotCreate_preflight_flag_check sampleExternals
      { tx := sampleTx, rules := allEnabled }
      (by decide)).2 (Or.inr (by decide))).1⟩

/-- The `InitialVotes` check on a transaction with 0 votes and on one without the
field. -/
theorem BallotCreate_preflight_initial_votes_witness :
    BallotCreate.preflight sampleExternals
      { tx := { sampleTx with sfInitialVotes := some 0 }, rules := allEnabled } =
        TER.temMALFORMED ∧
    BallotCreate.preflight sampleExternals
      { tx := { sampleTx with sfInitialVotes := none }, rules := allEnabled } =
        TER.temMALFORMED :=
  ⟨BallotCreate_preflight_initial_votes sampleExternals
      { tx := { sampleTx with sfInitialVotes := some 0 }, rules := allEnabled }
      (by decide) (by decide) (Or.inr ⟨0, rfl, by decide⟩),
    BallotCreate_preflight_initial_votes sampleExternals
      { tx := { sampleTx with sfInitialVotes := none }, rules := allEnabled }
      (by decide) (by decide) (Or.inl rfl)⟩

/-- The `BallotChoiceIDs` check on a list of five choices (limit 4) and on an empty
list. -/
theorem BallotCreate_preflight_choice_ids_witness :
    BallotCreate.preflight sampleExternals
      { tx := { sampleTx with sfBallotChoiceIDs := some [1, 2, 3, 4, 5] },
        rules := allEnabled } = TER.temMALFORMED ∧
    BallotCreate.preflight sampleExternals
      { tx := { sampleTx with sfBallotChoiceIDs := some [] },
        rules := allEnabled } = TER.temMALFORMED :=
  ⟨BallotCreate_preflight_choice_ids sampleExternals
      { tx := { sampleTx with sfBallotChoiceIDs := some [1, 2, 3, 4, 5] },
        rules := allEnabled }
      (by decide) (by decide) ⟨1, rfl, by decide⟩
      (Or.inr (Or.inr ⟨[1, 2, 3, 4, 5], rfl, by decide⟩)),
    BallotCreate_preflight_choice_ids sampleExternals
      { tx := { sampleTx with sfBallotChoiceIDs := some [] },
        rules := allEnabled }
      (by decide) (by decide) ⟨1, rfl, by decide⟩ (Or.inr (Or.inl rfl))⟩

/-- The document requirement on the sample transaction without its hash
(rejected) and without its URI (accepted). -/
theorem BallotCreate_preflight_document_hash_one_directional_witness :
    BallotCreate.preflight sampleExternals
      { tx := { sampleTx with sfBallotDocumentHash := none },
        rules := allEnabled } = TER.temMALFORMED ∧
    BallotCreate.preflight sampleExternals
      { tx := { sampleTx with sfBallotDocumentURI := none },
        rules := allEnabled } = TER.tesSUCCESS :=
  ⟨((BallotCreate_preflight_document_hash_one_directional sampleExternals
      { tx := { sampleTx with sfBallotDocumentHash := none },
        rules := allEnabled }).1 rfl rfl).2 (by decide) (by decide) rfl,
    (BallotCreate_preflight_document_hash_one_directional sampleExternals
      { tx := { sampleTx with sfBallotDocumentURI := none },
        rules := allEnabled }).2 rfl rfl (by decide) (by decide)
      ⟨1, rfl, by decide⟩ ⟨[11], rfl, by decide, by decide⟩ rfl
      (fun _ _ h => Option.noConfusion h) (fun _ => rfl)⟩

/-- The URI checks on an empty URI and on one of nine bytes (limit 8). -/
theorem BallotCreate_preflight_document_uri_witness :
    BallotCreate.preflight sampleExternals
      { tx := { sampleTx with sfBallotDocumentURI := some [] },
        rules := allEnabled } = TER.temMALFORMED ∧
    BallotCreate.preflight sampleExternals
      { tx := { sampleTx with
                  sfBallotDocumentURI := some [1, 2, 3, 4, 5, 6, 7, 8, 9] },
        rules := allEnabled } = TER.temMALFORMED :=
  ⟨BallotCreate_preflight_document_uri sampleExternals
      { tx := { sampleTx with sfBallotDocumentURI := some [] },
        rules := allEnabled } []
      (by decide) (by decide) ⟨1, rfl, by decide⟩
      ⟨[11], rfl, by decide, by decide⟩ rfl rfl rfl (Or.inl rfl),
    BallotCreate_preflight_document_uri sampleExternals
      { tx := { sampleTx with
                  sfBallotDocumentURI := some [1, 2, 3, 4, 5, 6, 7, 8, 9] },
        rules := allEnabled } [1, 2, 3, 4, 5, 6, 7, 8, 9]
      (by decide) (by decide) ⟨1, rfl, by decide⟩
      ⟨[11], rfl, by decide, by decide⟩ rfl rfl rfl (Or.inr (by decide))⟩

/-- The time check on `OpenTime = 5, CloseTime = 4` (rejected) and on
`OpenTime = 5, CloseTime = 5` (accepted). -/
theorem BallotCreate_preflight_open_close_times_witness :
    BallotCreate.preflight sampleExternals
      { tx := { sampleTx with sfOpenTime := some 5, sfCloseTime := some 4 },
        rules := allEnabled } = TER.temMALFORMED ∧
    BallotCreate.preflight sampleExternals
      { tx := { sampleTx with sfOpenTime := some 5, sfCloseTime := some 5 },
        rules := allEnabled } = TER.tesSUCCESS :=
  ⟨((BallotCreate_preflight_open_close_times sampleExternals
      { tx := { sampleTx with sfOpenTime := some 5, sfCloseTime := some 4 },
        rules := allEnabled } 5 4 rfl rfl).1 (by decide)).2
      (by decide) (by decide) rfl,
    (BallotCreate_preflight_open_close_times sampleExternals
      { tx := { sampleTx with sfOpenTime := some 5, sfCloseTime := some 5 },
        rules := allEnabled } 5 5 rfl rfl).2 rfl (by decide) (by decide)
      ⟨1, rfl, by decide⟩ ⟨[11], rfl, by decide, by decide⟩ rfl
      (fun uri h => by cases h; exact ⟨rfl, by decide, by decide⟩)
      (fun _ => rfl)⟩

/-- The membership requirement on the sample transaction without its issuer
(rejected), without its taxon (accepted), and with both (accepted). -/
theorem BallotCreate_preflight_membership_nft_one_directional_witness :
    BallotCreate.preflight sampleExternals
      { tx := { sampleTx with sfMembershipNFTIssuer := none },
        rules := allEnabled } = TER.temMALFORMED ∧
    BallotCreate.preflight sampleExternals
      { tx := { sampleTx with sfMembershipNFTTaxon := none },
        rules := allEnabled } = TER.tesSUCCESS ∧
    BallotCreate.preflight sampleExternals
      { tx := sampleTx, rules := allEnabled } = TER.tesSUCCESS :=
  ⟨((BallotCreate_preflight_membership_nft_one_directional sampleExternals
      { tx := { sampleTx with sfMembershipNFTIssuer := none },
        rules := allEnabled }).1 rfl rfl).2 (by decide) (by decide) rfl,
    (BallotCreate_preflight_membership_nft_one_directional sampleExternals
      { tx := { sampleTx with sfMembershipNFTTaxon := none },
        rules := allEnabled }).2 rfl (by decide) (by decide)
      ⟨1, rfl, by decide⟩ ⟨[11], rfl, by decide, by decide⟩ rfl
      (fun uri h => by cases h; exact ⟨rfl, by decide, by decide⟩)
      (fun _ _ h => Option.noConfusion h),
    (BallotCreate_preflight_membership_nft_one_directional sampleExternals
      { tx := sampleTx, rules := allEnabled }).2 rfl (by decide) (by decide)
      ⟨1, rfl, by decide⟩ ⟨[11], rfl, by decide, by decide⟩ rfl
      (fun uri h => by cases h; exact ⟨rfl, by decide, by decide⟩)
      (fun _ _ h => Option.noConfusion h)⟩

/-- The length ceilings at the limit (4 choices, 8 URI bytes: accepted) and one
above it (5 choices, 9 URI bytes: rejected). -/
theorem BallotCreate_preflight_length_ceilings_witness :
    BallotCreate.preflight sampleExternals
      { tx := { sampleTx with sfBallotChoiceIDs := some [1, 2, 3, 4] },
        rules := allEnabled } = TER.tesSUCCESS ∧
    BallotCreate.preflight sampleExternals
      { tx := { sampleTx with
                  sfBallotDocumentURI := some [1, 2, 3, 4, 5, 6, 7, 8] },
        rules := allEnabled } = TER.tesSUCCESS ∧
    BallotCreate.preflight sampleExternals
      { tx := { sampleTx with sfBallotChoiceIDs := some [1, 2, 3, 4, 5] },
        rules := allEnabled } = TER.temMALFORMED ∧
    BallotCreate.preflight sampleExternals
      { tx := { sampleTx with
                  sfBallotDocumentURI := some [1, 2, 3, 4, 5, 6, 7, 8, 9] },
        rules := allEnabled } = TER.temMALFORMED :=
  ⟨(BallotCreate_preflight_length_ceilings sampleExternals
      { tx := { sampleTx with sfBallotChoiceIDs := some [1, 2, 3, 4] },
        rules := allEnabled }).1 [1, 2, 3, 4] rfl rfl (by decide) (by decide)
      (by decide) ⟨1, rfl, by decide⟩ rfl
      (fun uri h => by cases h; exact ⟨rfl, by decide, by decide⟩)
      (fun _ _ h => Option.noConfusion h) (fun _ => rfl),
    (BallotCreate_preflight_length_ceilings sampleExternals
      { tx := { sampleTx with
                  sfBallotDocumentURI := some [1, 2, 3, 4, 5, 6, 7, 8] },
        rules := allEnabled }).2.1 [1, 2, 3, 4, 5, 6, 7, 8] rfl rfl
      (by decide) rfl (by decide) (by decide) ⟨1, rfl, by decide⟩
      ⟨[11], rfl, by decide, by decide⟩ rfl
      (fun _ _ h => Option.noConfusion h) (fun _ => rfl),
    ((BallotCreate_preflight_length_ceilings sampleExternals
      { tx := { sampleTx with sfBallotChoiceIDs := some [1, 2, 3, 4, 5] },
        rules := allEnabled }).2.2.1 [1, 2, 3, 4, 5] rfl rfl).2
      (by decide) (by decide),
    ((BallotCreate_preflight_length_ceilings sampleExternals
      { tx := { sampleTx with
                  sfBallotDocumentURI := some [1, 2, 3, 4, 5, 6, 7, 8, 9] },
        rules := allEnabled }).2.2.2 [1, 2, 3, 4, 5, 6, 7, 8, 9] rfl rfl).2
      (by decide) (by decide) rfl⟩

/-- The pipeline on a transaction with 0 initial votes leaves the owner count at 0,
while on the sample transaction the apply stage runs and raises it to 1. -/
theorem BallotCreate_rejected_preflight_leaves_view_witness :
    isTesSuccess (BallotCreate.preflight sampleExternals
      { tx := { sampleTx with sfInitialVotes := some 0 },
        rules := allEnabled }) = false ∧
    (applyTransaction
      { preflight := BallotCreate.preflight sampleExternals
        preclaim := BallotCreate.preclaim
        doApply := sampleDoApply }
      { tx := { sampleTx with sfInitialVotes := some 0 }, rules := allEnabled }
      (0 : OwnerCountView)).view = 0 ∧
    (applyTransaction
      { preflight := BallotCreate.preflight sampleExternals
        preclaim := BallotCreate.preclaim
        doApply := sampleDoApply }
      { tx := sampleTx, rules := allEnabled }
      (0 : OwnerCountView)).view = 1 :=
  ⟨by decide,
    (BallotCreate_rejected_preflight_leaves_view sampleExternals sampleDoApply
      { tx := { sampleTx with sfInitialVotes := some 0 }, rules := allEnabled }
      (0 : OwnerCountView) (by decide)).2.1,
    by decide⟩

/-! ## `BallotCreate::doApply` -/

/-- A failing `dirInsert` leaves the view as it was. -/
theorem ApplyView.dirInsert_none (v : ApplyView) (directory key : Keylet)
    (h : (v.dirInsert directory key).1 = none) :
    (v.dirInsert directory key).2 = v := by
  unfold ApplyView.dirInsert at h ⊢
  split at h
  · simp at h
  · split_ifs at h ⊢
    rfl

/-- The function `dirInsert` leaves the entries, the update marks, the fee
schedule, the rules and the ledger sequence alone. -/
theorem ApplyView.dirInsert_frame (v : ApplyView) (directory key : Keylet) :
    (v.dirInsert directory key).2.entries = v.entries ∧
    (v.dirInsert directory key).2.updated = v.updated ∧
    (v.dirInsert directory key).2.fees = v.fees := by
  unfold ApplyView.dirInsert
  split
  · exact ⟨rfl, rfl, rfl⟩
  · split_ifs <;> exact ⟨rfl, rfl, rfl⟩

/-- A successful `dirInsert` puts the key last on the page it returns. -/
theorem ApplyView.dirInsert_some (v : ApplyView) (directory key : Keylet)
    (page : Nat) (h : (v.dirInsert directory key).1 = some page) :
    ((v.dirInsert directory key).2.dirPages directory page).getLast? = some key := by
  unfold ApplyView.dirInsert at h ⊢
  split at h
  · simp at h
    subst h
    simp
  · split_ifs at h ⊢ <;> simp at h <;> subst h <;> simp

/-- The result of `BallotCreate::doApply`, branch by branch. -/
theorem BallotCreate.doApply_cases (t : TransactorState) (view : ApplyView) :
    (view.peek (Keylet.account t.account_) = none ∧
      BallotCreate.doApply t view = (TER.tecINTERNAL, view)) ∨
    (∃ acct, view.peek (Keylet.account t.account_) = some acct ∧
      t.mPriorBalance <
        view.fees.accountReserve ((acct.sfOwnerCount + 1) % 2 ^ 32) ∧
      BallotCreate.doApply t view = (TER.tecINSUFFICIENT_RESERVE, view)) ∨
    (∃ acct, view.peek (Keylet.account t.account_) = some acct ∧
      ¬ t.mPriorBalance <
        view.fees.accountReserve ((acct.sfOwnerCount + 1) % 2 ^ 32) ∧
      (view.dirInsert (Keylet.ownerDir t.account_)
        (Keylet.ballot t.account_ t.tx.seqProxy)).1 = none ∧
      BallotCreate.doApply t view = (TER.tecDIR_FULL, view)) ∨
    (∃ acct ownerNode, view.peek (Keylet.account t.account_) = some acct ∧
      ¬ t.mPriorBalance <
        view.fees.accountReserve ((acct.sfOwnerCount + 1) % 2 ^ 32) ∧
      (view.dirInsert (Keylet.ownerDir t.account_)
        (Keylet.ballot t.account_ t.tx.seqProxy)).1 = some ownerNode ∧
      BallotCreate.doApply t view =
        (TER.tesSUCCESS,
          adjustOwnerCount
            ((view.dirInsert (Keylet.ownerDir t.account_)
              (Keylet.ballot t.account_ t.tx.seqProxy)).2.insert
              { key := Keylet.ballot t.account_ t.tx.seqProxy
                sfFlags := t.tx.getFlags &&& not32 tfUniversal
                sfOwnerNode := some ownerNode
                sfInitialVotes := t.tx.sfInitialVotes
                sfBallotChoiceIDs := t.tx.sfBallotChoiceIDs })
            (Keylet.account t.account_) 1)) := by
  unfold BallotCreate.doApply
  cases hacct : view.peek (Keylet.account t.account_) with
  | none => left; exact ⟨rfl, rfl⟩
  | some acct =>
    right
    dsimp only
    by_cases hres : t.mPriorBalance <
        view.fees.accountReserve ((acct.sfOwnerCount + 1) % 2 ^ 32)
    · left
      exact ⟨acct, rfl, hres, by rw [if_pos hres]⟩
    · right
      rw [if_neg hres]
      have hnone := ApplyView.dirInsert_none view (Keylet.ownerDir t.account_)
        (Keylet.ballot t.account_ t.tx.seqProxy)
      rcases hdir : view.dirInsert (Keylet.ownerDir t.account_)
        (Keylet.ballot t.account_ t.tx.seqProxy) with ⟨r, v1⟩
      rw [hdir] at hnone
      cases r with
      | none =>
        left
        have hv1 : v1 = view := hnone rfl
        subst hv1
        exact ⟨acct, rfl, hres, rfl, rfl⟩
      | some ownerNode =>
        right
        exact ⟨acct, ownerNode, rfl, hres, rfl, rfl⟩

/-- The entry that `adjustOwnerCount` leaves under the account key, and what
it leaves alone. -/
theorem adjustOwnerCount_spec (v : ApplyView) (acct : Keylet) (sle : SLE)
    (amount : Int) (h : v.entries acct = some sle) :
    (adjustOwnerCount v acct amount).entries acct =
      some { sle with
        sfOwnerCount := ((sle.sfOwnerCount : Int) + amount).toNat } ∧
    (∀ k, k ≠ acct → (adjustOwnerCount v acct amount).entries k = v.entries k) ∧
    (adjustOwnerCount v acct amount).dirPages = v.dirPages ∧
    (adjustOwnerCount v acct amount).dirLast = v.dirLast := by
  unfold adjustOwnerCount
  rw [h]
  refine ⟨?_, ?_, rfl, rfl⟩
  · simp [ApplyView.modify, ApplyView.update, h]
  · intro k hk
    simp [ApplyView.modify, ApplyView.update, hk]

/-- C11: the reserve check of `BallotCreate::doApply` reads the balance before
the fee debit.  When the account root exists, the result is
`tecINSUFFICIENT_RESERVE` if and only if `mPriorBalance` is strictly below
`accountReserve(OwnerCount + 1)`, the sum being the 32-bit sum of the source
(the plain sum unless `OwnerCount` is `2^32 - 1`); a prior balance equal to
that reserve passes the check; the balance after the fee, `mSourceBalance`,
plays no part. -/
theorem BallotCreate_doApply_reserve_check (t : TransactorState)
    (view : ApplyView) (acct : SLE)
    (hacct : view.peek (Keylet.account t.account_) = some acct) :
    ((BallotCreate.doApply t view).1 = TER.tecINSUFFICIENT_RESERVE ↔
      t.mPriorBalance <
        view.fees.accountReserve ((acct.sfOwnerCount + 1) % 2 ^ 32)) ∧
    (acct.sfOwnerCount + 1 < 2 ^ 32 →
      ((BallotCreate.doApply t view).1 = TER.tecINSUFFICIENT_RESERVE ↔
        t.mPriorBalance < view.fees.accountReserve (acct.sfOwnerCount + 1))) ∧
    (t.mPriorBalance =
        view.fees.accountReserve ((acct.sfOwnerCount + 1) % 2 ^ 32) →
      (BallotCreate.doApply t view).1 ≠ TER.tecINSUFFICIENT_RESERVE) ∧
    (∀ b, BallotCreate.doApply { t with mSourceBalance := b } view =
      BallotCreate.doApply t view) := by
  have hiff : (BallotCreate.doApply t view).1 = TER.tecINSUFFICIENT_RESERVE ↔
      t.mPriorBalance <
        view.fees.accountReserve ((acct.sfOwnerCount + 1) % 2 ^ 32) := by
    rcases BallotCreate.doApply_cases t view with h | ⟨a, ha, hlt, h⟩ |
      ⟨a, ha, hlt, _, h⟩ | ⟨a, n, ha, hlt, _, h⟩
    · rw [hacct] at h
      exact Option.noConfusion h.1
    · rw [hacct] at ha
      cases ha
      rw [h]
      exact ⟨fun _ => hlt, fun _ => rfl⟩
    · rw [hacct] at ha
      cases ha
      rw [h]
      exact ⟨fun hc => TER.noConfusion hc, fun hc => absurd hc hlt⟩
    · rw [hacct] at ha
      cases ha
      rw [h]
      exact ⟨fun hc => TER.noConfusion hc, fun hc => absurd hc hlt⟩
  refine ⟨hiff, ?_, ?_, ?_⟩
  · intro hsmall
    rw [hiff, Nat.mod_eq_of_lt hsmall]
  · intro heq hc
    have := hiff.mp hc
    omega
  · intro b
    rfl

/-- C12: after a `BallotCreate::doApply` that returns `tesSUCCESS`, the owner
count of the creating account is its previous owner count plus 1: the view is
the result of one `adjustOwnerCount` with delta `+1` on a view that still held
the account root as it was; a second successful creation by the same account
brings the count to the first count plus 2. -/
theorem BallotCreate_doApply_owner_count (t : TransactorState)
    (view : ApplyView)
    (hok : (BallotCreate.doApply t view).1 = TER.tesSUCCESS) :
    (∃ acct acct2 v2,
      view.peek (Keylet.account t.account_) = some acct ∧
      v2.peek (Keylet.account t.account_) = some acct ∧
      (BallotCreate.doApply t view).2 =
        adjustOwnerCount v2 (Keylet.account t.account_) 1 ∧
      (BallotCreate.doApply t view).2.peek (Keylet.account t.account_) =
        some acct2 ∧
      acct2.sfOwnerCount = acct.sfOwnerCount + 1) ∧
    (∀ t2 : TransactorState, t2.account_ = t.account_ →
      (BallotCreate.doApply t2 (BallotCreate.doApply t view).2).1 =
        TER.tesSUCCESS →
      ∃ acct acct3,
        view.peek (Keylet.account t.account_) = some acct ∧
        (BallotCreate.doApply t2 (BallotCreate.doApply t view).2).2.peek
          (Keylet.account t.account_) = some acct3 ∧
        acct3.sfOwnerCount = acct.sfOwnerCount + 2) := by
  have step : ∀ (t : TransactorState) (view : ApplyView),
      (BallotCreate.doApply t view).1 = TER.tesSUCCESS →
      ∃ acct acct2 v2,
        view.peek (Keylet.account t.account_) = some acct ∧
        v2.peek (Keylet.account t.account_) = some acct ∧
        (BallotCreate.doApply t view).2 =
          adjustOwnerCount v2 (Keylet.account t.account_) 1 ∧
        (BallotCreate.doApply t view).2.peek (Keylet.account t.account_) =
          some acct2 ∧
        acct2.sfOwnerCount = acct.sfOwnerCount + 1 := by
    intro t view hok
    rcases BallotCreate.doApply_cases t view with h | ⟨a, _, _, h⟩ |
      ⟨a, _, _, _, h⟩ | ⟨a, n, ha, _, _, h⟩
    · rw [h.2] at hok
      exact TER.noConfusion hok
    · rw [h] at hok
      exact TER.noConfusion hok
    · rw [h] at hok
      exact TER.noConfusion hok
    · have hframe := (ApplyView.dirInsert_frame view
        (Keylet.ownerDir t.account_) (Keylet.ballot t.account_ t.tx.seqProxy)).1
      have hv2 : ((view.dirInsert (Keylet.ownerDir t.account_)
          (Keylet.ballot t.account_ t.tx.seqProxy)).2.insert
          { key := Keylet.ballot t.account_ t.tx.seqProxy
            sfFlags := t.tx.getFlags &&& not32 tfUniversal
            sfOwnerNode := some n
            sfInitialVotes := t.tx.sfInitialVotes
            sfBallotChoiceIDs := t.tx.sfBallotChoiceIDs }).entries
          (Keylet.account t.account_) = some a := by
        simp only [ApplyView.insert]
        rw [if_neg (by intro hc; exact Keylet.noConfusion hc), hframe]
        exact ha
      have hadj := (adjustOwnerCount_spec _ (Keylet.account t.account_) a 1 hv2).1
      refine ⟨a, { a with
        sfOwnerCount := ((a.sfOwnerCount : Int) + 1).toNat }, _, ha, hv2,
        by rw [h], ?_, ?_⟩
      · rw [h]
        exact hadj
      · show ((a.sfOwnerCount : Int) + 1).toNat = a.sfOwnerCount + 1
        omega
  refine ⟨step t view hok, ?_⟩
  intro t2 ht2 hok2
  obtain ⟨a, a2, _, ha, _, _, ha2, hc2⟩ := step t view hok
  obtain ⟨b, b2, _, hb, _, _, hb2, hc3⟩ := step t2 _ hok2
  rw [ht2] at hb hb2
  rw [ha2] at hb
  cases hb
  exact ⟨a, b2, ha, hb2, by omega⟩

/-- C13: after a `BallotCreate::doApply` that returns `tesSUCCESS`, the view
holds a ballot entry under `keylet::ballot(account, sequence-proxy value)`,
that key is the last one on a page of the owner directory of the account, and
the `OwnerNode` field of the entry is the number of that page, the page
identifier that `dirInsert` returned. -/
theorem BallotCreate_doApply_ballot_entry (t : TransactorState)
    (view : ApplyView)
    (hok : (BallotCreate.doApply t view).1 = TER.tesSUCCESS) :
    ∃ page ballot,
      (view.dirInsert (Keylet.ownerDir t.account_)
        (Keylet.ballot t.account_ t.tx.seqProxy)).1 = some page ∧
      (BallotCreate.doApply t view).2.peek
        (Keylet.ballot t.account_ t.tx.seqProxy) = some ballot ∧
      ballot.key = Keylet.ballot t.account_ t.tx.seqProxy ∧
      ballot.sfOwnerNode = some page ∧
      ((BallotCreate.doApply t view).2.dirPages (Keylet.ownerDir t.account_)
        page).getLast? = some (Keylet.ballot t.account_ t.tx.seqProxy) ∧
      Keylet.ballot t.account_ t.tx.seqProxy ∈
        (BallotCreate.doApply t view).2.dirPages (Keylet.ownerDir t.account_)
          page := by
  rcases BallotCreate.doApply_cases t view with h | ⟨a, _, _, h⟩ |
    ⟨a, _, _, _, h⟩ | ⟨a, n, ha, _, hdir, h⟩
  · rw [h.2] at hok
    exact TER.noConfusion hok
  · rw [h] at hok
    exact TER.noConfusion hok
  · rw [h] at hok
    exact TER.noConfusion hok
  · have hframe := (ApplyView.dirInsert_frame view
      (Keylet.ownerDir t.account_) (Keylet.ballot t.account_ t.tx.seqProxy)).1
    have hv2 : ((view.dirInsert (Keylet.ownerDir t.account_)
        (Keylet.ballot t.account_ t.tx.seqProxy)).2.insert
        { key := Keylet.ballot t.account_ t.tx.seqProxy
          sfFlags := t.tx.getFlags &&& not32 tfUniversal
          sfOwnerNode := some n
          sfInitialVotes := t.tx.sfInitialVotes
          sfBallotChoiceIDs := t.tx.sfBallotChoiceIDs }).entries
        (Keylet.account t.account_) = some a := by
      simp only [ApplyView.insert]
      rw [if_neg (by intro hc; exact Keylet.noConfusion hc), hframe]
      exact ha
    obtain ⟨_, hother, hpages, _⟩ :=
      adjustOwnerCount_spec _ (Keylet.account t.account_) a 1 hv2
    have hlast := ApplyView.dirInsert_some view (Keylet.ownerDir t.account_)
      (Keylet.ballot t.account_ t.tx.seqProxy) n hdir
    have hpage : (BallotCreate.doApply t view).2.dirPages
        (Keylet.ownerDir t.account_) n =
        (view.dirInsert (Keylet.ownerDir t.account_)
          (Keylet.ballot t.account_ t.tx.seqProxy)).2.dirPages
          (Keylet.ownerDir t.account_) n := by
      rw [h]
      show (adjustOwnerCount _ _ 1).dirPages _ _ = _
      rw [hpages]
      rfl
    refine ⟨n, { key := Keylet.ballot t.account_ t.tx.seqProxy
                 sfFlags := t.tx.getFlags &&& not32 tfUniversal
                 sfOwnerNode := some n
                 sfInitialVotes := t.tx.sfInitialVotes
                 sfBallotChoiceIDs := t.tx.sfBallotChoiceIDs },
      hdir, ?_, rfl, rfl, ?_, ?_⟩
    · rw [h]
      show (adjustOwnerCount _ _ 1).entries _ = _
      rw [hother _ (by intro hc; exact Keylet.noConfusion hc)]
      simp [ApplyView.insert]
    · rw [hpage]
      exact hlast
    · rw [hpage]
      exact List.mem_of_getLast?_eq_some hlast

/-- C14: when `BallotCreate::doApply` returns a code other than `tesSUCCESS`,
that code is `tecINTERNAL`, `tecINSUFFICIENT_RESERVE` or `tecDIR_FULL`, and
the view it leaves is the view it was given: no entry inserted, no owner count
adjusted, no directory changed (a failing `dirInsert` leaving the view as it
was). -/
theorem BallotCreate_doApply_failure_leaves_view (t : TransactorState)
    (view : ApplyView)
    (hfail : (BallotCreate.doApply t view).1 ≠ TER.tesSUCCESS) :
    ((BallotCreate.doApply t view).1 = TER.tecINTERNAL ∨
      (BallotCreate.doApply t view).1 = TER.tecINSUFFICIENT_RESERVE ∨
      (BallotCreate.doApply t view).1 = TER.tecDIR_FULL) ∧
    (BallotCreate.doApply t view).2 = view ∧
    (BallotCreate.doApply t view).2.peek
      (Keylet.ballot t.account_ t.tx.seqProxy) =
        view.peek (Keylet.ballot t.account_ t.tx.seqProxy) ∧
    (BallotCreate.doApply t view).2.peek (Keylet.account t.account_) =
      view.peek (Keylet.account t.account_) := by
  rcases BallotCreate.doApply_cases t view with h | ⟨a, _, _, h⟩ |
    ⟨a, _, _, _, h⟩ | ⟨a, n, _, _, _, h⟩
  · rw [h.2]
    exact ⟨Or.inl rfl, rfl, rfl, rfl⟩
  · rw [h]
    exact ⟨Or.inr (Or.inl rfl), rfl, rfl, rfl⟩
  · rw [h]
    exact ⟨Or.inr (Or.inr rfl), rfl, rfl, rfl⟩
  · rw [h] at hfail
    exact absurd rfl hfail

/-! ## `Payment::doApply` -/

/-- The result of `Payment::doApply`, branch by branch: `v1` is the view after
the destination's account root has been created or marked. -/
theorem Payment.payment_doApply_cases (lf : LedgerFlags) (t : TransactorState)
    (view : ApplyView) :
    ∃ v1 : ApplyView,
      ((view.peek (Keylet.account t.tx.sfDestination) = none ∧
          v1 = view.insert
            { key := Keylet.account t.tx.sfDestination
              sfAccount := some t.tx.sfDestination
              sfSequence :=
                if view.rules.enabled Feature.featureDeletableAccounts then
                  view.seq else 1 }) ∨
        (∃ sleDst, view.peek (Keylet.account t.tx.sfDestination) = some sleDst ∧
          v1 = view.update (Keylet.account t.tx.sfDestination))) ∧
      ((v1.peek (Keylet.account t.account_) = none ∧
          Payment.doApply lf t view = (TER.tefINTERNAL, v1)) ∨
        (∃ sleSrc, v1.peek (Keylet.account t.account_) = some sleSrc ∧
          t.mPriorBalance < t.tx.sfAmount.xrp +
            max (v1.fees.accountReserve sleSrc.sfOwnerCount) t.tx.sfFee.xrp ∧
          Payment.doApply lf t view = (TER.tecUNFUNDED_PAYMENT, v1)) ∨
        (∃ sleSrc, v1.peek (Keylet.account t.account_) = some sleSrc ∧
          ¬ t.mPriorBalance < t.tx.sfAmount.xrp +
            max (v1.fees.accountReserve sleSrc.sfOwnerCount) t.tx.sfFee.xrp ∧
          Payment.doApply lf t view =
            (TER.tesSUCCESS,
              (((v1.modify (Keylet.account t.account_) (fun sle =>
                  { sle with
                    sfBalance := t.mSourceBalance - t.tx.sfAmount.value })).modify
                (Keylet.account t.tx.sfDestination) (fun sle =>
                  { sle with
                    sfBalance := sle.sfBalance + t.tx.sfAmount.value })).modify
                (Keylet.account t.tx.sfDestination) (fun sle =>
                  if sle.getFlags &&& lf.lsfPasswordSpent ≠ 0 then
                    sle.clearFlag lf.lsfPasswordSpent
                  else sle))))) := by
  unfold Payment.doApply
  dsimp only
  generalize hv1 : (match view.peek (Keylet.account t.tx.sfDestination) with
    | none =>
      view.insert
        { key := Keylet.account t.tx.sfDestination
          sfAccount := some t.tx.sfDestination
          sfSequence :=
            if view.rules.enabled Feature.featureDeletableAccounts then
              view.seq else 1 }
    | some _ => view.update (Keylet.account t.tx.sfDestination)) = v1
  refine ⟨v1, ?_, ?_⟩
  · cases hd : view.peek (Keylet.account t.tx.sfDestination) with
    | none =>
      rw [hd] at hv1
      exact Or.inl ⟨rfl, hv1.symm⟩
    | some sleDst =>
      rw [hd] at hv1
      exact Or.inr ⟨sleDst, rfl, hv1.symm⟩
  · cases hs : v1.peek (Keylet.account t.account_) with
    | none => exact Or.inl ⟨rfl, rfl⟩
    | some sleSrc =>
      right
      dsimp only
      by_cases hlt : t.mPriorBalance < t.tx.sfAmount.xrp +
          max (v1.fees.accountReserve sleSrc.sfOwnerCount) t.tx.sfFee.xrp
      · exact Or.inl ⟨sleSrc, rfl, hlt, by rw [if_pos hlt]⟩
      · exact Or.inr ⟨sleSrc, rfl, hlt, by rw [if_neg hlt]⟩

/-- The view `v1` that `Payment::doApply` works on after it has created or
marked the destination's account root: an existing account root of the source
is still there, and the fee schedule is the same. -/
theorem Payment.doApply_source_kept (t : TransactorState) (view v1 : ApplyView)
    (sleSrc : SLE)
    (hsrc : view.peek (Keylet.account t.account_) = some sleSrc)
    (hv1 : (view.peek (Keylet.account t.tx.sfDestination) = none ∧
          v1 = view.insert
            { key := Keylet.account t.tx.sfDestination
              sfAccount := some t.tx.sfDestination
              sfSequence :=
                if view.rules.enabled Feature.featureDeletableAccounts then
                  view.seq else 1 }) ∨
        (∃ sleDst, view.peek (Keylet.account t.tx.sfDestination) = some sleDst ∧
          v1 = view.update (Keylet.account t.tx.sfDestination))) :
    v1.peek (Keylet.account t.account_) = some sleSrc ∧ v1.fees = view.fees := by
  rcases hv1 with ⟨hnone, rfl⟩ | ⟨_, _, rfl⟩
  · refine ⟨?_, rfl⟩
    have hne : Keylet.account t.account_ ≠ Keylet.account t.tx.sfDestination := by
      intro hc
      rw [hc, hnone] at hsrc
      exact Option.noConfusion hsrc
    simp only [ApplyView.peek, ApplyView.insert]
    rw [if_neg hne]
    exact hsrc
  · exact ⟨hsrc, rfl⟩

/-- C15, as it stands, fails: `Payment::doApply` creates or marks the
destination's account root before it looks up the source and checks the funds.
On the sample view, an underfunded payment to the missing account 6 returns
`tecUNFUNDED_PAYMENT` and leaves an account root for 6 in the view; an
underfunded payment to the existing account 8 leaves 8 marked as updated. -/
theorem Payment_doApply_failure_changes_view :
    (Payment.doApply sampleLedgerFlags
      { samplePaymentState with mPriorBalance := 50, mSourceBalance := 40 }
      sampleView).1 = TER.tecUNFUNDED_PAYMENT ∧
    sampleView.peek (Keylet.account 6) = none ∧
    (Payment.doApply sampleLedgerFlags
      { samplePaymentState with mPriorBalance := 50, mSourceBalance := 40 }
      sampleView).2.peek (Keylet.account 6) =
        some { key := Keylet.account 6, sfAccount := some 6, sfSequence := 1 } ∧
    (Payment.doApply sampleLedgerFlags
      { tx := { samplePayment with sfDestination := 8 }, account_ := 5,
        mPriorBalance := 50, mSourceBalance := 40 }
      sampleView).1 = TER.tecUNFUNDED_PAYMENT ∧
    sampleView.updated = [] ∧
    (Payment.doApply sampleLedgerFlags
      { tx := { samplePayment with sfDestination := 8 }, account_ := 5,
        mPriorBalance := 50, mSourceBalance := 40 }
      sampleView).2.updated = [Keylet.account 8] := by
  refine ⟨?_, ?_, ?_, ?_, ?_, ?_⟩ <;> decide

/-- C15, amended: when `Payment::doApply` returns a code other than
`tesSUCCESS`, that code is `tefINTERNAL` or `tecUNFUNDED_PAYMENT`, and the
view it leaves differs from the view it was given at the destination's account
root only: a new account root has been inserted when there was none, the
existing one has been marked as updated otherwise; every other entry is as it
was.  The ledger is left as if the stage had not run once the pipeline driver
has discarded that view. -/
theorem Payment_doApply_failure_effect (lf : LedgerFlags) (t : TransactorState)
    (view : ApplyView)
    (hfail : (Payment.doApply lf t view).1 ≠ TER.tesSUCCESS) :
    ((Payment.doApply lf t view).1 = TER.tefINTERNAL ∨
      (Payment.doApply lf t view).1 = TER.tecUNFUNDED_PAYMENT) ∧
    (view.peek (Keylet.account t.tx.sfDestination) = none →
      (Payment.doApply lf t view).2 = view.insert
        { key := Keylet.account t.tx.sfDestination
          sfAccount := some t.tx.sfDestination
          sfSequence :=
            if view.rules.enabled Feature.featureDeletableAccounts then
              view.seq else 1 }) ∧
    (∀ sleDst, view.peek (Keylet.account t.tx.sfDestination) = some sleDst →
      (Payment.doApply lf t view).2 =
        view.update (Keylet.account t.tx.sfDestination)) ∧
    (∀ k, k ≠ Keylet.account t.tx.sfDestination →
      (Payment.doApply lf t view).2.peek k = view.peek k) ∧
    (∀ (preflight : PreflightContext → TER)
        (preclaim : PreclaimContext ApplyView → TER) (ctx : PreflightContext),
      (applyTransaction
        { preflight := preflight
          preclaim := preclaim
          doApply := fun _ v => Payment.doApply lf t v } ctx view).view =
        view) := by
  obtain ⟨v1, hv1, hres⟩ := Payment.payment_doApply_cases lf t view
  have h2 : (Payment.doApply lf t view).2 = v1 ∧
      ((Payment.doApply lf t view).1 = TER.tefINTERNAL ∨
        (Payment.doApply lf t view).1 = TER.tecUNFUNDED_PAYMENT) := by
    rcases hres with ⟨_, hr⟩ | ⟨_, _, _, hr⟩ | ⟨_, _, _, hr⟩
    · rw [hr]
      exact ⟨rfl, Or.inl rfl⟩
    · rw [hr]
      exact ⟨rfl, Or.inr rfl⟩
    · rw [hr] at hfail
      exact absurd rfl hfail
  refine ⟨h2.2, ?_, ?_, ?_, ?_⟩
  · intro hnone
    rw [h2.1]
    rcases hv1 with ⟨_, hv⟩ | ⟨s, hs, _⟩
    · exact hv
    · rw [hnone] at hs
      exact Option.noConfusion hs
  · intro sleDst hsome
    rw [h2.1]
    rcases hv1 with ⟨hn, _⟩ | ⟨_, _, hv⟩
    · rw [hsome] at hn
      exact Option.noConfusion hn
    · exact hv
  · intro k hk
    rw [h2.1]
    rcases hv1 with ⟨_, rfl⟩ | ⟨_, _, rfl⟩
    · simp only [ApplyView.peek, ApplyView.insert]
      rw [if_neg hk]
    · rfl
  · intro preflight preclaim ctx
    unfold applyTransaction
    dsimp only
    split_ifs with hpf hpc hap
    · rfl
    · rfl
    · exact absurd (of_decide_eq_true hap) hfail
    · rfl

/-! ## `Payment::preflight` and `Payment::preclaim` -/

theorem tfPaymentMask_eq : tfPaymentMask = 0x7FF8FFFF := by
  decide

/-- Below bit 32, the payment mask has exactly the bits that the allowed
flags lack. -/
theorem tfPaymentMask_testBit :
    ∀ i, i < 32 →
      Nat.testBit tfPaymentMask i =
        !Nat.testBit
          (tfUniversal ||| tfPartialPayment ||| tfLimitQuality |||
            tfNoRippleDirect) i := by
  decide

/-- C17: when `preflight1` succeeds, a Payment whose `Flags` has a bit set that
is not a bit of `tfUniversal | tfPartialPayment | tfLimitQuality |
tfNoRippleDirect` (`0x80070000`) gets `temINVALID_FLAG` from
`Payment::preflight`. -/
theorem Payment_preflight_flag_check (ext : Externals) (amt : AmountExternals)
    (ctx : PreflightContext)
    (h1 : ext.preflight1 ctx = TER.tesSUCCESS)
    (hbit : ∃ i, ctx.tx.getFlags.testBit i = true ∧
      (tfUniversal ||| tfPartialPayment ||| tfLimitQuality |||
        tfNoRippleDirect).testBit i = false) :
    (tfUniversal ||| tfPartialPayment ||| tfLimitQuality ||| tfNoRippleDirect) =
      0x80070000 ∧
    Payment.preflight ext amt ctx = TER.temINVALID_FLAG := by
  refine ⟨by decide, ?_⟩
  obtain ⟨i, hset, hout⟩ := hbit
  have h32 : i < 32 := by
    by_contra hge
    have hpow : ctx.tx.getFlags < 2 ^ i :=
      lt_of_lt_of_le (getFlags_lt ctx.tx)
        (Nat.pow_le_pow_right (by norm_num) (by omega))
    rw [Nat.testBit_lt_two_pow hpow] at hset
    exact Bool.noConfusion hset
  have hmask : ctx.tx.getFlags &&& tfPaymentMask ≠ 0 := by
    intro h0
    have hb : (ctx.tx.getFlags &&& tfPaymentMask).testBit i = true := by
      rw [Nat.testBit_and, hset, tfPaymentMask_testBit i h32, hout]
      rfl
    rw [h0, Nat.zero_testBit] at hb
    exact Bool.noConfusion hb
  unfold Payment.preflight
  dsimp only
  rw [h1]
  rw [if_neg (by decide), if_pos hmask]

/-- C18: `Payment::preclaim` returns `tecDST_TAG_NEEDED` if and only if the
destination's account root exists, has `lsfRequireDestTag` set, and the
transaction has no `DestinationTag`; a transaction with a `DestinationTag`
never gets this code. -/
theorem Payment_preclaim_dst_tag_needed (lf : LedgerFlags)
    (ctx : PreclaimContext ApplyView) :
    (Payment.preclaim lf ctx = TER.tecDST_TAG_NEEDED ↔
      ∃ sleDst,
        ctx.view.read (Keylet.account ctx.tx.sfDestination) = some sleDst ∧
        sleDst.getFlags &&& lf.lsfRequireDestTag ≠ 0 ∧
        ctx.tx.sfDestinationTag = none) ∧
    (ctx.tx.sfDestinationTag.isSome = true →
      Payment.preclaim lf ctx ≠ TER.tecDST_TAG_NEEDED) := by
  have hiff : Payment.preclaim lf ctx = TER.tecDST_TAG_NEEDED ↔
      ∃ sleDst,
        ctx.view.read (Keylet.account ctx.tx.sfDestination) = some sleDst ∧
        sleDst.getFlags &&& lf.lsfRequireDestTag ≠ 0 ∧
        ctx.tx.sfDestinationTag = none := by
    unfold Payment.preclaim
    dsimp only
    cases hd : ctx.view.read (Keylet.account ctx.tx.sfDestination) with
    | none =>
      dsimp only
      constructor
      · intro h
        split_ifs at h
      · rintro ⟨_, hs, _⟩
        exact Option.noConfusion hs
    | some sleDst =>
      dsimp only
      constructor
      · intro h
        split_ifs at h with hc
        exact ⟨sleDst, rfl, hc.1, Option.isNone_iff_eq_none.mp hc.2⟩
      · rintro ⟨s, hs, hflag, htag⟩
        cases hs
        rw [if_pos ⟨hflag, Option.isNone_iff_eq_none.mpr htag⟩]
  refine ⟨hiff, ?_⟩
  intro htag hc
  obtain ⟨_, _, _, hnone⟩ := hiff.mp hc
  rw [hnone] at htag
  exact Bool.noConfusion htag

/-- C19: for a destination without an account root, and unless the view is
open with `tfPartialPayment` set, `Payment::preclaim` returns
`tecNO_DST_INSUF_XRP` if and only if `Amount < accountReserve(0)`, and
`tesSUCCESS` otherwise; an `Amount` equal to `accountReserve(0)` gives
`tesSUCCESS`. -/
theorem Payment_preclaim_no_destination (lf : LedgerFlags)
    (ctx : PreclaimContext ApplyView)
    (hdst : ctx.view.read (Keylet.account ctx.tx.sfDestination) = none)
    (hnp : ¬ (ctx.view.open_ = true ∧
      ctx.tx.getFlags &&& tfPartialPayment ≠ 0)) :
    (Payment.preclaim lf ctx = TER.tecNO_DST_INSUF_XRP ↔
      ctx.tx.sfAmount.value < ctx.view.fees.accountReserve 0) ∧
    (¬ ctx.tx.sfAmount.value < ctx.view.fees.accountReserve 0 →
      Payment.preclaim lf ctx = TER.tesSUCCESS) ∧
    (ctx.tx.sfAmount.value = ctx.view.fees.accountReserve 0 →
      Payment.preclaim lf ctx = TER.tesSUCCESS) := by
  have hgate : (ctx.view.open_ &&
      decide (ctx.tx.getFlags &&& tfPartialPayment ≠ 0)) = false := by
    cases ho : ctx.view.open_
    · rfl
    · have : ¬ ctx.tx.getFlags &&& tfPartialPayment ≠ 0 :=
        fun hc => hnp ⟨ho, hc⟩
      simp [this]
  have hform : Payment.preclaim lf ctx =
      if ctx.tx.sfAmount.value < ctx.view.fees.accountReserve 0 then
        TER.tecNO_DST_INSUF_XRP else TER.tesSUCCESS := by
    unfold Payment.preclaim
    dsimp only
    rw [hdst]
    dsimp only
    rw [hgate]
    rfl
  rw [hform]
  refine ⟨?_, ?_, ?_⟩
  · constructor
    · intro h
      by_contra hc
      rw [if_neg hc] at h
      exact TER.noConfusion h
    · intro h
      rw [if_pos h]
  · intro h
    rw [if_neg h]
  · intro h
    rw [if_neg (by omega)]

/-- C20: the funding check of `Payment::doApply` reads the balance before the
fee debit.  When the source's account root exists, the result is
`tecUNFUNDED_PAYMENT` if and only if `mPriorBalance < Amount +
max(accountReserve(OwnerCount), Fee)`, and `tesSUCCESS` otherwise; the balance
after the fee, `mSourceBalance`, plays no part in the result code. -/
theorem Payment_doApply_funding_check (lf : LedgerFlags) (t : TransactorState)
    (view : ApplyView) (sleSrc : SLE)
    (hsrc : view.peek (Keylet.account t.account_) = some sleSrc) :
    ((Payment.doApply lf t view).1 = TER.tecUNFUNDED_PAYMENT ↔
      t.mPriorBalance < t.tx.sfAmount.xrp +
        max (view.fees.accountReserve sleSrc.sfOwnerCount) t.tx.sfFee.xrp) ∧
    (¬ t.mPriorBalance < t.tx.sfAmount.xrp +
        max (view.fees.accountReserve sleSrc.sfOwnerCount) t.tx.sfFee.xrp →
      (Payment.doApply lf t view).1 = TER.tesSUCCESS) ∧
    (∀ b, (Payment.doApply lf { t with mSourceBalance := b } view).1 =
      (Payment.doApply lf t view).1) := by
  have key : ∀ t : TransactorState,
      view.peek (Keylet.account t.account_) = some sleSrc →
      (Payment.doApply lf t view).1 =
        if t.mPriorBalance < t.tx.sfAmount.xrp +
          max (view.fees.accountReserve sleSrc.sfOwnerCount) t.tx.sfFee.xrp
        then TER.tecUNFUNDED_PAYMENT else TER.tesSUCCESS := by
    intro t hsrc
    obtain ⟨v1, hv1, hres⟩ := Payment.payment_doApply_cases lf t view
    obtain ⟨hpeek, hfees⟩ := Payment.doApply_source_kept t view v1 sleSrc hsrc hv1
    rcases hres with ⟨hn, _⟩ | ⟨s, hs, hlt, hr⟩ | ⟨s, hs, hlt, hr⟩
    · rw [hpeek] at hn
      exact Option.noConfusion hn
    · rw [hpeek] at hs
      cases hs
      rw [hfees] at hlt
      rw [hr, if_pos hlt]
    · rw [hpeek] at hs
      cases hs
      rw [hfees] at hlt
      rw [hr, if_neg hlt]
  refine ⟨?_, ?_, ?_⟩
  · rw [key t hsrc]
    constructor
    · intro h
      by_contra hc
      rw [if_neg hc] at h
      exact TER.noConfusion h
    · intro h
      rw [if_pos h]
  · intro h
    rw [key t hsrc, if_neg h]
  · intro b
    rw [key t hsrc, key { t with mSourceBalance := b } hsrc]

/-! ## Witnesses for the apply and preclaim stages -/

/-- The reserve check on the sample view: a prior balance of 11 drops, below
the reserve of 12 for one owned object, is rejected; a prior balance of exactly
12 is not. -/
theorem BallotCreate_doApply_reserve_check_witness :
    sampleView.peek (Keylet.account 5) = some sampleRoot ∧
    (BallotCreate.doApply { sampleState with mPriorBalance := 11 } sampleView).1 =
      TER.tecINSUFFICIENT_RESERVE ∧
    (BallotCreate.doApply { sampleState with mPriorBalance := 12 } sampleView).1 ≠
      TER.tecINSUFFICIENT_RESERVE :=
  ⟨by decide,
    (BallotCreate_doApply_reserve_check { sampleState with mPriorBalance := 11 }
      sampleView sampleRoot (by decide)).1.mpr (by decide),
    (BallotCreate_doApply_reserve_check { sampleState with mPriorBalance := 12 }
      sampleView sampleRoot (by decide)).2.2.1 (by decide)⟩

/-- The sample creation on the sample view succeeds and raises the owner count
of account 5 from 0 to 1. -/
theorem BallotCreate_doApply_owner_count_witness :
    (BallotCreate.doApply sampleState sampleView).1 = TER.tesSUCCESS ∧
    ∃ acct acct2 v2,
      sampleView.peek (Keylet.account sampleState.account_) = some acct ∧
      v2.peek (Keylet.account sampleState.account_) = some acct ∧
      (BallotCreate.doApply sampleState sampleView).2 =
        adjustOwnerCount v2 (Keylet.account sampleState.account_) 1 ∧
      (BallotCreate.doApply sampleState sampleView).2.peek
        (Keylet.account sampleState.account_) = some acct2 ∧
      acct2.sfOwnerCount = acct.sfOwnerCount + 1 :=
  ⟨by decide,
    (BallotCreate_doApply_owner_count sampleState sampleView (by decide)).1⟩

/-- The sample creation on the sample view leaves a ballot entry under
`Keylet.ballot 5 3`, listed on a page of the owner directory of account 5. -/
theorem BallotCreate_doApply_ballot_entry_witness :
    (BallotCreate.doApply sampleState sampleView).1 = TER.tesSUCCESS ∧
    ∃ page ballot,
      (sampleView.dirInsert (Keylet.ownerDir sampleState.account_)
        (Keylet.ballot sampleState.account_ sampleState.tx.seqProxy)).1 =
          some page ∧
      (BallotCreate.doApply sampleState sampleView).2.peek
        (Keylet.ballot sampleState.account_ sampleState.tx.seqProxy) =
          some ballot ∧
      ballot.key = Keylet.ballot sampleState.account_ sampleState.tx.seqProxy ∧
      ballot.sfOwnerNode = some page ∧
      ((BallotCreate.doApply sampleState sampleView).2.dirPages
        (Keylet.ownerDir sampleState.account_) page).getLast? =
          some (Keylet.ballot sampleState.account_ sampleState.tx.seqProxy) ∧
      Keylet.ballot sampleState.account_ sampleState.tx.seqProxy ∈
        (BallotCreate.doApply sampleState sampleView).2.dirPages
          (Keylet.ownerDir sampleState.account_) page :=
  ⟨by decide,
    BallotCreate_doApply_ballot_entry sampleState sampleView (by decide)⟩

/-- The three failures of `BallotCreate::doApply`: no account root, a prior
balance below the reserve, a full owner directory; each leaves its view. -/
theorem BallotCreate_doApply_failure_leaves_view_witness :
    (BallotCreate.doApply sampleState emptyView).1 = TER.tecINTERNAL ∧
    (BallotCreate.doApply sampleState emptyView).2 = emptyView ∧
    (BallotCreate.doApply { sampleState with mPriorBalance := 11 } sampleView).1 =
      TER.tecINSUFFICIENT_RESERVE ∧
    (BallotCreate.doApply { sampleState with mPriorBalance := 11 } sampleView).2 =
      sampleView ∧
    (BallotCreate.doApply sampleState fullDirView).1 = TER.tecDIR_FULL ∧
    (BallotCreate.doApply sampleState fullDirView).2 = fullDirView :=
  ⟨by decide,
    (BallotCreate_doApply_failure_leaves_view sampleState emptyView
      (by decide)).2.1,
    by decide,
    (BallotCreate_doApply_failure_leaves_view
      { sampleState with mPriorBalance := 11 } sampleView (by decide)).2.1,
    by decide,
    (BallotCreate_doApply_failure_leaves_view sampleState fullDirView
      (by decide)).2.1⟩

/-- An underfunded payment to the missing account 6 leaves the sample view with
a new account root for 6 and nothing else changed; the pipeline driver hands
back the sample view. -/
theorem Payment_doApply_failure_effect_witness :
    (Payment.doApply sampleLedgerFlags
      { samplePaymentState with mPriorBalance := 50, mSourceBalance := 40 }
      sampleView).1 ≠ TER.tesSUCCESS ∧
    (Payment.doApply sampleLedgerFlags
      { samplePaymentState with mPriorBalance := 50, mSourceBalance := 40 }
      sampleView).2 =
      sampleView.insert
        { key := Keylet.account 6, sfAccount := some 6, sfSequence := 1 } ∧
    (applyTransaction
      { preflight := fun _ => TER.tesSUCCESS
        preclaim := Payment.preclaim sampleLedgerFlags
        doApply := fun _ v => Payment.doApply sampleLedgerFlags
          { samplePaymentState with mPriorBalance := 50, mSourceBalance := 40 }
          v }
      { tx := samplePayment, rules := allEnabled } sampleView).view =
      sampleView :=
  ⟨by decide,
    (Payment_doApply_failure_effect sampleLedgerFlags
      { samplePaymentState with mPriorBalance := 50, mSourceBalance := 40 }
      sampleView (by decide)).2.1 (by decide),
    (Payment_doApply_failure_effect sampleLedgerFlags
      { samplePaymentState with mPriorBalance := 50, mSourceBalance := 40 }
      sampleView (by decide)).2.2.2.2 _ _ _⟩

/-- The payment flag check on `Flags = 0x00000001`, with `preflight1`
passing. -/
theorem Payment_preflight_flag_check_witness :
    sampleExternals.preflight1
      { tx := { samplePayment with sfFlags := 1 }, rules := allEnabled } =
        TER.tesSUCCESS ∧
    Payment.preflight sampleExternals sampleAmountExternals
      { tx := { samplePayment with sfFlags := 1 }, rules := allEnabled } =
        TER.temINVALID_FLAG :=
  ⟨rfl,
    (Payment_preflight_flag_check sampleExternals sampleAmountExternals
      { tx := { samplePayment with sfFlags := 1 }, rules := allEnabled } rfl
      ⟨0, by decide, by decide⟩).2⟩

/-- A payment to account 8, which requires a destination tag: rejected without
a tag, not rejected with one. -/
theorem Payment_preclaim_dst_tag_needed_witness :
    Payment.preclaim sampleLedgerFlags
      { view := sampleView, tx := { samplePayment with sfDestination := 8 } } =
        TER.tecDST_TAG_NEEDED ∧
    Payment.preclaim sampleLedgerFlags
      { view := sampleView
        tx := { samplePayment with
                  sfDestination := 8, sfDestinationTag := some 17 } } ≠
        TER.tecDST_TAG_NEEDED :=
  ⟨(Payment_preclaim_dst_tag_needed sampleLedgerFlags
      { view := sampleView
        tx := { samplePayment with sfDestination := 8 } }).1.mpr
      ⟨taggedRoot, by decide, by decide, rfl⟩,
    (Payment_preclaim_dst_tag_needed sampleLedgerFlags
      { view := sampleView
        tx := { samplePayment with
                  sfDestination := 8, sfDestinationTag := some 17 } }).2 rfl⟩

/-- A payment to the missing account 6 with the base reserve of 10 drops: 9
drops are rejected, exactly 10 are accepted. -/
theorem Payment_preclaim_no_destination_witness :
    Payment.preclaim sampleLedgerFlags
      { view := sampleView
        tx := { samplePayment with sfAmount := { value := 9 } } } =
        TER.tecNO_DST_INSUF_XRP ∧
    Payment.preclaim sampleLedgerFlags
      { view := sampleView
        tx := { samplePayment with sfAmount := { value := 10 } } } =
        TER.tesSUCCESS :=
  ⟨(Payment_preclaim_no_destination sampleLedgerFlags
      { view := sampleView
        tx := { samplePayment with sfAmount := { value := 9 } } }
      (by decide) (by decide)).1.mpr (by decide),
    (Payment_preclaim_no_destination sampleLedgerFlags
      { view := sampleView
        tx := { samplePayment with sfAmount := { value := 10 } } }
      (by decide) (by decide)).2.2 (by decide)⟩

/-- The funding check on the sample payment of 100 drops (reserve 10, fee 10):
a prior balance of 109 is underfunded, a prior balance of exactly 110 pays. -/
theorem Payment_doApply_funding_check_witness :
    sampleView.peek (Keylet.account 5) = some sampleRoot ∧
    (Payment.doApply sampleLedgerFlags
      { samplePaymentState with mPriorBalance := 109 } sampleView).1 =
        TER.tecUNFUNDED_PAYMENT ∧
    (Payment.doApply sampleLedgerFlags
      { samplePaymentState with mPriorBalance := 110 } sampleView).1 =
        TER.tesSUCCESS :=
  ⟨by decide,
    (Payment_doApply_funding_check sampleLedgerFlags
      { samplePaymentState with mPriorBalance := 109 } sampleView sampleRoot
      (by decide)).1.mpr (by decide),
    (Payment_doApply_funding_check sampleLedgerFlags
      { samplePaymentState with mPriorBalance := 110 } sampleView sampleRoot
      (by decide)).2.1 (by decide)⟩

/-! ## A successful `Payment::doApply` -/

theorem ApplyView.peek_modify_same (v : ApplyView) (k : Keylet) (f : SLE → SLE) :
    (v.modify k f).peek k = (v.peek k).map f := by
  simp [ApplyView.peek, ApplyView.modify]

theorem ApplyView.peek_modify_other (v : ApplyView) (k k2 : Keylet)
    (f : SLE → SLE) (h : k2 ≠ k) :
    (v.modify k f).peek k2 = v.peek k2 := by
  simp [ApplyView.peek, ApplyView.modify, h]

theorem ApplyView.peek_insert_same (v : ApplyView) (sle : SLE) :
    (v.insert sle).peek sle.key = some sle := by
  simp [ApplyView.peek, ApplyView.insert]

theorem ApplyView.peek_insert_other (v : ApplyView) (sle : SLE) (k : Keylet)
    (h : k ≠ sle.key) :
    (v.insert sle).peek k = v.peek k := by
  simp [ApplyView.peek, ApplyView.insert, h]

theorem ApplyView.peek_update (v : ApplyView) (k k2 : Keylet) :
    (v.update k).peek k2 = v.peek k2 := rfl

/-- The view that a successful `Payment::doApply` leaves: `v1` is the view
after the destination's account root has been created or marked, `sleSrc` the
source's account root as `doApply` found it in `v1`. -/
theorem Payment.payment_doApply_success (lf : LedgerFlags) (t : TransactorState)
    (view : ApplyView)
    (hok : (Payment.doApply lf t view).1 = TER.tesSUCCESS) :
    ∃ (v1 : ApplyView) (sleSrc : SLE),
      ((view.peek (Keylet.account t.tx.sfDestination) = none ∧
          v1 = view.insert
            { key := Keylet.account t.tx.sfDestination
              sfAccount := some t.tx.sfDestination
              sfSequence :=
                if view.rules.enabled Feature.featureDeletableAccounts then
                  view.seq else 1 }) ∨
        (∃ sleDst, view.peek (Keylet.account t.tx.sfDestination) = some sleDst ∧
          v1 = view.update (Keylet.account t.tx.sfDestination))) ∧
      v1.peek (Keylet.account t.account_) = some sleSrc ∧
      ¬ t.mPriorBalance < t.tx.sfAmount.xrp +
        max (v1.fees.accountReserve sleSrc.sfOwnerCount) t.tx.sfFee.xrp ∧
      (Payment.doApply lf t view).2 =
        (((v1.modify (Keylet.account t.account_) (fun sle =>
            { sle with
              sfBalance := t.mSourceBalance - t.tx.sfAmount.value })).modify
          (Keylet.account t.tx.sfDestination) (fun sle =>
            { sle with
              sfBalance := sle.sfBalance + t.tx.sfAmount.value })).modify
          (Keylet.account t.tx.sfDestination) (fun sle =>
            if sle.getFlags &&& lf.lsfPasswordSpent ≠ 0 then
              sle.clearFlag lf.lsfPasswordSpent
            else sle)) := by
  obtain ⟨v1, hv1, hres⟩ := Payment.payment_doApply_cases lf t view
  rcases hres with ⟨_, hr⟩ | ⟨_, _, _, hr⟩ | ⟨sleSrc, hs, hlt, hr⟩
  · rw [hr] at hok
    exact TER.noConfusion hok
  · rw [hr] at hok
    exact TER.noConfusion hok
  · exact ⟨v1, sleSrc, hv1, hs, hlt, by rw [hr]⟩

/-- C21: when `Payment::doApply` returns `tesSUCCESS`, with `Fee >= 0` and
`mSourceBalance = mPriorBalance - Fee`, the balance `mSourceBalance - Amount`
that it gives the source is at least 0 and at least `accountReserve(OwnerCount)
- Fee`, `OwnerCount` being the source's; that value is the source's balance in
the view left behind when the destination is another account. -/
theorem Payment_doApply_source_balance_bounds (lf : LedgerFlags)
    (t : TransactorState) (view : ApplyView)
    (hok : (Payment.doApply lf t view).1 = TER.tesSUCCESS)
    (_hfee : 0 ≤ t.tx.sfFee.xrp)
    (hbal : t.mSourceBalance = t.mPriorBalance - t.tx.sfFee.xrp) :
    0 ≤ t.mSourceBalance - t.tx.sfAmount.xrp ∧
    (∀ sleSrc, view.peek (Keylet.account t.account_) = some sleSrc →
      view.fees.accountReserve sleSrc.sfOwnerCount - t.tx.sfFee.xrp ≤
        t.mSourceBalance - t.tx.sfAmount.xrp) ∧
    (t.tx.sfDestination ≠ t.account_ →
      ∃ srcNew,
        (Payment.doApply lf t view).2.peek (Keylet.account t.account_) =
          some srcNew ∧
        srcNew.sfBalance = t.mSourceBalance - t.tx.sfAmount.xrp) := by
  obtain ⟨v1, sleSrc, hv1, hs, hlt, hview⟩ :=
    Payment.payment_doApply_success lf t view hok
  have hmaxfee : t.tx.sfFee.xrp ≤
      max (v1.fees.accountReserve sleSrc.sfOwnerCount) t.tx.sfFee.xrp :=
    le_max_right _ _
  have hmaxres : v1.fees.accountReserve sleSrc.sfOwnerCount ≤
      max (v1.fees.accountReserve sleSrc.sfOwnerCount) t.tx.sfFee.xrp :=
    le_max_left _ _
  refine ⟨by omega, ?_, ?_⟩
  · intro s0 hs0
    obtain ⟨hpeek, hfees⟩ := Payment.doApply_source_kept t view v1 s0 hs0 hv1
    rw [hpeek] at hs
    cases hs
    rw [hfees] at hmaxres hlt
    omega
  · intro hne
    have hk : Keylet.account t.account_ ≠ Keylet.account t.tx.sfDestination :=
      fun hc => hne (Keylet.account.inj hc).symm
    refine ⟨{ sleSrc with
      sfBalance := t.mSourceBalance - t.tx.sfAmount.value }, ?_, rfl⟩
    rw [hview, ApplyView.peek_modify_other _ _ _ _ hk,
      ApplyView.peek_modify_other _ _ _ _ hk, ApplyView.peek_modify_same, hs]
    rfl

/-- The destination's account root as a successful `Payment::doApply` leaves
it, in terms of the root `dst1` that it had in `v1`. -/
theorem Payment.payment_doApply_destination (lf : LedgerFlags)
    (t : TransactorState) (view : ApplyView)
    (hok : (Payment.doApply lf t view).1 = TER.tesSUCCESS) :
    ∃ dst1 : SLE,
      ((view.peek (Keylet.account t.tx.sfDestination) = none ∧
          dst1 =
            { key := Keylet.account t.tx.sfDestination
              sfAccount := some t.tx.sfDestination
              sfSequence :=
                if view.rules.enabled Feature.featureDeletableAccounts then
                  view.seq else 1 }) ∨
        view.peek (Keylet.account t.tx.sfDestination) = some dst1) ∧
      (t.tx.sfDestination ≠ t.account_ →
        (Payment.doApply lf t view).2.peek (Keylet.account t.tx.sfDestination) =
          some
            ((fun sle : SLE =>
                if sle.getFlags &&& lf.lsfPasswordSpent ≠ 0 then
                  sle.clearFlag lf.lsfPasswordSpent
                else sle)
              { dst1 with sfBalance := dst1.sfBalance + t.tx.sfAmount.value })) ∧
      (t.tx.sfDestination = t.account_ →
        (Payment.doApply lf t view).2.peek (Keylet.account t.tx.sfDestination) =
          some
            ((fun sle : SLE =>
                if sle.getFlags &&& lf.lsfPasswordSpent ≠ 0 then
                  sle.clearFlag lf.lsfPasswordSpent
                else sle)
              { dst1 with
                sfBalance :=
                  t.mSourceBalance - t.tx.sfAmount.value + t.tx.sfAmount.value })) := by
  obtain ⟨v1, sleSrc, hv1, hs, _, hview⟩ :=
    Payment.payment_doApply_success lf t view hok
  have hdst : ∃ dst1 : SLE,
      v1.peek (Keylet.account t.tx.sfDestination) = some dst1 ∧
      ((view.peek (Keylet.account t.tx.sfDestination) = none ∧
          dst1 =
            { key := Keylet.account t.tx.sfDestination
              sfAccount := some t.tx.sfDestination
              sfSequence :=
                if view.rules.enabled Feature.featureDeletableAccounts then
                  view.seq else 1 }) ∨
        view.peek (Keylet.account t.tx.sfDestination) = some dst1) := by
    rcases hv1 with ⟨hn, rfl⟩ | ⟨d, hd, rfl⟩
    · exact ⟨_, ApplyView.peek_insert_same view _, Or.inl ⟨hn, rfl⟩⟩
    · exact ⟨d, hd, Or.inr hd⟩
  obtain ⟨dst1, hd1, hrel⟩ := hdst
  refine ⟨dst1, hrel, ?_, ?_⟩
  · intro hne
    have hk : Keylet.account t.tx.sfDestination ≠ Keylet.account t.account_ :=
      fun hc => hne (Keylet.account.inj hc)
    rw [hview, ApplyView.peek_modify_same, ApplyView.peek_modify_same,
      ApplyView.peek_modify_other _ _ _ _ hk, hd1]
    rfl
  · intro heq
    rw [hview, ApplyView.peek_modify_same, ApplyView.peek_modify_same, ← heq,
      ApplyView.peek_modify_same, hd1]
    rfl

/-- C28: when `Payment::doApply` returns `tesSUCCESS` and the destination is
another account than the source, the source's balance becomes `mSourceBalance
- Amount` and the destination's becomes its previous balance (0 for a new
account root) plus `Amount`; the two new balances add up to `mSourceBalance`
plus the destination's previous balance, which is the sum of the stored
balances when the source's stored balance is `mSourceBalance`; no entry under
another key is changed. -/
theorem Payment_doApply_transfer (lf : LedgerFlags) (t : TransactorState)
    (view : ApplyView)
    (hok : (Payment.doApply lf t view).1 = TER.tesSUCCESS)
    (hne : t.tx.sfDestination ≠ t.account_) :
    ∃ srcOld srcNew dstNew : SLE,
      view.peek (Keylet.account t.account_) = some srcOld ∧
      (Payment.doApply lf t view).2.peek (Keylet.account t.account_) =
        some srcNew ∧
      (Payment.doApply lf t view).2.peek (Keylet.account t.tx.sfDestination) =
        some dstNew ∧
      srcNew.sfBalance = t.mSourceBalance - t.tx.sfAmount.value ∧
      dstNew.sfBalance =
        (match view.peek (Keylet.account t.tx.sfDestination) with
          | some dstOld => dstOld.sfBalance
          | none => 0) + t.tx.sfAmount.value ∧
      srcNew.sfBalance + dstNew.sfBalance =
        t.mSourceBalance +
          (match view.peek (Keylet.account t.tx.sfDestination) with
            | some dstOld => dstOld.sfBalance
            | none => 0) ∧
      (srcOld.sfBalance = t.mSourceBalance →
        srcNew.sfBalance + dstNew.sfBalance =
          srcOld.sfBalance +
            (match view.peek (Keylet.account t.tx.sfDestination) with
              | some dstOld => dstOld.sfBalance
              | none => 0)) ∧
      (∀ k, k ≠ Keylet.account t.account_ →
        k ≠ Keylet.account t.tx.sfDestination →
        (Payment.doApply lf t view).2.peek k = view.peek k) := by
  obtain ⟨v1, sleSrc, hv1, hs, _, hview⟩ :=
    Payment.payment_doApply_success lf t view hok
  obtain ⟨dst1, hrel, hdstNew, _⟩ :=
    Payment.payment_doApply_destination lf t view hok
  have hk : Keylet.account t.account_ ≠ Keylet.account t.tx.sfDestination :=
    fun hc => hne (Keylet.account.inj hc).symm
  have hsrcOld : view.peek (Keylet.account t.account_) = some sleSrc := by
    rcases hv1 with ⟨_, rfl⟩ | ⟨_, _, rfl⟩
    · rw [ApplyView.peek_insert_other _ _ _ hk] at hs
      exact hs
    · exact hs
  have hsrcNew : (Payment.doApply lf t view).2.peek (Keylet.account t.account_) =
      some { sleSrc with
        sfBalance := t.mSourceBalance - t.tx.sfAmount.value } := by
    rw [hview, ApplyView.peek_modify_other _ _ _ _ hk,
      ApplyView.peek_modify_other _ _ _ _ hk, ApplyView.peek_modify_same, hs]
    rfl
  have hbalDst : ((fun sle : SLE =>
        if sle.getFlags &&& lf.lsfPasswordSpent ≠ 0 then
          sle.clearFlag lf.lsfPasswordSpent
        else sle)
      { dst1 with sfBalance := dst1.sfBalance + t.tx.sfAmount.value }).sfBalance =
      dst1.sfBalance + t.tx.sfAmount.value := by
    dsimp only
    split_ifs <;> rfl
  have hprev : (match view.peek (Keylet.account t.tx.sfDestination) with
      | some dstOld => dstOld.sfBalance
      | none => 0) = dst1.sfBalance := by
    rcases hrel with ⟨hn, hd⟩ | hd
    · rw [hn, hd]
    · rw [hd]
  refine ⟨sleSrc, _, _, hsrcOld, hsrcNew, hdstNew hne, rfl, ?_, ?_, ?_, ?_⟩
  · rw [hbalDst, hprev]
  · rw [hbalDst, hprev]
    show t.mSourceBalance - t.tx.sfAmount.value +
      (dst1.sfBalance + t.tx.sfAmount.value) = t.mSourceBalance + dst1.sfBalance
    omega
  · intro hsame
    rw [hbalDst, hprev, hsame]
    show t.mSourceBalance - t.tx.sfAmount.value +
      (dst1.sfBalance + t.tx.sfAmount.value) = t.mSourceBalance + dst1.sfBalance
    omega
  · intro k hks hkd
    rw [hview, ApplyView.peek_modify_other _ _ _ _ hkd,
      ApplyView.peek_modify_other _ _ _ _ hkd,
      ApplyView.peek_modify_other _ _ _ _ hks]
    rcases hv1 with ⟨_, rfl⟩ | ⟨_, _, rfl⟩
    · exact ApplyView.peek_insert_other _ _ _ hkd
    · rfl

/-- Bit `i` of the 32-bit complement `~x`. -/
theorem not32_testBit (x i : Nat) :
    (not32 x).testBit i = (decide (i < 32) && !x.testBit i) := by
  unfold not32
  have hx : x % 2 ^ 32 < 2 ^ 32 := Nat.mod_lt _ (by norm_num)
  have he : 2 ^ 32 - 1 - x % 2 ^ 32 = 2 ^ 32 - (x % 2 ^ 32 + 1) := by omega
  rw [he, Nat.testBit_mod_two_pow, Nat.testBit_two_pow_sub_succ hx,
    Nat.testBit_mod_two_pow]
  by_cases h : i < 32 <;> simp [h]

/-- Re-arming the password fee leaves the flag `lsfPasswordSpent` clear and
every bit outside it as it was. -/
theorem SLE.rearm_flags (lf : LedgerFlags) (sle : SLE) :
    (if sle.getFlags &&& lf.lsfPasswordSpent ≠ 0 then
        sle.clearFlag lf.lsfPasswordSpent else sle).getFlags &&&
      lf.lsfPasswordSpent = 0 ∧
    ∀ i, lf.lsfPasswordSpent.testBit i = false →
      (if sle.getFlags &&& lf.lsfPasswordSpent ≠ 0 then
          sle.clearFlag lf.lsfPasswordSpent else sle).getFlags.testBit i =
        sle.getFlags.testBit i := by
  have hlt : sle.getFlags < 2 ^ 32 := Nat.mod_lt _ (by norm_num)
  have hclr : (sle.clearFlag lf.lsfPasswordSpent).getFlags =
      sle.getFlags &&& not32 lf.lsfPasswordSpent := by
    show (sle.getFlags &&& not32 lf.lsfPasswordSpent) % 2 ^ 32 = _
    exact Nat.mod_eq_of_lt (lt_of_le_of_lt Nat.and_le_left hlt)
  by_cases h : sle.getFlags &&& lf.lsfPasswordSpent ≠ 0
  · rw [if_pos h, hclr]
    constructor
    · apply Nat.eq_of_testBit_eq
      intro i
      rw [Nat.testBit_and, Nat.testBit_and, not32_testBit, Nat.zero_testBit]
      cases sle.getFlags.testBit i <;> cases lf.lsfPasswordSpent.testBit i <;>
        simp
    · intro i hi
      rw [Nat.testBit_and, not32_testBit, hi]
      by_cases h32 : i < 32
      · simp [h32]
      · have hge : 2 ^ 32 ≤ 2 ^ i :=
          Nat.pow_le_pow_right (by norm_num) (by omega)
        rw [Nat.testBit_lt_two_pow (lt_of_lt_of_le hlt hge)]
        simp
  · rw [if_neg h]
    exact ⟨not_not.mp h, fun _ _ => rfl⟩

/-- C30: after a successful `Payment::doApply` the destination's account root
has the flag `lsfPasswordSpent` clear, and every bit of its `Flags` outside
`lsfPasswordSpent` is as it was before the call (as in a root with `Flags` 0
when the call created the root). -/
theorem Payment_doApply_password_spent_cleared (lf : LedgerFlags)
    (t : TransactorState) (view : ApplyView)
    (hok : (Payment.doApply lf t view).1 = TER.tesSUCCESS) :
    ∃ dstNew : SLE,
      (Payment.doApply lf t view).2.peek (Keylet.account t.tx.sfDestination) =
        some dstNew ∧
      dstNew.getFlags &&& lf.lsfPasswordSpent = 0 ∧
      ∀ i, lf.lsfPasswordSpent.testBit i = false →
        dstNew.getFlags.testBit i =
          (match view.peek (Keylet.account t.tx.sfDestination) with
            | some dstOld => dstOld.getFlags
            | none => 0).testBit i := by
  obtain ⟨dst1, hrel, hother, hself⟩ :=
    Payment.payment_doApply_destination lf t view hok
  have hprev : (match view.peek (Keylet.account t.tx.sfDestination) with
      | some dstOld => dstOld.getFlags
      | none => 0) = dst1.getFlags := by
    rcases hrel with ⟨hn, hd⟩ | hd
    · rw [hn, hd]
      rfl
    · rw [hd]
  rw [hprev]
  by_cases hne : t.tx.sfDestination = t.account_
  · obtain ⟨h1, h2⟩ := SLE.rearm_flags lf
      { dst1 with
        sfBalance := t.mSourceBalance - t.tx.sfAmount.value + t.tx.sfAmount.value }
    exact ⟨_, hself hne, h1, h2⟩
  · obtain ⟨h1, h2⟩ := SLE.rearm_flags lf
      { dst1 with sfBalance := dst1.sfBalance + t.tx.sfAmount.value }
    exact ⟨_, hother hne, h1, h2⟩

/-! ## The order of the checks of `BallotCreate::preflight` -/

/-- With the feature disabled `BallotCreate::preflight` returns
`temDISABLED`. -/
theorem BallotCreate.preflight_gate_disabled (ext : Externals)
    (ctx : PreflightContext)
    (hen : ctx.rules.enabled Feature.featureBallotsV1 = false) :
    BallotCreate.preflight ext ctx = TER.temDISABLED := by
  unfold BallotCreate.preflight
  simp [hen]

/-- With the feature enabled and a flag outside `tfUniversal`,
`BallotCreate::preflight` returns `temINVALID_FLAG`. -/
theorem BallotCreate.preflight_gate_flags (ext : Externals)
    (ctx : PreflightContext)
    (hen : ctx.rules.enabled Feature.featureBallotsV1 = true)
    (hfl : ctx.tx.getFlags &&& tfUniversalMask ≠ 0) :
    BallotCreate.preflight ext ctx = TER.temINVALID_FLAG := by
  unfold BallotCreate.preflight
  generalize ctx.tx.getFlags &&& tfUniversalMask = m at hfl
  simp [hen, hfl]

/-- The check of `InitialVotes` comes before `preflight1`: with the feature
enabled and the flags valid, a transaction without a positive `InitialVotes`
gets `temMALFORMED`, whatever `preflight1` returns. -/
theorem BallotCreate.preflight_votes_first (ext : Externals)
    (ctx : PreflightContext)
    (hen : ctx.rules.enabled Feature.featureBallotsV1 = true)
    (hfl : ctx.tx.getFlags &&& tfUniversalMask = 0)
    (hv : ∀ v, ctx.tx.sfInitialVotes = some v → v < 1) :
    BallotCreate.preflight ext ctx = TER.temMALFORMED := by
  unfold BallotCreate.preflight
  generalize ctx.tx.getFlags &&& tfUniversalMask = m at hfl
  cases hiv : ctx.tx.sfInitialVotes with
  | none => simp [hen, hfl]
  | some v =>
    have hlt : v < 1 := hv v hiv
    simp [hen, hfl, hlt]

/-- C22: `BallotCreate::preflight` does not run `preflight1` before every
type-specific field check.  On the sample ballot creation with `InitialVotes`
0, with `featureBallotsV1` enabled and a `preflight1` that fails with a code
of its own, `BallotCreate::preflight` returns `temMALFORMED`, the verdict of
the check of `InitialVotes`, and not the code of `preflight1`; the same holds
with `BallotChoiceIDs` absent.  `Payment::preflight` returns the code of
`preflight1` on the same kind of input. -/
theorem BallotCreate_preflight_field_checks_precede_preflight1 :
    allEnabled.enabled Feature.featureBallotsV1 = true ∧
    isTesSuccess
      (failingExternals.preflight1 { tx := noVoteTx, rules := allEnabled }) =
        false ∧
    BallotCreate.preflight failingExternals
      { tx := noVoteTx, rules := allEnabled } = TER.temMALFORMED ∧
    BallotCreate.preflight failingExternals
        { tx := noVoteTx, rules := allEnabled } ≠
      failingExternals.preflight1 { tx := noVoteTx, rules := allEnabled } ∧
    BallotCreate.preflight failingExternals
      { tx := { sampleTx with sfBallotChoiceIDs := none }, rules := allEnabled } =
        TER.temMALFORMED ∧
    BallotCreate.preflight failingExternals
      { tx := sampleTx, rules := allEnabled } =
        failingExternals.preflight1 { tx := sampleTx, rules := allEnabled } ∧
    Payment.preflight failingExternals sampleAmountExternals
      { tx := noVoteTx, rules := allEnabled } =
        failingExternals.preflight1 { tx := noVoteTx, rules := allEnabled } := by
  refine ⟨?_, ?_, ?_, ?_, ?_, ?_, ?_⟩ <;> decide

/-! ## The flags of the stored ballot -/

/-- The ballot entry that a successful `BallotCreate::doApply` leaves under
`keylet::ballot(account, sequence)`. -/
theorem BallotCreate.doApply_stored_ballot (t : TransactorState)
    (view : ApplyView)
    (hok : (BallotCreate.doApply t view).1 = TER.tesSUCCESS) :
    ∃ ownerNode,
      (BallotCreate.doApply t view).2.peek
        (Keylet.ballot t.account_ t.tx.seqProxy) =
        some
          { key := Keylet.ballot t.account_ t.tx.seqProxy
            sfFlags := t.tx.getFlags &&& not32 tfUniversal
            sfOwnerNode := some ownerNode
            sfInitialVotes := t.tx.sfInitialVotes
            sfBallotChoiceIDs := t.tx.sfBallotChoiceIDs } := by
  rcases BallotCreate.doApply_cases t view with h | ⟨a, _, _, h⟩ |
    ⟨a, _, _, _, h⟩ | ⟨a, n, ha, _, hdir, h⟩
  · rw [h.2] at hok
    exact TER.noConfusion hok
  · rw [h] at hok
    exact TER.noConfusion hok
  · rw [h] at hok
    exact TER.noConfusion hok
  · have hframe := (ApplyView.dirInsert_frame view
      (Keylet.ownerDir t.account_) (Keylet.ballot t.account_ t.tx.seqProxy)).1
    have hv2 : ((view.dirInsert (Keylet.ownerDir t.account_)
        (Keylet.ballot t.account_ t.tx.seqProxy)).2.insert
        { key := Keylet.ballot t.account_ t.tx.seqProxy
          sfFlags := t.tx.getFlags &&& not32 tfUniversal
          sfOwnerNode := some n
          sfInitialVotes := t.tx.sfInitialVotes
          sfBallotChoiceIDs := t.tx.sfBallotChoiceIDs }).entries
        (Keylet.account t.account_) = some a := by
      simp only [ApplyView.insert]
      rw [if_neg (by intro hc; exact Keylet.noConfusion hc), hframe]
      exact ha
    obtain ⟨_, hother, _, _⟩ :=
      adjustOwnerCount_spec _ (Keylet.account t.account_) a 1 hv2
    refine ⟨n, ?_⟩
    rw [h]
    show (adjustOwnerCount _ _ 1).entries _ = _
    rw [hother _ (by intro hc; exact Keylet.noConfusion hc)]
    simp [ApplyView.insert]

/-- C23: the `Flags` field of the ballot that a successful
`BallotCreate::doApply` stores is `tx.getFlags() & ~tfUniversal`, for every
value of the transaction's flags: bit 31, the universal flag, is clear, and
every other bit is the bit of the transaction's flags. -/
theorem BallotCreate_doApply_ballot_flags (t : TransactorState)
    (view : ApplyView)
    (hok : (BallotCreate.doApply t view).1 = TER.tesSUCCESS) :
    ∃ ballot : SLE,
      (BallotCreate.doApply t view).2.peek
        (Keylet.ballot t.account_ t.tx.seqProxy) = some ballot ∧
      ballot.sfFlags = t.tx.getFlags &&& not32 tfUniversal ∧
      ballot.sfFlags.testBit 31 = false ∧
      ∀ i, i ≠ 31 → ballot.sfFlags.testBit i = t.tx.getFlags.testBit i := by
  obtain ⟨n, hpeek⟩ := BallotCreate.doApply_stored_ballot t view hok
  refine ⟨_, hpeek, rfl, ?_, ?_⟩
  · show (t.tx.getFlags &&& not32 tfUniversal).testBit 31 = false
    rw [Nat.testBit_and, not32_testBit]
    have h31 : tfUniversal.testBit 31 = true := by decide
    rw [h31]
    simp
  · intro i hi
    show (t.tx.getFlags &&& not32 tfUniversal).testBit i = _
    rw [Nat.testBit_and, not32_testBit]
    by_cases h32 : i < 32
    · have hbit : tfUniversal.testBit i = false := by
        have hall : ∀ j, j < 32 → j ≠ 31 → tfUniversal.testBit j = false := by
          decide
        exact hall i h32 hi
      rw [hbit]
      simp [h32]
    · have hge : 2 ^ 32 ≤ 2 ^ i :=
        Nat.pow_le_pow_right (by norm_num) (by omega)
      rw [Nat.testBit_lt_two_pow (lt_of_lt_of_le (getFlags_lt t.tx) hge)]
      simp

/-! ## The bit ranges of the transaction flags -/

/-- C24: the universal transaction flags lie in the high-order 8 bits and
every transaction-specific flag of `TxFlags.h` (the `tf` flags of AccountSet,
OfferCreate, Payment, TrustSet, EnableAmendment and PaymentChannelClaim) lies
in the low 24 bits: `tfUniversal & 0x00FFFFFF == 0`, and `f & 0xFF000000 == 0`
for each of those flags. -/
theorem TxFlags_bit_ranges :
    tfUniversal &&& 0x00FFFFFF = 0 ∧
    universalFlags.all (fun f => decide (f &&& 0x00FFFFFF = 0)) = true ∧
    txSpecificFlags.all (fun f => decide (f &&& 0xFF000000 = 0)) = true ∧
    txSpecificFlags.length = 21 := by
  refine ⟨?_, ?_, ?_, ?_⟩ <;> decide

/-! ## The result of `doLedgerEntry` -/

/-- When the selector chain of `doLedgerEntry` leaves a non-zero key or an
error, the result holds an error member, or the entry (`node` or
`node_binary`) with `index`. -/
theorem doLedgerEntry.entry_or_error (ext : RpcExternals) (params : Json)
    (lpLedger : ReadView) (jvResult : Json)
    (hl : ext.lookupLedger params = (some lpLedger, jvResult))
    (h : (doLedgerEntry.resolve ext params).uNodeIndex ≠ 0 ∨
      (doLedgerEntry.resolve ext params).error.isSome = true) :
    (doLedgerEntry ext params).error.isSome = true ∨
    (((doLedgerEntry ext params).node.isSome = true ∨
        (doLedgerEntry ext params).node_binary.isSome = true) ∧
      (doLedgerEntry ext params).index.isSome = true) := by
  unfold doLedgerEntry
  rw [hl]
  dsimp only
  generalize doLedgerEntry.resolve ext params = r at h
  by_cases hz : r.uNodeIndex ≠ 0
  · rw [if_pos hz]
    cases lpLedger.read r.uNodeIndex with
    | none => left; rfl
    | some sleNode =>
      dsimp only
      by_cases ht : r.expectedType ≠ LedgerEntryType.ltANY ∧
          r.expectedType ≠ sleNode.getType
      · rw [if_pos ht]
        left; rfl
      · rw [if_neg ht]
        generalize (if params.isMember "binary" then
          ext.asBool (params.get "binary") else false) = b
        cases b
        · right
          exact ⟨Or.inl rfl, rfl⟩
        · right
          exact ⟨Or.inr rfl, rfl⟩
  · rw [if_neg hz]
    rcases h with h | h
    · exact absurd h hz
    · left
      exact h

/-- C25: a request against a ledger that resolves can get a result with
neither the entry nor an error member.  The request `{"index": "00…00"}` (64
zeros) names the zero key: `parseHex` succeeds, `uNodeIndex.isNonZero()` is
false, the lookup is skipped, and the result has no `error`, `node`,
`node_binary` or `index` member.  The same request with the key 1 gets `node`
and `index`, and one with a string that is not hexadecimal gets the error
`malformedRequest`. -/
theorem doLedgerEntry_zero_key_gives_neither :
    (sampleRpc.lookupLedger (Json.obj [("index", Json.str zeroKeyHex)])).1.isSome =
      true ∧
    (doLedgerEntry.resolve sampleRpc
      (Json.obj [("index", Json.str zeroKeyHex)])).uNodeIndex = 0 ∧
    (doLedgerEntry.resolve sampleRpc
      (Json.obj [("index", Json.str zeroKeyHex)])).error = none ∧
    (doLedgerEntry sampleRpc (Json.obj [("index", Json.str zeroKeyHex)])).error =
      none ∧
    (doLedgerEntry sampleRpc
      (Json.obj [("index", Json.str zeroKeyHex)])).node.isNone = true ∧
    (doLedgerEntry sampleRpc
      (Json.obj [("index", Json.str zeroKeyHex)])).node_binary = none ∧
    (doLedgerEntry sampleRpc (Json.obj [("index", Json.str zeroKeyHex)])).index =
      none ∧
    (doLedgerEntry sampleRpc
      (Json.obj [("index", Json.str oneKeyHex)])).node.isSome = true ∧
    (doLedgerEntry sampleRpc (Json.obj [("index", Json.str oneKeyHex)])).index =
      some oneKeyHex ∧
    (doLedgerEntry sampleRpc (Json.obj [("index", Json.str "xyz")])).error =
      some "malformedRequest" := by
  refine ⟨?_, ?_, ?_, ?_, ?_, ?_, ?_, ?_, ?_, ?_⟩ <;> decide

/-! ## The decision of `BallotCreate::preflight` -/

/-- The acceptance conditions in the specification's words hold exactly when
the feature gate, the flag check, `preflight1` and the five field checks of
`BallotCreate::preflight` let the transaction through. -/
theorem BallotCreate.specAccepts_iff (ext : Externals) (ctx : PreflightContext) :
    BallotCreate.specAccepts ext ctx = true ↔
      ctx.rules.enabled Feature.featureBallotsV1 = true ∧
      ctx.tx.getFlags &&& tfUniversalMask = 0 ∧
      ext.preflight1 ctx = TER.tesSUCCESS ∧
      (∃ v, ctx.tx.sfInitialVotes = some v ∧ 1 ≤ v) ∧
      (∃ ids, ctx.tx.sfBallotChoiceIDs = some ids ∧ ids ≠ [] ∧
        ids.length ≤ ext.maxBallotChoiceIDsLength) ∧
      (∀ uri, ctx.tx.sfBallotDocumentURI = some uri →
        ctx.tx.sfBallotDocumentHash.isSome = true ∧ uri ≠ [] ∧
          uri.length ≤ ext.maxBallotDocumentUriLength) ∧
      (∀ o c, ctx.tx.sfOpenTime = some o → ctx.tx.sfCloseTime = some c →
        o ≤ c) ∧
      (ctx.tx.sfMembershipNFTTaxon.isSome = true →
        ctx.tx.sfMembershipNFTIssuer.isSome = true) := by
  unfold BallotCreate.specAccepts
  have hmask : not32 tfUniversal = tfUniversalMask := by
    unfold tfUniversalMask
    rfl
  rw [hmask]
  generalize ctx.tx.getFlags &&& tfUniversalMask = m
  have hlen : ∀ l : List Nat, 1 ≤ l.length ↔ l ≠ [] := by
    intro l
    cases l <;> simp
  have hv : (match ctx.tx.sfInitialVotes with
      | some v => decide (1 ≤ v)
      | none => false) = true ↔
      ∃ v, ctx.tx.sfInitialVotes = some v ∧ 1 ≤ v := by
    cases ctx.tx.sfInitialVotes <;> simp
  have hc : (match ctx.tx.sfBallotChoiceIDs with
      | some ids =>
        decide (1 ≤ ids.length ∧ ids.length ≤ ext.maxBallotChoiceIDsLength)
      | none => false) = true ↔
      ∃ ids, ctx.tx.sfBallotChoiceIDs = some ids ∧ ids ≠ [] ∧
        ids.length ≤ ext.maxBallotChoiceIDsLength := by
    cases hids : ctx.tx.sfBallotChoiceIDs with
    | none => simp
    | some ids =>
      have := hlen ids
      simp [this]
  have hd : (match ctx.tx.sfBallotDocumentURI with
      | none => true
      | some uri =>
        ctx.tx.sfBallotDocumentHash.isSome &&
          decide (1 ≤ uri.length ∧ uri.length ≤ ext.maxBallotDocumentUriLength)) =
        true ↔
      ∀ uri, ctx.tx.sfBallotDocumentURI = some uri →
        ctx.tx.sfBallotDocumentHash.isSome = true ∧ uri ≠ [] ∧
          uri.length ≤ ext.maxBallotDocumentUriLength := by
    cases huri : ctx.tx.sfBallotDocumentURI with
    | none => simp
    | some uri =>
      have := hlen uri
      simp [this]
  have ht : (match ctx.tx.sfOpenTime, ctx.tx.sfCloseTime with
      | some o, some c => decide (¬ o > c)
      | _, _ => true) = true ↔
      ∀ o c, ctx.tx.sfOpenTime = some o → ctx.tx.sfCloseTime = some c →
        o ≤ c := by
    cases ctx.tx.sfOpenTime <;> cases ctx.tx.sfCloseTime <;> simp
  have hn : (ctx.tx.sfMembershipNFTTaxon.isNone ||
      ctx.tx.sfMembershipNFTIssuer.isSome) = true ↔
      (ctx.tx.sfMembershipNFTTaxon.isSome = true →
        ctx.tx.sfMembershipNFTIssuer.isSome = true) := by
    cases ctx.tx.sfMembershipNFTTaxon <;> simp
  have h1 : isTesSuccess (ext.preflight1 ctx) = true ↔
      ext.preflight1 ctx = TER.tesSUCCESS := by
    simp [isTesSuccess]
  simp only [Bool.and_eq_true, decide_eq_true_eq]
  rw [hv, hc, hd, ht, hn, h1]
  constructor
  · rintro ⟨⟨⟨⟨⟨⟨⟨a, b⟩, c⟩, d⟩, e⟩, f⟩, g⟩, h⟩
    exact ⟨a, b, e, c, d, f, g, h⟩
  · rintro ⟨a, b, e, c, d, f, g, h⟩
    exact ⟨⟨⟨⟨⟨⟨⟨a, b⟩, c⟩, d⟩, e⟩, f⟩, g⟩, h⟩

/-- C26: `BallotCreate::preflight` returns the result of `preflight2` when all
the listed conditions hold (`BallotCreate.specAccepts`), and a rejection of
the malformed class otherwise: `temDISABLED`, `temINVALID_FLAG`,
`temMALFORMED`, or the code with which `preflight1` failed, `preflight1`
failing with codes of the malformed class only.  So, whenever the result of
`preflight2` is not itself a code of the malformed class (as when it
succeeds), the result is that of `preflight2` if and only if the conditions
hold. -/
theorem BallotCreate_preflight_decision (ext : Externals)
    (ctx : PreflightContext)
    (hp1 : isTesSuccess (ext.preflight1 ctx) = false →
      (ext.preflight1 ctx).codeClass = some TERClass.tem) :
    (BallotCreate.specAccepts ext ctx = true →
      BallotCreate.preflight ext ctx = ext.preflight2 ctx) ∧
    (BallotCreate.specAccepts ext ctx = false →
      isTesSuccess (BallotCreate.preflight ext ctx) = false ∧
      (BallotCreate.preflight ext ctx).codeClass = some TERClass.tem) ∧
    ((ext.preflight2 ctx).codeClass ≠ some TERClass.tem →
      (BallotCreate.preflight ext ctx = ext.preflight2 ctx ↔
        BallotCreate.specAccepts ext ctx = true)) := by
  have hacc : BallotCreate.specAccepts ext ctx = true →
      BallotCreate.preflight ext ctx = ext.preflight2 ctx := by
    intro h
    obtain ⟨hen, hfl, h1, hv, hc, hd, ht, hn⟩ :=
      (BallotCreate.specAccepts_iff ext ctx).mp h
    exact BallotCreate.preflight_accepts ext ctx hen hfl hv hc h1 hd ht hn
  have hrej : BallotCreate.specAccepts ext ctx = false →
      isTesSuccess (BallotCreate.preflight ext ctx) = false ∧
      (BallotCreate.preflight ext ctx).codeClass = some TERClass.tem := by
    intro h
    cases hen : ctx.rules.enabled Feature.featureBallotsV1
    · rw [BallotCreate.preflight_gate_disabled ext ctx hen]
      exact ⟨rfl, rfl⟩
    by_cases hfl : ctx.tx.getFlags &&& tfUniversalMask = 0
    swap
    · rw [BallotCreate.preflight_gate_flags ext ctx hen hfl]
      exact ⟨rfl, rfl⟩
    rcases BallotCreate.preflight_sources ext ctx with ⟨_, hd⟩ | ⟨_, hf⟩ | hr |
      ⟨hr, h1⟩ | ⟨_, h1, hv, hc, hd, ht, hn⟩
    · rw [hen] at hd
      exact Bool.noConfusion hd
    · exact absurd hfl hf
    · rw [hr]
      exact ⟨rfl, rfl⟩
    · rw [hr]
      exact ⟨h1, hp1 h1⟩
    · have h1s : ext.preflight1 ctx = TER.tesSUCCESS := by
        simpa [isTesSuccess] using h1
      have hyes := (BallotCreate.specAccepts_iff ext ctx).mpr
        ⟨hen, hfl, h1s, hv, hc, hd, ht, hn⟩
      rw [hyes] at h
      exact Bool.noConfusion h
  refine ⟨hacc, hrej, fun hcls => ⟨fun heq => ?_, hacc⟩⟩
  cases hs : BallotCreate.specAccepts ext ctx
  · have hc := (hrej hs).2
    rw [heq] at hc
    exact absurd hc hcls
  · rfl

/-! ## The table of `Payment::preclaim` -/

/-- C27: `Payment::preclaim` returns one of four codes, by this table:
`telNO_DST_PARTIAL` iff the destination has no account root, the view is open
and `tfPartialPayment` is set; `tecNO_DST_INSUF_XRP` iff the destination has no
account root, that first case does not apply and `Amount <
accountReserve(0)`; `tecDST_TAG_NEEDED` iff the destination has an account root
with `lsfRequireDestTag` and the transaction has no `DestinationTag`;
`tesSUCCESS` iff none of the three cases applies. -/
theorem Payment_preclaim_table (lf : LedgerFlags)
    (ctx : PreclaimContext ApplyView) :
    (Payment.preclaim lf ctx = TER.telNO_DST_PARTIAL ∨
      Payment.preclaim lf ctx = TER.tecNO_DST_INSUF_XRP ∨
      Payment.preclaim lf ctx = TER.tecDST_TAG_NEEDED ∨
      Payment.preclaim lf ctx = TER.tesSUCCESS) ∧
    (Payment.preclaim lf ctx = TER.telNO_DST_PARTIAL ↔
      ctx.view.read (Keylet.account ctx.tx.sfDestination) = none ∧
      ctx.view.open_ = true ∧ ctx.tx.getFlags &&& tfPartialPayment ≠ 0) ∧
    (Payment.preclaim lf ctx = TER.tecNO_DST_INSUF_XRP ↔
      ctx.view.read (Keylet.account ctx.tx.sfDestination) = none ∧
      ¬ (ctx.view.open_ = true ∧ ctx.tx.getFlags &&& tfPartialPayment ≠ 0) ∧
      ctx.tx.sfAmount.value < ctx.view.fees.accountReserve 0) ∧
    (Payment.preclaim lf ctx = TER.tecDST_TAG_NEEDED ↔
      ∃ sleDst,
        ctx.view.read (Keylet.account ctx.tx.sfDestination) = some sleDst ∧
        sleDst.getFlags &&& lf.lsfRequireDestTag ≠ 0 ∧
        ctx.tx.sfDestinationTag = none) ∧
    (Payment.preclaim lf ctx = TER.tesSUCCESS ↔
      ¬ (ctx.view.read (Keylet.account ctx.tx.sfDestination) = none ∧
        ctx.view.open_ = true ∧ ctx.tx.getFlags &&& tfPartialPayment ≠ 0) ∧
      ¬ (ctx.view.read (Keylet.account ctx.tx.sfDestination) = none ∧
        ¬ (ctx.view.open_ = true ∧ ctx.tx.getFlags &&& tfPartialPayment ≠ 0) ∧
        ctx.tx.sfAmount.value < ctx.view.fees.accountReserve 0) ∧
      ¬ (∃ sleDst,
        ctx.view.read (Keylet.account ctx.tx.sfDestination) = some sleDst ∧
        sleDst.getFlags &&& lf.lsfRequireDestTag ≠ 0 ∧
        ctx.tx.sfDestinationTag = none)) := by
  unfold Payment.preclaim
  dsimp only
  generalize ctx.tx.getFlags &&& tfPartialPayment = pf
  cases hr : ctx.view.read (Keylet.account ctx.tx.sfDestination) with
  | none =>
    dsimp only
    cases ho : ctx.view.open_
    · by_cases hlt : ctx.tx.sfAmount.value < ctx.view.fees.accountReserve 0
      · simp [hlt]
      · simp [hlt]
    · by_cases hp : pf = 0
      · by_cases hlt : ctx.tx.sfAmount.value < ctx.view.fees.accountReserve 0
        · simp [hp, hlt]
        · simp [hp, hlt]
      · simp [hp]
  | some sleDst =>
    dsimp only
    by_cases hf : sleDst.getFlags &&& lf.lsfRequireDestTag = 0
    · simp [hf]
    · cases ht : ctx.tx.sfDestinationTag
      · simp [hf]
      · simp [hf]

/-! ## The claims at sample inputs -/

/-- The sample payment of 100 drops from account 5 (1000 drops before the fee
of 10) to the new account 6: the source is left with 890 drops. -/
theorem Payment_doApply_source_balance_bounds_witness :
    (Payment.doApply sampleLedgerFlags samplePaymentState sampleView).1 =
      TER.tesSUCCESS ∧
    0 ≤ samplePaymentState.tx.sfFee.xrp ∧
    samplePaymentState.mSourceBalance =
      samplePaymentState.mPriorBalance - samplePaymentState.tx.sfFee.xrp ∧
    (samplePaymentState.mSourceBalance - samplePaymentState.tx.sfAmount.xrp = 890 ∧
      0 ≤ samplePaymentState.mSourceBalance - samplePaymentState.tx.sfAmount.xrp ∧
      (∀ sleSrc, sampleView.peek (Keylet.account samplePaymentState.account_) = some sleSrc →
        sampleView.fees.accountReserve sleSrc.sfOwnerCount - samplePaymentState.tx.sfFee.xrp ≤
          samplePaymentState.mSourceBalance - samplePaymentState.tx.sfAmount.xrp) ∧
      (samplePaymentState.tx.sfDestination ≠ samplePaymentState.account_ →
        ∃ srcNew,
          (Payment.doApply sampleLedgerFlags samplePaymentState sampleView).2.peek (Keylet.account samplePaymentState.account_) =
            some srcNew ∧
          srcNew.sfBalance = samplePaymentState.mSourceBalance - samplePaymentState.tx.sfAmount.xrp)) :=
  ⟨by decide, by decide, by decide, by decide,
    Payment_doApply_source_balance_bounds sampleLedgerFlags samplePaymentState
      sampleView (by decide) (by decide) (by decide)⟩

/-- The sample ballot creation with the flags `0x80000005`: the stored ballot
has the flags 5. -/
theorem BallotCreate_doApply_ballot_flags_witness :
    (BallotCreate.doApply flaggedState sampleView).1 = TER.tesSUCCESS ∧
    ((BallotCreate.doApply flaggedState sampleView).2.peek
      (Keylet.ballot 5 3)).map (fun sle => sle.sfFlags) = some 5 ∧
    (∃ ballot : SLE,
        (BallotCreate.doApply flaggedState sampleView).2.peek
          (Keylet.ballot flaggedState.account_ flaggedState.tx.seqProxy) = some ballot ∧
        ballot.sfFlags = flaggedState.tx.getFlags &&& not32 tfUniversal ∧
        ballot.sfFlags.testBit 31 = false ∧
        ∀ i, i ≠ 31 → ballot.sfFlags.testBit i = flaggedState.tx.getFlags.testBit i) :=
  ⟨by decide, by decide,
    BallotCreate_doApply_ballot_flags flaggedState sampleView (by decide)⟩

/-- The payment of 100 drops from account 5 (990 drops after the fee) to
account 9 (70 drops): the balances become 890 and 170 drops. -/
theorem Payment_doApply_transfer_witness :
    (Payment.doApply sampleLedgerFlags spentPaymentState spentView).1 =
      TER.tesSUCCESS ∧
    spentPaymentState.tx.sfDestination ≠ spentPaymentState.account_ ∧
    ((Payment.doApply sampleLedgerFlags spentPaymentState spentView).2.peek
      (Keylet.account 5)).map (fun sle => sle.sfBalance) = some 890 ∧
    ((Payment.doApply sampleLedgerFlags spentPaymentState spentView).2.peek
      (Keylet.account 9)).map (fun sle => sle.sfBalance) = some 170 ∧
    (∃ srcOld srcNew dstNew : SLE,
        spentView.peek (Keylet.account spentPaymentState.account_) = some srcOld ∧
        (Payment.doApply sampleLedgerFlags spentPaymentState spentView).2.peek (Keylet.account spentPaymentState.account_) =
          some srcNew ∧
        (Payment.doApply sampleLedgerFlags spentPaymentState spentView).2.peek (Keylet.account spentPaymentState.tx.sfDestination) =
          some dstNew ∧
        srcNew.sfBalance = spentPaymentState.mSourceBalance - spentPaymentState.tx.sfAmount.value ∧
        dstNew.sfBalance =
          (match spentView.peek (Keylet.account spentPaymentState.tx.sfDestination) with
            | some dstOld => dstOld.sfBalance
            | none => 0) + spentPaymentState.tx.sfAmount.value ∧
        srcNew.sfBalance + dstNew.sfBalance =
          spentPaymentState.mSourceBalance +
            (match spentView.peek (Keylet.account spentPaymentState.tx.sfDestination) with
              | some dstOld => dstOld.sfBalance
              | none => 0) ∧
        (srcOld.sfBalance = spentPaymentState.mSourceBalance →
          srcNew.sfBalance + dstNew.sfBalance =
            srcOld.sfBalance +
              (match spentView.peek (Keylet.account spentPaymentState.tx.sfDestination) with
                | some dstOld => dstOld.sfBalance
                | none => 0)) ∧
        (∀ k, k ≠ Keylet.account spentPaymentState.account_ →
          k ≠ Keylet.account spentPaymentState.tx.sfDestination →
          (Payment.doApply sampleLedgerFlags spentPaymentState spentView).2.peek k = spentView.peek k)) :=
  ⟨by decide, by decide, by decide, by decide,
    Payment_doApply_transfer sampleLedgerFlags spentPaymentState spentView
      (by decide) (by decide)⟩

/-- The payment to account 9, whose flags are `0x00030000`: the payment
leaves the flags `0x00020000`. -/
theorem Payment_doApply_password_spent_cleared_witness :
    (Payment.doApply sampleLedgerFlags spentPaymentState spentView).1 =
      TER.tesSUCCESS ∧
    (spentView.peek (Keylet.account 9)).map (fun sle => sle.getFlags) =
      some 0x00030000 ∧
    ((Payment.doApply sampleLedgerFlags spentPaymentState spentView).2.peek
      (Keylet.account 9)).map (fun sle => sle.getFlags) = some 0x00020000 ∧
    (∃ dstNew : SLE,
        (Payment.doApply sampleLedgerFlags spentPaymentState spentView).2.peek (Keylet.account spentPaymentState.tx.sfDestination) =
          some dstNew ∧
        dstNew.getFlags &&& sampleLedgerFlags.lsfPasswordSpent = 0 ∧
        ∀ i, sampleLedgerFlags.lsfPasswordSpent.testBit i = false →
          dstNew.getFlags.testBit i =
            (match spentView.peek (Keylet.account spentPaymentState.tx.sfDestination) with
              | some dstOld => dstOld.getFlags
              | none => 0).testBit i) :=
  ⟨by decide, by decide, by decide,
    Payment_doApply_password_spent_cleared sampleLedgerFlags spentPaymentState
      spentView (by decide)⟩

/-- The sample ballot creation is accepted; with no initial vote it gets
`temMALFORMED`; under a `preflight1` that fails with `temINVALID_FLAG` it gets
that code. -/
theorem BallotCreate_preflight_decision_witness :
    BallotCreate.specAccepts sampleExternals
      { tx := sampleTx, rules := allEnabled } = true ∧
    BallotCreate.preflight sampleExternals
      { tx := sampleTx, rules := allEnabled } = TER.tesSUCCESS ∧
    BallotCreate.specAccepts sampleExternals
      { tx := noVoteTx, rules := allEnabled } = false ∧
    BallotCreate.preflight sampleExternals
      { tx := noVoteTx, rules := allEnabled } = TER.temMALFORMED ∧
    BallotCreate.specAccepts rejectingExternals
      { tx := sampleTx, rules := allEnabled } = false ∧
    (isTesSuccess
        (rejectingExternals.preflight1 { tx := sampleTx, rules := allEnabled }) =
          false ∧
      (rejectingExternals.preflight1
        { tx := sampleTx, rules := allEnabled }).codeClass = some TERClass.tem) ∧
    BallotCreate.preflight rejectingExternals
      { tx := sampleTx, rules := allEnabled } = TER.temINVALID_FLAG ∧
    ((BallotCreate.specAccepts sampleExternals { tx := sampleTx, rules := allEnabled } = true →
        BallotCreate.preflight sampleExternals { tx := sampleTx, rules := allEnabled } = sampleExternals.preflight2 { tx := sampleTx, rules := allEnabled }) ∧
      (BallotCreate.specAccepts sampleExternals { tx := sampleTx, rules := allEnabled } = false →
        isTesSuccess (BallotCreate.preflight sampleExternals { tx := sampleTx, rules := allEnabled }) = false ∧
        (BallotCreate.preflight sampleExternals { tx := sampleTx, rules := allEnabled }).codeClass = some TERClass.tem) ∧
      ((sampleExternals.preflight2 { tx := sampleTx, rules := allEnabled }).codeClass ≠ some TERClass.tem →
        (BallotCreate.preflight sampleExternals { tx := sampleTx, rules := allEnabled } = sampleExternals.preflight2 { tx := sampleTx, rules := allEnabled } ↔
          BallotCreate.specAccepts sampleExternals { tx := sampleTx, rules := allEnabled } = true))) ∧
    ((BallotCreate.specAccepts rejectingExternals { tx := sampleTx, rules := allEnabled } = true →
        BallotCreate.preflight rejectingExternals { tx := sampleTx, rules := allEnabled } = rejectingExternals.preflight2 { tx := sampleTx, rules := allEnabled }) ∧
      (BallotCreate.specAccepts rejectingExternals { tx := sampleTx, rules := allEnabled } = false →
        isTesSuccess (BallotCreate.preflight rejectingExternals { tx := sampleTx, rules := allEnabled }) = false ∧
        (BallotCreate.preflight rejectingExternals { tx := sampleTx, rules := allEnabled }).codeClass = some TERClass.tem) ∧
      ((rejectingExternals.preflight2 { tx := sampleTx, rules := allEnabled }).codeClass ≠ some TERClass.tem →
        (BallotCreate.preflight rejectingExternals { tx := sampleTx, rules := allEnabled } = rejectingExternals.preflight2 { tx := sampleTx, rules := allEnabled } ↔
          BallotCreate.specAccepts rejectingExternals { tx := sampleTx, rules := allEnabled } = true))) :=
  ⟨by decide, by decide, by decide, by decide, by decide,
    ⟨by decide, by decide⟩, by decide,
    BallotCreate_preflight_decision sampleExternals
      { tx := sampleTx, rules := allEnabled } (fun h => by revert h; decide),
    BallotCreate_preflight_decision rejectingExternals
      { tx := sampleTx, rules := allEnabled } (fun _ => by decide)⟩

/-! ## The checks of `Payment::preflight` -/

/-- The checks of `Payment::preflight` in source order: the result and the
check that gave it. -/
theorem Payment.payment_preflight_cases (ext : Externals)
    (amt : AmountExternals) (ctx : PreflightContext) :
    (isTesSuccess (ext.preflight1 ctx) = false ∧
      Payment.preflight ext amt ctx = ext.preflight1 ctx) ∨
    (isTesSuccess (ext.preflight1 ctx) = true ∧
      ((Payment.preflight ext amt ctx = TER.temINVALID_FLAG ∧
          ctx.tx.getFlags &&& tfPaymentMask ≠ 0) ∨
        (Payment.preflight ext amt ctx = TER.temBAD_AMOUNT ∧
          ctx.tx.getFlags &&& tfPaymentMask = 0 ∧
          (amt.isLegalNet ctx.tx.sfAmount = false ∨
            (∃ s, ctx.tx.sfSendMax = some s ∧
              (amt.isLegalNet s = false ∨ s.value ≤ 0)) ∨
            ctx.tx.sfAmount.value ≤ 0)) ∨
        (Payment.preflight ext amt ctx = TER.temDST_NEEDED ∧
          ctx.tx.sfDestination = 0) ∨
        (Payment.preflight ext amt ctx = TER.temBAD_CURRENCY ∧
          (amt.badCurrency = ctx.tx.sfAmount.getCurrency ∨
            ∃ s, ctx.tx.sfSendMax = some s ∧
              amt.badCurrency = s.getCurrency)) ∨
        (Payment.preflight ext amt ctx = TER.temREDUNDANT ∧
          ctx.tx.sfAccount = ctx.tx.sfDestination ∧
          ∀ s, ctx.tx.sfSendMax = some s →
            s.getCurrency = ctx.tx.sfAmount.getCurrency) ∨
        (Payment.preflight ext amt ctx = TER.temBAD_SEND_XRP_MAX ∧
          ctx.tx.sfSendMax.isSome = true) ∨
        (ctx.tx.sfSendMax = none ∧
          ctx.tx.getFlags &&& tfPaymentMask = 0 ∧
          amt.isLegalNet ctx.tx.sfAmount = true ∧
          ctx.tx.sfDestination ≠ 0 ∧
          0 < ctx.tx.sfAmount.value ∧
          amt.badCurrency ≠ ctx.tx.sfAmount.getCurrency ∧
          ctx.tx.sfAccount ≠ ctx.tx.sfDestination ∧
          ((Payment.preflight ext amt ctx = TER.temBAD_SEND_XRP_PARTIAL ∧
              ctx.tx.getFlags &&& tfPartialPayment ≠ 0) ∨
            (Payment.preflight ext amt ctx = TER.temBAD_SEND_XRP_LIMIT ∧
              ctx.tx.getFlags &&& tfPartialPayment = 0 ∧
              ctx.tx.getFlags &&& tfLimitQuality ≠ 0) ∨
            (Payment.preflight ext amt ctx = TER.temBAD_SEND_XRP_NO_DIRECT ∧
              ctx.tx.getFlags &&& tfPartialPayment = 0 ∧
              ctx.tx.getFlags &&& tfLimitQuality = 0 ∧
              ctx.tx.getFlags &&& tfNoRippleDirect ≠ 0) ∨
            (Payment.preflight ext amt ctx = TER.temBAD_AMOUNT ∧
              ctx.tx.getFlags &&& tfPartialPayment = 0 ∧
              ctx.tx.getFlags &&& tfLimitQuality = 0 ∧
              ctx.tx.getFlags &&& tfNoRippleDirect = 0 ∧
              ctx.tx.sfDeliverMin.isSome = true) ∨
            (Payment.preflight ext amt ctx = ext.preflight2 ctx ∧
              ctx.tx.getFlags &&& tfPartialPayment = 0 ∧
              ctx.tx.getFlags &&& tfLimitQuality = 0 ∧
              ctx.tx.getFlags &&& tfNoRippleDirect = 0 ∧
              ctx.tx.sfDeliverMin = none))))) := by
  unfold Payment.preflight
  dsimp only
  generalize ctx.tx.getFlags &&& tfPaymentMask = m
  generalize ctx.tx.getFlags &&& tfPartialPayment = pp
  generalize ctx.tx.getFlags &&& tfLimitQuality = lq
  generalize ctx.tx.getFlags &&& tfNoRippleDirect = nd
  cases h1 : isTesSuccess (ext.preflight1 ctx)
  · left
    rw [if_pos (show (!false) = true from rfl)]
    exact ⟨rfl, rfl⟩
  right
  refine ⟨rfl, ?_⟩
  rw [if_neg (show ¬ (!true) = true by decide)]
  by_cases hm : m ≠ 0
  · left
    rw [if_pos hm]
    exact ⟨rfl, hm⟩
  rw [if_neg hm]
  have hm0 : m = 0 := not_not.mp hm
  right
  cases hmax : ctx.tx.sfSendMax with
  | some s =>
    dsimp only
    by_cases h2 : (!amt.isLegalNet ctx.tx.sfAmount || !amt.isLegalNet s) = true
    · left
      rw [if_pos h2]
      refine ⟨rfl, hm0, ?_⟩
      cases hA : amt.isLegalNet ctx.tx.sfAmount
      · left; rfl
      · right; left
        refine ⟨s, rfl, Or.inl ?_⟩
        rw [hA] at h2
        simpa using h2
    rw [if_neg h2]
    by_cases h3 : ctx.tx.sfDestination = 0
    · right; left
      rw [if_pos h3]
      exact ⟨rfl, h3⟩
    rw [if_neg h3]
    by_cases h4 : ((some s).isSome && decide (s.value ≤ 0)) = true
    · left
      rw [if_pos h4]
      refine ⟨rfl, hm0, Or.inr (Or.inl ⟨s, rfl, Or.inr ?_⟩)⟩
      simpa using h4
    rw [if_neg h4]
    by_cases h5 : ctx.tx.sfAmount.value ≤ 0
    · left
      rw [if_pos h5]
      exact ⟨rfl, hm0, Or.inr (Or.inr h5)⟩
    rw [if_neg h5]
    by_cases h6 : amt.badCurrency = s.getCurrency ∨
        amt.badCurrency = ctx.tx.sfAmount.getCurrency
    · right; right; left
      rw [if_pos h6]
      refine ⟨rfl, ?_⟩
      rcases h6 with h6 | h6
      · exact Or.inr ⟨s, rfl, h6⟩
      · exact Or.inl h6
    rw [if_neg h6]
    by_cases h7 : ctx.tx.sfAccount = ctx.tx.sfDestination ∧
        s.getCurrency = ctx.tx.sfAmount.getCurrency
    · right; right; right; left
      rw [if_pos h7]
      refine ⟨rfl, h7.1, fun s2 h2 => ?_⟩
      cases h2
      exact h7.2
    rw [if_neg h7]
    right; right; right; right; left
    rw [if_pos (show (some s).isSome = true from rfl)]
    exact ⟨rfl, rfl⟩
  | none =>
    dsimp only
    by_cases h2 : (!amt.isLegalNet ctx.tx.sfAmount ||
        !amt.isLegalNet ctx.tx.sfAmount) = true
    · left
      rw [if_pos h2]
      refine ⟨rfl, hm0, Or.inl ?_⟩
      simpa using h2
    rw [if_neg h2]
    have hlegal : amt.isLegalNet ctx.tx.sfAmount = true := by
      simpa using h2
    by_cases h3 : ctx.tx.sfDestination = 0
    · right; left
      rw [if_pos h3]
      exact ⟨rfl, h3⟩
    rw [if_neg h3]
    rw [if_neg (show ¬ ((none : Option STAmount).isSome &&
      decide (ctx.tx.sfAmount.value ≤ 0)) = true by simp)]
    by_cases h5 : ctx.tx.sfAmount.value ≤ 0
    · left
      rw [if_pos h5]
      exact ⟨rfl, hm0, Or.inr (Or.inr h5)⟩
    rw [if_neg h5]
    by_cases h6 : amt.badCurrency = ctx.tx.sfAmount.getCurrency ∨
        amt.badCurrency = ctx.tx.sfAmount.getCurrency
    · right; right; left
      rw [if_pos h6]
      exact ⟨rfl, Or.inl (h6.elim id id)⟩
    rw [if_neg h6]
    have hbad : amt.badCurrency ≠ ctx.tx.sfAmount.getCurrency :=
      fun hc => h6 (Or.inl hc)
    by_cases h7 : ctx.tx.sfAccount = ctx.tx.sfDestination ∧
        ctx.tx.sfAmount.getCurrency = ctx.tx.sfAmount.getCurrency
    · right; right; right; left
      rw [if_pos h7]
      exact ⟨rfl, h7.1, fun s2 h2 => Option.noConfusion h2⟩
    rw [if_neg h7]
    have hacc : ctx.tx.sfAccount ≠ ctx.tx.sfDestination :=
      fun hc => h7 ⟨hc, rfl⟩
    right; right; right; right; right
    refine ⟨rfl, hm0, hlegal, h3, not_le.mp h5, hbad, hacc, ?_⟩
    rw [if_neg (show ¬ (none : Option STAmount).isSome = true by simp)]
    by_cases h9 : pp = 0
    swap
    · left
      rw [if_pos (show decide (pp ≠ 0) = true by simpa using h9)]
      exact ⟨rfl, h9⟩
    rw [if_neg (show ¬ decide (pp ≠ 0) = true by simp [h9])]
    right
    by_cases h10 : lq = 0
    swap
    · left
      rw [if_pos (show decide (lq ≠ 0) = true by simpa using h10)]
      exact ⟨rfl, h9, h10⟩
    rw [if_neg (show ¬ decide (lq ≠ 0) = true by simp [h10])]
    right
    by_cases h11 : nd = 0
    swap
    · left
      rw [if_pos (show (!!decide (nd ≠ 0)) = true by simpa using h11)]
      exact ⟨rfl, h9, h10, h11⟩
    rw [if_neg (show ¬ (!!decide (nd ≠ 0)) = true by simp [h11])]
    right
    cases hdm : ctx.tx.sfDeliverMin with
    | some dMin =>
      left
      dsimp only
      rw [if_pos (show (!decide (pp ≠ 0)) = true by simp [h9])]
      exact ⟨rfl, h9, h10, h11, rfl⟩
    | none =>
      right
      exact ⟨rfl, h9, h10, h11, rfl⟩

/-- C35: a Payment with a `SendMax` field never passes `Payment::preflight`.
The result is the code with which `preflight1` failed, or one of
`temINVALID_FLAG`, `temBAD_AMOUNT`, `temDST_NEEDED`, `temBAD_CURRENCY`,
`temREDUNDANT` (the earlier checks) and `temBAD_SEND_XRP_MAX`; it is of the
malformed class when the failures of `preflight1` are; and it is
`temBAD_SEND_XRP_MAX` whenever the earlier checks pass, the rejection of
`SendMax` having no further condition. -/
theorem Payment_preflight_send_max (ext : Externals) (amt : AmountExternals)
    (ctx : PreflightContext) (s : STAmount)
    (hmax : ctx.tx.sfSendMax = some s) :
    isTesSuccess (Payment.preflight ext amt ctx) = false ∧
    ((isTesSuccess (ext.preflight1 ctx) = false ∧
        Payment.preflight ext amt ctx = ext.preflight1 ctx) ∨
      Payment.preflight ext amt ctx ∈
        [TER.temINVALID_FLAG, TER.temBAD_AMOUNT, TER.temDST_NEEDED,
          TER.temBAD_CURRENCY, TER.temREDUNDANT, TER.temBAD_SEND_XRP_MAX]) ∧
    ((isTesSuccess (ext.preflight1 ctx) = false →
        (ext.preflight1 ctx).codeClass = some TERClass.tem) →
      (Payment.preflight ext amt ctx).codeClass = some TERClass.tem) ∧
    (ext.preflight1 ctx = TER.tesSUCCESS →
      ctx.tx.getFlags &&& tfPaymentMask = 0 →
      amt.isLegalNet ctx.tx.sfAmount = true → amt.isLegalNet s = true →
      ctx.tx.sfDestination ≠ 0 →
      0 < s.value → 0 < ctx.tx.sfAmount.value →
      amt.badCurrency ≠ s.getCurrency →
      amt.badCurrency ≠ ctx.tx.sfAmount.getCurrency →
      ¬ (ctx.tx.sfAccount = ctx.tx.sfDestination ∧
        s.getCurrency = ctx.tx.sfAmount.getCurrency) →
      Payment.preflight ext amt ctx = TER.temBAD_SEND_XRP_MAX) := by
  have hcodes : (isTesSuccess (ext.preflight1 ctx) = false ∧
        Payment.preflight ext amt ctx = ext.preflight1 ctx) ∨
      Payment.preflight ext amt ctx ∈
        [TER.temINVALID_FLAG, TER.temBAD_AMOUNT, TER.temDST_NEEDED,
          TER.temBAD_CURRENCY, TER.temREDUNDANT, TER.temBAD_SEND_XRP_MAX] := by
    rcases Payment.payment_preflight_cases ext amt ctx with h | ⟨_, h⟩
    · exact Or.inl h
    · right
      rcases h with ⟨h, _⟩ | ⟨h, _⟩ | ⟨h, _⟩ | ⟨h, _⟩ | ⟨h, _⟩ | ⟨h, _⟩ |
        ⟨hn, _⟩
      · rw [h]; decide
      · rw [h]; decide
      · rw [h]; decide
      · rw [h]; decide
      · rw [h]; decide
      · rw [h]; decide
      · rw [hn] at hmax
        exact Option.noConfusion hmax
  refine ⟨?_, hcodes, ?_, ?_⟩
  · rcases hcodes with ⟨h1, h⟩ | h
    · rw [h]
      exact h1
    · generalize Payment.preflight ext amt ctx = r at h
      revert h
      intro h
      simp only [List.mem_cons, List.mem_singleton, List.not_mem_nil,
        or_false] at h
      rcases h with h | h | h | h | h | h <;> rw [h] <;> rfl
  · intro hp1
    rcases hcodes with ⟨h1, h⟩ | h
    · rw [h]
      exact hp1 h1
    · generalize Payment.preflight ext amt ctx = r at h
      simp only [List.mem_cons, List.mem_singleton, List.not_mem_nil,
        or_false] at h
      rcases h with h | h | h | h | h | h <;> rw [h] <;> rfl
  · intro h1 hm hA hs hd hsv hAv hbs hbA hred
    rcases Payment.payment_preflight_cases ext amt ctx with ⟨hf, _⟩ | ⟨_, h⟩
    · rw [h1] at hf
      exact absurd hf (by decide)
    · rcases h with ⟨_, hm2⟩ | ⟨_, _, hg⟩ | ⟨_, hd2⟩ | ⟨_, hg⟩ |
        ⟨_, hacc, hcur⟩ | ⟨h, _⟩ | ⟨hn, _⟩
      · exact absurd hm hm2
      · rcases hg with hg | ⟨s2, hs2, hg⟩ | hg
        · rw [hA] at hg
          exact Bool.noConfusion hg
        · rw [hmax] at hs2
          cases hs2
          rcases hg with hg | hg
          · rw [hs] at hg
            exact Bool.noConfusion hg
          · omega
        · omega
      · exact absurd hd2 hd
      · rcases hg with hg | ⟨s2, hs2, hg⟩
        · exact absurd hg hbA
        · rw [hmax] at hs2
          cases hs2
          exact absurd hg hbs
      · exact absurd ⟨hacc, hcur s hmax⟩ hred
      · exact h
      · rw [hn] at hmax
        exact Option.noConfusion hmax

/-- A code of the malformed class is not success. -/
theorem TER.tem_not_success (r : TER)
    (h : r.codeClass = some TERClass.tem) : isTesSuccess r = false := by
  cases r <;> first | rfl | exact absurd h (by decide)

/-- A result that is the failure of `preflight1` or one of a list of codes of
the malformed class is not success, and is of the malformed class when the
failure of `preflight1` is. -/
theorem TER.rejection_of_mem (l : List TER)
    (hl : ∀ c ∈ l, c.codeClass = some TERClass.tem) (r p1 : TER)
    (h : (isTesSuccess p1 = false ∧ r = p1) ∨ r ∈ l) :
    isTesSuccess r = false ∧
    ((isTesSuccess p1 = false → p1.codeClass = some TERClass.tem) →
      r.codeClass = some TERClass.tem) := by
  rcases h with ⟨h1, h⟩ | h
  · rw [h]
    exact ⟨h1, fun hp1 => hp1 h1⟩
  · exact ⟨TER.tem_not_success r (hl r h), fun _ => hl r h⟩

/-- C31: a Payment whose `Account` equals its `Destination` never passes
`Payment::preflight`.  The result is the code with which `preflight1` failed,
or one of `temINVALID_FLAG`, `temBAD_AMOUNT`, `temDST_NEEDED`,
`temBAD_CURRENCY`, `temREDUNDANT` and `temBAD_SEND_XRP_MAX`; it is of the
malformed class when the failures of
`preflight1` are.  With no `SendMax` the source currency is the destination
currency, and the result is `temREDUNDANT` when the earlier checks pass. -/
theorem Payment_preflight_self_payment (ext : Externals)
    (amt : AmountExternals) (ctx : PreflightContext)
    (hself : ctx.tx.sfAccount = ctx.tx.sfDestination) :
    isTesSuccess (Payment.preflight ext amt ctx) = false ∧
    ((isTesSuccess (ext.preflight1 ctx) = false ∧
        Payment.preflight ext amt ctx = ext.preflight1 ctx) ∨
      Payment.preflight ext amt ctx ∈
        [TER.temINVALID_FLAG, TER.temBAD_AMOUNT, TER.temDST_NEEDED,
          TER.temBAD_CURRENCY, TER.temREDUNDANT, TER.temBAD_SEND_XRP_MAX]) ∧
    ((isTesSuccess (ext.preflight1 ctx) = false →
        (ext.preflight1 ctx).codeClass = some TERClass.tem) →
      (Payment.preflight ext amt ctx).codeClass = some TERClass.tem) ∧
    (ctx.tx.sfSendMax = none →
      ext.preflight1 ctx = TER.tesSUCCESS →
      ctx.tx.getFlags &&& tfPaymentMask = 0 →
      amt.isLegalNet ctx.tx.sfAmount = true →
      ctx.tx.sfDestination ≠ 0 →
      0 < ctx.tx.sfAmount.value →
      amt.badCurrency ≠ ctx.tx.sfAmount.getCurrency →
      Payment.preflight ext amt ctx = TER.temREDUNDANT) := by
  have hcodes : (isTesSuccess (ext.preflight1 ctx) = false ∧
        Payment.preflight ext amt ctx = ext.preflight1 ctx) ∨
      Payment.preflight ext amt ctx ∈
        [TER.temINVALID_FLAG, TER.temBAD_AMOUNT, TER.temDST_NEEDED,
          TER.temBAD_CURRENCY, TER.temREDUNDANT, TER.temBAD_SEND_XRP_MAX] := by
    rcases Payment.payment_preflight_cases ext amt ctx with h | ⟨_, h⟩
    · exact Or.inl h
    · right
      rcases h with ⟨h, _⟩ | ⟨h, _⟩ | ⟨h, _⟩ | ⟨h, _⟩ | ⟨h, _⟩ | ⟨h, _⟩ |
        ⟨_, _, _, _, _, _, hne, _⟩
      · rw [h]; decide
      · rw [h]; decide
      · rw [h]; decide
      · rw [h]; decide
      · rw [h]; decide
      · rw [h]; decide
      · exact absurd hself hne
  obtain ⟨hrej, hcls⟩ := TER.rejection_of_mem _ (by decide) _ _ hcodes
  refine ⟨hrej, hcodes, hcls, ?_⟩
  · intro hnone h1 hm hA hd hAv hbA
    rcases Payment.payment_preflight_cases ext amt ctx with ⟨hf, _⟩ | ⟨_, h⟩
    · rw [h1] at hf
      exact absurd hf (by decide)
    · rcases h with ⟨_, hm2⟩ | ⟨_, _, hg⟩ | ⟨_, hd2⟩ | ⟨_, hg⟩ | ⟨h, _⟩ |
        ⟨_, hs⟩ | ⟨_, _, _, _, _, _, hne, _⟩
      · exact absurd hm hm2
      · rcases hg with hg | ⟨s2, hs2, _⟩ | hg
        · rw [hA] at hg
          exact Bool.noConfusion hg
        · rw [hnone] at hs2
          exact Option.noConfusion hs2
        · omega
      · exact absurd hd2 hd
      · rcases hg with hg | ⟨s2, hs2, _⟩
        · exact absurd hg hbA
        · rw [hnone] at hs2
          exact Option.noConfusion hs2
      · exact h
      · rw [hnone] at hs
        exact Bool.noConfusion hs
      · exact absurd hself hne

/-- C36: a Payment with a `DeliverMin` field never passes
`Payment::preflight`.  With `tfPartialPayment` set the transaction is rejected
by the check of that flag (`temBAD_SEND_XRP_PARTIAL`) or by an earlier check;
with `tfPartialPayment` clear it is rejected by the check of `DeliverMin`
(`temBAD_AMOUNT`) once every earlier check has passed, or by an earlier
check.  The result is of the malformed class when the failures of
`preflight1` are. -/
theorem Payment_preflight_deliver_min (ext : Externals)
    (amt : AmountExternals) (ctx : PreflightContext) (dMin : STAmount)
    (hdm : ctx.tx.sfDeliverMin = some dMin) :
    isTesSuccess (Payment.preflight ext amt ctx) = false ∧
    (ctx.tx.getFlags &&& tfPartialPayment ≠ 0 →
      (isTesSuccess (ext.preflight1 ctx) = false ∧
        Payment.preflight ext amt ctx = ext.preflight1 ctx) ∨
      Payment.preflight ext amt ctx ∈
        [TER.temINVALID_FLAG, TER.temBAD_AMOUNT, TER.temDST_NEEDED,
          TER.temBAD_CURRENCY, TER.temREDUNDANT, TER.temBAD_SEND_XRP_MAX,
          TER.temBAD_SEND_XRP_PARTIAL]) ∧
    ((isTesSuccess (ext.preflight1 ctx) = false ∧
        Payment.preflight ext amt ctx = ext.preflight1 ctx) ∨
      Payment.preflight ext amt ctx ∈
        [TER.temINVALID_FLAG, TER.temBAD_AMOUNT, TER.temDST_NEEDED,
          TER.temBAD_CURRENCY, TER.temREDUNDANT, TER.temBAD_SEND_XRP_MAX,
          TER.temBAD_SEND_XRP_PARTIAL, TER.temBAD_SEND_XRP_LIMIT,
          TER.temBAD_SEND_XRP_NO_DIRECT]) ∧
    ((isTesSuccess (ext.preflight1 ctx) = false →
        (ext.preflight1 ctx).codeClass = some TERClass.tem) →
      (Payment.preflight ext amt ctx).codeClass = some TERClass.tem) ∧
    (ext.preflight1 ctx = TER.tesSUCCESS →
      ctx.tx.getFlags &&& tfPaymentMask = 0 →
      amt.isLegalNet ctx.tx.sfAmount = true →
      ctx.tx.sfDestination ≠ 0 →
      ctx.tx.sfSendMax = none →
      0 < ctx.tx.sfAmount.value →
      amt.badCurrency ≠ ctx.tx.sfAmount.getCurrency →
      ctx.tx.sfAccount ≠ ctx.tx.sfDestination →
      ctx.tx.getFlags &&& tfPartialPayment = 0 →
      ctx.tx.getFlags &&& tfLimitQuality = 0 →
      ctx.tx.getFlags &&& tfNoRippleDirect = 0 →
      Payment.preflight ext amt ctx = TER.temBAD_AMOUNT) := by
  have hcodes : (isTesSuccess (ext.preflight1 ctx) = false ∧
        Payment.preflight ext amt ctx = ext.preflight1 ctx) ∨
      Payment.preflight ext amt ctx ∈
        [TER.temINVALID_FLAG, TER.temBAD_AMOUNT, TER.temDST_NEEDED,
          TER.temBAD_CURRENCY, TER.temREDUNDANT, TER.temBAD_SEND_XRP_MAX,
          TER.temBAD_SEND_XRP_PARTIAL, TER.temBAD_SEND_XRP_LIMIT,
          TER.temBAD_SEND_XRP_NO_DIRECT] := by
    rcases Payment.payment_preflight_cases ext amt ctx with h | ⟨_, h⟩
    · exact Or.inl h
    · right
      rcases h with ⟨h, _⟩ | ⟨h, _⟩ | ⟨h, _⟩ | ⟨h, _⟩ | ⟨h, _⟩ | ⟨h, _⟩ |
        ⟨_, _, _, _, _, _, _, ⟨h, _⟩ | ⟨h, _⟩ | ⟨h, _⟩ | ⟨h, _⟩ |
          ⟨_, _, _, _, hn⟩⟩
      · rw [h]; decide
      · rw [h]; decide
      · rw [h]; decide
      · rw [h]; decide
      · rw [h]; decide
      · rw [h]; decide
      · rw [h]; decide
      · rw [h]; decide
      · rw [h]; decide
      · rw [h]; decide
      · rw [hn] at hdm
        exact Option.noConfusion hdm
  obtain ⟨hrej, hcls⟩ := TER.rejection_of_mem _ (by decide) _ _ hcodes
  refine ⟨hrej, ?_, hcodes, hcls, ?_⟩
  · intro hpp
    rcases Payment.payment_preflight_cases ext amt ctx with h | ⟨_, h⟩
    · exact Or.inl h
    · right
      rcases h with ⟨h, _⟩ | ⟨h, _⟩ | ⟨h, _⟩ | ⟨h, _⟩ | ⟨h, _⟩ | ⟨h, _⟩ |
        ⟨_, _, _, _, _, _, _, ⟨h, _⟩ | ⟨_, h0, _⟩ | ⟨_, h0, _⟩ | ⟨_, h0, _⟩ |
          ⟨_, h0, _⟩⟩
      · rw [h]; decide
      · rw [h]; decide
      · rw [h]; decide
      · rw [h]; decide
      · rw [h]; decide
      · rw [h]; decide
      · rw [h]; decide
      · exact absurd h0 hpp
      · exact absurd h0 hpp
      · exact absurd h0 hpp
      · exact absurd h0 hpp
  · intro h1 hm hA hd hnone hAv hbA hacc hpp hlq hnd
    rcases Payment.payment_preflight_cases ext amt ctx with ⟨hf, _⟩ | ⟨_, h⟩
    · rw [h1] at hf
      exact absurd hf (by decide)
    · rcases h with ⟨_, hm2⟩ | ⟨_, _, hg⟩ | ⟨_, hd2⟩ | ⟨_, hg⟩ |
        ⟨_, hacc2, _⟩ | ⟨_, hs⟩ |
        ⟨_, _, _, _, _, _, _, ⟨_, h0⟩ | ⟨_, _, h0⟩ | ⟨_, _, _, h0⟩ |
          ⟨h, _⟩ | ⟨_, _, _, _, hn⟩⟩
      · exact absurd hm hm2
      · rcases hg with hg | ⟨s2, hs2, _⟩ | hg
        · rw [hA] at hg
          exact Bool.noConfusion hg
        · rw [hnone] at hs2
          exact Option.noConfusion hs2
        · omega
      · exact absurd hd2 hd
      · rcases hg with hg | ⟨s2, hs2, _⟩
        · exact absurd hg hbA
        · rw [hnone] at hs2
          exact Option.noConfusion hs2
      · exact absurd hacc2 hacc
      · rw [hnone] at hs
        exact Bool.noConfusion hs
      · exact absurd hpp h0
      · exact absurd hlq h0
      · exact absurd hnd h0
      · exact h
      · rw [hn] at hdm
        exact Option.noConfusion hdm

/-- What a success of `Payment::preflight` tells: every check passed and the
result is that of `preflight2`. -/
theorem Payment.payment_preflight_success (ext : Externals)
    (amt : AmountExternals) (ctx : PreflightContext)
    (hok : isTesSuccess (Payment.preflight ext amt ctx) = true) :
    isTesSuccess (ext.preflight1 ctx) = true ∧
    ctx.tx.sfSendMax = none ∧
    ctx.tx.getFlags &&& tfPaymentMask = 0 ∧
    amt.isLegalNet ctx.tx.sfAmount = true ∧
    ctx.tx.sfDestination ≠ 0 ∧
    0 < ctx.tx.sfAmount.value ∧
    amt.badCurrency ≠ ctx.tx.sfAmount.getCurrency ∧
    ctx.tx.sfAccount ≠ ctx.tx.sfDestination ∧
    Payment.preflight ext amt ctx = ext.preflight2 ctx ∧
    ctx.tx.getFlags &&& tfPartialPayment = 0 ∧
    ctx.tx.getFlags &&& tfLimitQuality = 0 ∧
    ctx.tx.getFlags &&& tfNoRippleDirect = 0 ∧
    ctx.tx.sfDeliverMin = none := by
  have hno : ∀ c : TER, Payment.preflight ext amt ctx = c →
      isTesSuccess c = false → False := by
    intro c h hc
    rw [h, hc] at hok
    exact Bool.noConfusion hok
  rcases Payment.payment_preflight_cases ext amt ctx with ⟨hf, h⟩ | ⟨h1, h⟩
  · exact (hno _ h hf).elim
  · rcases h with ⟨h, _⟩ | ⟨h, _⟩ | ⟨h, _⟩ | ⟨h, _⟩ | ⟨h, _⟩ | ⟨h, _⟩ |
      ⟨hn, hm, hA, hd, hAv, hb, hacc, ⟨h, _⟩ | ⟨h, _⟩ | ⟨h, _⟩ | ⟨h, _⟩ |
        hlast⟩
    · exact (hno _ h rfl).elim
    · exact (hno _ h rfl).elim
    · exact (hno _ h rfl).elim
    · exact (hno _ h rfl).elim
    · exact (hno _ h rfl).elim
    · exact (hno _ h rfl).elim
    · exact (hno _ h rfl).elim
    · exact (hno _ h rfl).elim
    · exact (hno _ h rfl).elim
    · exact (hno _ h rfl).elim
    · exact ⟨h1, hn, hm, hA, hd, hAv, hb, hacc, hlast⟩

/-- Flags that pass the payment mask and have none of the three flags that
the mask allows have no bit outside `tfUniversal`. -/
theorem Payment.flags_universal_only (f : Nat) (hf : f < 2 ^ 32)
    (hm : f &&& tfPaymentMask = 0) (hp : f &&& tfPartialPayment = 0)
    (hl : f &&& tfLimitQuality = 0) (hn : f &&& tfNoRippleDirect = 0) :
    f &&& tfUniversalMask = 0 := by
  apply Nat.eq_of_testBit_eq
  intro i
  rw [Nat.testBit_and, Nat.zero_testBit]
  by_cases h32 : i < 32
  · have key : ∀ j, j < 32 → tfUniversalMask.testBit j = true →
        (tfPaymentMask.testBit j || tfPartialPayment.testBit j ||
          tfLimitQuality.testBit j || tfNoRippleDirect.testBit j) = true := by
      decide
    have hbit : ∀ x : Nat, f &&& x = 0 →
        (f.testBit i && x.testBit i) = false := by
      intro x hx
      rw [← Nat.testBit_and, hx, Nat.zero_testBit]
    have h1 := hbit _ hm
    have h2 := hbit _ hp
    have h3 := hbit _ hl
    have h4 := hbit _ hn
    have hk := key i h32
    cases hfi : f.testBit i
    · rfl
    · rw [hfi] at h1 h2 h3 h4
      cases hu : tfUniversalMask.testBit i
      · rfl
      · have := hk hu
        simp only [Bool.true_and] at h1 h2 h3 h4
        rw [h1, h2, h3, h4] at this
        exact Bool.noConfusion this
  · have hge : 2 ^ 32 ≤ 2 ^ i :=
      Nat.pow_le_pow_right (by norm_num) (by omega)
    rw [Nat.testBit_lt_two_pow (lt_of_lt_of_le hf hge)]
    rfl

/-- C37: if `Payment::preflight` returns success, the transaction's flags have
no bit set other than `tfUniversal` (`flags & ~0x80000000 == 0`, so the flags
are 0 or `0x80000000`), its `Amount` is strictly positive, and its
`Destination` is non-zero and differs from `Account`; none of
`tfPartialPayment`, `tfLimitQuality` and `tfNoRippleDirect`, which the mask
allows, is set. -/
theorem Payment_preflight_success_shape (ext : Externals)
    (amt : AmountExternals) (ctx : PreflightContext)
    (hok : isTesSuccess (Payment.preflight ext amt ctx) = true) :
    ctx.tx.getFlags &&& not32 0x80000000 = 0 ∧
    (ctx.tx.getFlags = 0 ∨ ctx.tx.getFlags = 0x80000000) ∧
    0 < ctx.tx.sfAmount.value ∧
    ctx.tx.sfDestination ≠ 0 ∧
    ctx.tx.sfDestination ≠ ctx.tx.sfAccount ∧
    ctx.tx.getFlags &&& tfPartialPayment = 0 ∧
    ctx.tx.getFlags &&& tfLimitQuality = 0 ∧
    ctx.tx.getFlags &&& tfNoRippleDirect = 0 := by
  obtain ⟨_, _, hm, _, hd, hAv, _, hacc, _, hp, hl, hn, _⟩ :=
    Payment.payment_preflight_success ext amt ctx hok
  have hu := Payment.flags_universal_only ctx.tx.getFlags (getFlags_lt ctx.tx)
    hm hp hl hn
  have hmask : not32 0x80000000 = tfUniversalMask := by
    unfold tfUniversalMask tfUniversal tfFullyCanonicalSig
    rfl
  refine ⟨by rw [hmask]; exact hu, ?_, hAv, hd, fun hc => hacc hc.symm, hp, hl,
    hn⟩
  have hlt := getFlags_lt ctx.tx
  rw [tfUniversalMask_eq, Nat.and_pow_two_sub_one_eq_mod] at hu
  omega

/-- C38: for a transaction that `Payment::preflight` accepts, and for every
view, `Payment::preclaim` does not return `telNO_DST_PARTIAL`: the
transaction has `tfPartialPayment` clear, so the retryable branch is not
taken. -/
theorem Payment_preclaim_not_retryable_after_preflight (ext : Externals)
    (amt : AmountExternals) (ctx : PreflightContext)
    (hok : isTesSuccess (Payment.preflight ext amt ctx) = true) :
    ctx.tx.getFlags &&& tfPartialPayment = 0 ∧
    ∀ (lf : LedgerFlags) (view : ApplyView),
      Payment.preclaim lf { view := view, tx := ctx.tx } ≠
        TER.telNO_DST_PARTIAL := by
  obtain ⟨_, _, _, _, _, _, _, _, _, hp, _⟩ :=
    Payment.payment_preflight_success ext amt ctx hok
  refine ⟨hp, fun lf view => ?_⟩
  unfold Payment.preclaim
  dsimp only
  rw [hp]
  cases view.read (Keylet.account ctx.tx.sfDestination) with
  | none =>
    dsimp only
    rw [if_neg (show ¬ (view.open_ && decide ((0 : Nat) ≠ 0)) = true by simp)]
    split_ifs <;> exact fun hc => TER.noConfusion hc
  | some sleDst =>
    dsimp only
    split_ifs <;> exact fun hc => TER.noConfusion hc

/-! ## Key resolution and lookup in `doLedgerEntry` -/

/-- The recurring parse step leaves the zero key whenever it sets an error,
and the error is `malformedRequest`. -/
theorem doLedgerEntry.parseIndex_error (ext : RpcExternals)
    (expected : LedgerEntryType) (text : String) :
    ((doLedgerEntry.parseIndex ext expected text).error = none ∨
      ((doLedgerEntry.parseIndex ext expected text).uNodeIndex = 0 ∧
        (doLedgerEntry.parseIndex ext expected text).error =
          some "malformedRequest")) ∧
    (doLedgerEntry.parseIndex ext expected text).expectedType = expected := by
  unfold doLedgerEntry.parseIndex
  cases ext.parseHex text with
  | none => exact ⟨Or.inr ⟨rfl, rfl⟩, rfl⟩
  | some key => exact ⟨Or.inl rfl, rfl⟩

/-- A property of the key resolution holds for every request as soon as it
holds for the three ways in which a branch of the selector chain ends: the
recurring parse step, a derived key with no error, and an error with the zero
key. -/
theorem doLedgerEntry.resolve_ind (P : KeyResolution → Prop)
    (ext : RpcExternals) (params : Json)
    (hparse : ∀ expected text, P (doLedgerEntry.parseIndex ext expected text))
    (hkey : ∀ key expected,
      P { uNodeIndex := key, error := none, expectedType := expected })
    (herr : ∀ msg expected,
      msg ∈ ["malformedRequest", "malformedAddress", "malformedOwner",
        "malformedAuthorized", "malformedCurrency", "unknownOption"] →
      P { uNodeIndex := 0, error := some msg, expectedType := expected }) :
    P (doLedgerEntry.resolve ext params) := by
  have hite : ∀ (c : Prop) [Decidable c] (a b : KeyResolution),
      (c → P a) → (¬ c → P b) → P (if c then a else b) := by
    intro c _ a b ha hb
    by_cases h : c
    · rw [if_pos h]
      exact ha h
    · rw [if_neg h]
      exact hb h
  unfold doLedgerEntry.resolve
  refine hite _ _ _ (fun _ => hparse _ _) (fun _ => ?_)
  refine hite _ _ _ (fun _ => ?_) (fun _ => ?_)
  · cases ext.parseBase58 (ext.asString (params.get "account_root")) with
    | none => exact herr _ _ (by decide)
    | some account =>
      exact hite _ _ _ (fun _ => herr _ _ (by decide)) (fun _ => hkey _ _)
  refine hite _ _ _ (fun _ => ?_) (fun _ => ?_)
  · refine hite _ _ _ (fun _ => ?_) (fun _ => ?_)
    · exact hite _ _ _ (fun _ => herr _ _ (by decide)) (fun _ => hparse _ _)
    refine hite _ _ _ (fun _ => herr _ _ (by decide)) (fun _ => ?_)
    cases ext.parseBase58
        (ext.asString ((params.get "deposit_preauth").get "owner")) with
    | none => exact herr _ _ (by decide)
    | some owner =>
      cases ext.parseBase58
          (ext.asString ((params.get "deposit_preauth").get "authorized")) with
      | none => exact herr _ _ (by decide)
      | some authorized => exact hkey _ _
  refine hite _ _ _ (fun _ => ?_) (fun _ => ?_)
  · refine hite _ _ _ (fun _ => herr _ _ (by decide)) (fun _ => ?_)
    refine hite _ _ _ (fun _ => hparse _ _) (fun _ => ?_)
    refine hite _ _ _ (fun _ => herr _ _ (by decide)) (fun _ => ?_)
    refine hite _ _ _ (fun _ => ?_) (fun _ => ?_)
    · refine hite _ _ _ (fun _ => herr _ _ (by decide)) (fun _ => ?_)
      cases ext.parseHex
          (ext.asString ((params.get "directory").get "dir_root")) with
      | none => exact herr _ _ (by decide)
      | some uDirRoot => exact hkey _ _
    refine hite _ _ _ (fun _ => ?_) (fun _ => herr _ _ (by decide))
    cases ext.parseBase58
        (ext.asString ((params.get "directory").get "owner")) with
    | none => exact herr _ _ (by decide)
    | some ownerID => exact hkey _ _
  refine hite _ _ _ (fun _ => ?_) (fun _ => ?_)
  · refine hite _ _ _ (fun _ => hparse _ _) (fun _ => ?_)
    refine hite _ _ _ (fun _ => herr _ _ (by decide)) (fun _ => ?_)
    cases ext.parseBase58
        (ext.asString ((params.get "offer").get "account")) with
    | none => exact herr _ _ (by decide)
    | some id => exact hkey _ _
  refine hite _ _ _ (fun _ => hparse _ _) (fun _ => ?_)
  refine hite _ _ _ (fun _ => ?_) (fun _ => ?_)
  · refine hite _ _ _ (fun _ => herr _ _ (by decide)) (fun _ => ?_)
    cases ext.parseBase58
        (ext.asString (((params.get "ripple_state").get "accounts").at 0)) with
    | none => exact herr _ _ (by decide)
    | some id1 =>
      cases ext.parseBase58
          (ext.asString (((params.get "ripple_state").get "accounts").at 1)) with
      | none => exact herr _ _ (by decide)
      | some id2 =>
        cases ext.to_currency
            (ext.asString ((params.get "ripple_state").get "currency")) with
        | none => exact herr _ _ (by decide)
        | some uCurrency => exact hkey _ _
  refine hite _ _ _ (fun _ => ?_) (fun _ => ?_)
  · refine hite _ _ _ (fun _ => hparse _ _) (fun _ => ?_)
    refine hite _ _ _ (fun _ => herr _ _ (by decide)) (fun _ => ?_)
    cases ext.parseBase58
        (ext.asString ((params.get "ticket").get "account")) with
    | none => exact herr _ _ (by decide)
    | some id => exact hkey _ _
  refine hite _ _ _ (fun _ => ?_) (fun _ => ?_)
  · exact hite _ _ _ (fun _ => hparse _ _) (fun _ => herr _ _ (by decide))
  exact hite _ _ _ (fun _ => hparse _ _) (fun _ => herr _ _ (by decide))

/-- Whenever the selector chain of `doLedgerEntry` sets an error, the key it
leaves is zero, and the error is one of the six that the chain names. -/
theorem doLedgerEntry.resolve_error (ext : RpcExternals) (params : Json) :
    (doLedgerEntry.resolve ext params).error = none ∨
    ((doLedgerEntry.resolve ext params).uNodeIndex = 0 ∧
      ∃ e, (doLedgerEntry.resolve ext params).error = some e ∧
        e ∈ ["malformedRequest", "malformedAddress", "malformedOwner",
          "malformedAuthorized", "malformedCurrency", "unknownOption"]) := by
  refine doLedgerEntry.resolve_ind
    (fun r => r.error = none ∨ (r.uNodeIndex = 0 ∧
      ∃ e, r.error = some e ∧
        e ∈ ["malformedRequest", "malformedAddress", "malformedOwner",
          "malformedAuthorized", "malformedCurrency", "unknownOption"]))
    ext params ?_ ?_ ?_
  · intro expected text
    rcases (doLedgerEntry.parseIndex_error ext expected text).1 with h | ⟨h0, h⟩
    · exact Or.inl h
    · exact Or.inr ⟨h0, _, h, by decide⟩
  · intro key expected
    exact Or.inl rfl
  · intro msg expected hmsg
    exact Or.inr ⟨rfl, msg, rfl, hmsg⟩

/-- A raw selector (`index`, or the single string of `params`) leaves the
expected type `ltANY`; the member `index` is the first selector tried. -/
theorem doLedgerEntry.resolve_index (ext : RpcExternals) (params : Json)
    (hi : params.isMember "index" = true) :
    doLedgerEntry.resolve ext params =
      doLedgerEntry.parseIndex ext LedgerEntryType.ltANY
        (ext.asString (params.get "index")) := by
  unfold doLedgerEntry.resolve
  rw [if_pos hi]

/-- C32: in `doLedgerEntry`, when the ledger resolves and the selector leaves
a non-zero key: the error is `entryNotFound` if the ledger has no entry under
the key; it is `unexpectedLedgerType`, with no node, if there is an entry and
the expected type is neither `ltANY` nor the entry's type; otherwise there is
no error and the entry is returned with `index`, as `node_binary` when
`binary` is true and as `node` when it is not.  A request with the raw
selector `index` has the expected type `ltANY` and never gets
`unexpectedLedgerType`. -/
theorem doLedgerEntry_lookup_outcomes (ext : RpcExternals) (params : Json)
    (lpLedger : ReadView) (jvResult : Json)
    (hl : ext.lookupLedger params = (some lpLedger, jvResult)) :
    ((doLedgerEntry.resolve ext params).uNodeIndex ≠ 0 →
      (lpLedger.read (doLedgerEntry.resolve ext params).uNodeIndex = none →
        (doLedgerEntry ext params).error = some "entryNotFound" ∧
        (doLedgerEntry ext params).node = none ∧
        (doLedgerEntry ext params).node_binary = none ∧
        (doLedgerEntry ext params).index = none) ∧
      (∀ sleNode,
        lpLedger.read (doLedgerEntry.resolve ext params).uNodeIndex =
          some sleNode →
        (doLedgerEntry.resolve ext params).expectedType ≠
          LedgerEntryType.ltANY →
        (doLedgerEntry.resolve ext params).expectedType ≠ sleNode.getType →
        (doLedgerEntry ext params).error = some "unexpectedLedgerType" ∧
        (doLedgerEntry ext params).node = none ∧
        (doLedgerEntry ext params).node_binary = none ∧
        (doLedgerEntry ext params).index = none) ∧
      (∀ sleNode,
        lpLedger.read (doLedgerEntry.resolve ext params).uNodeIndex =
          some sleNode →
        ((doLedgerEntry.resolve ext params).expectedType =
            LedgerEntryType.ltANY ∨
          (doLedgerEntry.resolve ext params).expectedType = sleNode.getType) →
        (doLedgerEntry ext params).error = none ∧
        (doLedgerEntry ext params).index =
          some (ext.to_string (doLedgerEntry.resolve ext params).uNodeIndex) ∧
        ((params.isMember "binary" = true ∧
            ext.asBool (params.get "binary") = true) →
          (doLedgerEntry ext params).node_binary = some sleNode.hex ∧
          (doLedgerEntry ext params).node = none) ∧
        (¬ (params.isMember "binary" = true ∧
            ext.asBool (params.get "binary") = true) →
          (doLedgerEntry ext params).node = some sleNode.json ∧
          (doLedgerEntry ext params).node_binary = none))) ∧
    (params.isMember "index" = true →
      (doLedgerEntry.resolve ext params).expectedType =
        LedgerEntryType.ltANY ∧
      (doLedgerEntry ext params).error ≠ some "unexpectedLedgerType") := by
  have hnoerr : (doLedgerEntry.resolve ext params).uNodeIndex ≠ 0 →
      (doLedgerEntry.resolve ext params).error = none := by
    intro hz
    rcases doLedgerEntry.resolve_error ext params with h | ⟨h0, _⟩
    · exact h
    · exact absurd h0 hz
  have hbin : (if params.isMember "binary" then
        ext.asBool (params.get "binary") else false) = true ↔
      (params.isMember "binary" = true ∧
        ext.asBool (params.get "binary") = true) := by
    cases params.isMember "binary" <;> simp
  constructor
  · intro hz
    have he := hnoerr hz
    unfold doLedgerEntry
    rw [hl]
    dsimp only
    generalize doLedgerEntry.resolve ext params = r at hz he
    rw [if_pos hz]
    refine ⟨?_, ?_, ?_⟩
    · intro hread
      rw [hread]
      exact ⟨rfl, rfl, rfl, rfl⟩
    · intro sleNode hread hany hty
      rw [hread]
      dsimp only
      rw [if_pos ⟨hany, hty⟩]
      exact ⟨rfl, rfl, rfl, rfl⟩
    · intro sleNode hread hty
      rw [hread]
      dsimp only
      rw [if_neg (fun hc => hty.elim hc.1 hc.2)]
      cases hb : (if params.isMember "binary" then
        ext.asBool (params.get "binary") else false)
      · have hnb : ¬ (params.isMember "binary" = true ∧
            ext.asBool (params.get "binary") = true) := by
          intro hc
          rw [hbin.mpr hc] at hb
          exact Bool.noConfusion hb
        exact ⟨he, rfl, fun hc => (hnb hc).elim, fun _ => ⟨rfl, rfl⟩⟩
      · exact ⟨he, rfl, fun _ => ⟨rfl, rfl⟩, fun hc => (hc (hbin.mp hb)).elim⟩
  · intro hi
    have hty : (doLedgerEntry.resolve ext params).expectedType =
        LedgerEntryType.ltANY := by
      rw [doLedgerEntry.resolve_index ext params hi]
      exact (doLedgerEntry.parseIndex_error ext _ _).2
    refine ⟨hty, ?_⟩
    have herr : (doLedgerEntry.resolve ext params).error ≠
        some "unexpectedLedgerType" := by
      rcases doLedgerEntry.resolve_error ext params with h | ⟨_, e, h, hmem⟩
      · rw [h]
        exact fun hc => Option.noConfusion hc
      · rw [h]
        intro hc
        have hce : e = "unexpectedLedgerType" := Option.some.inj hc
        rw [hce] at hmem
        exact absurd hmem (by decide)
    unfold doLedgerEntry
    rw [hl]
    dsimp only
    generalize doLedgerEntry.resolve ext params = r at hty herr
    by_cases hz : r.uNodeIndex ≠ 0
    · rw [if_pos hz]
      cases lpLedger.read r.uNodeIndex with
      | none =>
        intro hc
        have hce : "entryNotFound" = "unexpectedLedgerType" :=
          Option.some.inj hc
        exact absurd hce (by decide)
      | some sleNode =>
        dsimp only
        rw [if_neg (fun hc => hc.1 hty)]
        split_ifs <;> exact herr
    · rw [if_neg hz]
      exact herr

/-- C33: in `doLedgerEntry`, whenever the key resolution sets an error, the
error is one of `malformedRequest`, `malformedAddress`, `malformedOwner`,
`malformedAuthorized`, `malformedCurrency` and `unknownOption`, and the key is
zero when the lookup step is reached: the ledger is not read (the result is
the same whatever the ledger holds), the error stays as it was set, and the
result has no `node`, `node_binary` or `index` member. -/
theorem doLedgerEntry_resolution_error_kept (ext : RpcExternals)
    (params : Json) (lpLedger : ReadView) (jvResult : Json)
    (hl : ext.lookupLedger params = (some lpLedger, jvResult))
    (e : String) (he : (doLedgerEntry.resolve ext params).error = some e) :
    e ∈ ["malformedRequest", "malformedAddress", "malformedOwner",
      "malformedAuthorized", "malformedCurrency", "unknownOption"] ∧
    (doLedgerEntry.resolve ext params).uNodeIndex = 0 ∧
    doLedgerEntry ext params = { ledgerInfo := jvResult, error := some e } ∧
    (doLedgerEntry ext params).error = some e ∧
    (doLedgerEntry ext params).node = none ∧
    (doLedgerEntry ext params).node_binary = none ∧
    (doLedgerEntry ext params).index = none ∧
    (∀ other : ReadView,
      doLedgerEntry
          { ext with lookupLedger := fun _ => (some other, jvResult) } params =
        doLedgerEntry ext params) := by
  rcases doLedgerEntry.resolve_error ext params with h | ⟨h0, e2, h, hmem⟩
  · rw [h] at he
    exact Option.noConfusion he
  · rw [he] at h
    cases h
    have hval : doLedgerEntry ext params =
        { ledgerInfo := jvResult, error := some e } := by
      unfold doLedgerEntry
      rw [hl]
      dsimp only
      rw [if_neg (not_not.mpr h0), he]
    refine ⟨hmem, h0, hval, ?_, ?_, ?_, ?_, ?_⟩
    · rw [hval]
    · rw [hval]
    · rw [hval]
    · rw [hval]
    · intro other
      rw [hval]
      have hres2 : doLedgerEntry.resolve
          { ext with lookupLedger := fun _ => (some other, jvResult) } params =
          doLedgerEntry.resolve ext params := rfl
      unfold doLedgerEntry
      dsimp only
      rw [hres2, if_neg (not_not.mpr h0), he]

/-! ## The loop over `streams` in `doUnsubscribe` -/

/-- The stream names for which the loop makes a call. -/
theorem doUnsubscribe.streamCall_isSome (seq : Nat) (streamName : String) :
    (doUnsubscribe.streamCall seq streamName).isSome = true ↔
      streamName ∈ ["server", "ledger", "manifests", "transactions",
        "transactions_proposed", "rt_transactions", "validations",
        "peer_status", "consensus"] := by
  unfold doUnsubscribe.streamCall
  simp only [List.mem_cons, List.mem_singleton, List.not_mem_nil, or_false]
  split_ifs with h1 h2 h3 h4 h5 <;> first
    | (simp_all; done)
    | (simp only [Option.isSome_some, true_iff]; tauto)

/-- A call made by the loop is the unsubscription from a stream. -/
theorem doUnsubscribe.streamCall_kind (seq : Nat) (streamName : String)
    (c : NetOpsCall)
    (h : doUnsubscribe.streamCall seq streamName = some c) :
    c ∈ [NetOpsCall.unsubServer seq, NetOpsCall.unsubLedger seq,
      NetOpsCall.unsubManifests seq, NetOpsCall.unsubTransactions seq,
      NetOpsCall.unsubRTTransactions seq, NetOpsCall.unsubValidations seq,
      NetOpsCall.unsubPeerStatus seq, NetOpsCall.unsubConsensus seq] := by
  unfold doUnsubscribe.streamCall at h
  split_ifs at h <;> first
    | exact Option.noConfusion h
    | (cases h; simp)

/-- The loop over `streams` on an array with a first bad element: the calls for
the elements before it are made, and the loop ends with
`rpcSTREAM_MALFORMED`. -/
theorem doUnsubscribe.streams_stop (ext : RpcExternals) (seq : Nat)
    (pre : List Json) (bad : Json) (post : List Json)
    (hpre : ∀ it ∈ pre, it.isString = true ∧
      (doUnsubscribe.streamCall seq (ext.asString it)).isSome = true)
    (hbad : bad.isString = false ∨
      doUnsubscribe.streamCall seq (ext.asString bad) = none)
    (calls : List NetOpsCall) :
    doUnsubscribe.streams ext seq (pre ++ bad :: post) calls =
      (some RpcErrorCode.rpcSTREAM_MALFORMED,
        calls ++ pre.filterMap
          (fun it => doUnsubscribe.streamCall seq (ext.asString it))) := by
  induction pre generalizing calls with
  | nil =>
    simp only [List.nil_append, List.filterMap_nil, List.append_nil]
    unfold doUnsubscribe.streams
    rcases hbad with hb | hb
    · rw [hb]
      rfl
    · rw [hb]
      cases bad.isString <;> rfl
  | cons it rest ih =>
    obtain ⟨hs, hc⟩ := hpre it (List.mem_cons_self _ _)
    have hrest : ∀ x ∈ rest, x.isString = true ∧
        (doUnsubscribe.streamCall seq (ext.asString x)).isSome = true :=
      fun x hx => hpre x (List.mem_cons_of_mem _ hx)
    obtain ⟨c, hcall⟩ := Option.isSome_iff_exists.mp hc
    rw [List.cons_append]
    unfold doUnsubscribe.streams
    rw [hs, hcall]
    simp only [Bool.not_true, Bool.false_eq_true, if_false]
    rw [ih hrest, List.filterMap_cons, hcall, List.append_assoc]
    rfl

/-- C34: `doUnsubscribe` goes through the `streams` array in order and is not
atomic.  When the array has an element that is not a string or not a known
stream name, all elements before it being known stream names, the result is
`rpcSTREAM_MALFORMED` and the calls made on `netOps` are exactly the
unsubscriptions for the elements before it, in order: they are not undone,
and no call is made for `accounts_proposed`, `accounts` or
`account_history_tx_stream`, nor for the removal of the URL subscriber,
whatever those members hold. -/
theorem doUnsubscribe_streams_not_atomic (ext : RpcExternals)
    (ux : UnsubscribeExternals) (context : JsonContext) (ispSub : InfoSub)
    (pre : List Json) (bad : Json) (post : List Json)
    (hsub : (context.params.isMember "url" = false ∧
        context.infoSub = some ispSub) ∨
      (context.params.isMember "url" = true ∧ context.role = Role.ADMIN ∧
        ux.findRpcSub (ext.asString (context.params.get "url")) =
          some ispSub))
    (hmem : context.params.isMember "streams" = true)
    (hstreams : context.params.get "streams" = Json.arr (pre ++ bad :: post))
    (hpre : ∀ it ∈ pre, it.isString = true ∧
      ext.asString it ∈ ["server", "ledger", "manifests", "transactions",
        "transactions_proposed", "rt_transactions", "validations",
        "peer_status", "consensus"])
    (hbad : bad.isString = false ∨
      ext.asString bad ∉ ["server", "ledger", "manifests", "transactions",
        "transactions_proposed", "rt_transactions", "validations",
        "peer_status", "consensus"]) :
    doUnsubscribe ext ux context =
      (UnsubscribeResult.rpcError RpcErrorCode.rpcSTREAM_MALFORMED,
        pre.filterMap
          (fun it => doUnsubscribe.streamCall ispSub.getSeq (ext.asString it))) ∧
    (pre.filterMap
      (fun it => doUnsubscribe.streamCall ispSub.getSeq
        (ext.asString it))).length = pre.length ∧
    (∀ c ∈ (doUnsubscribe ext ux context).2,
      c ∈ [NetOpsCall.unsubServer ispSub.getSeq,
        NetOpsCall.unsubLedger ispSub.getSeq,
        NetOpsCall.unsubManifests ispSub.getSeq,
        NetOpsCall.unsubTransactions ispSub.getSeq,
        NetOpsCall.unsubRTTransactions ispSub.getSeq,
        NetOpsCall.unsubValidations ispSub.getSeq,
        NetOpsCall.unsubPeerStatus ispSub.getSeq,
        NetOpsCall.unsubConsensus ispSub.getSeq]) := by
  have hpre2 : ∀ it ∈ pre, it.isString = true ∧
      (doUnsubscribe.streamCall ispSub.getSeq (ext.asString it)).isSome =
        true :=
    fun it hit => ⟨(hpre it hit).1,
      (doUnsubscribe.streamCall_isSome _ _).mpr (hpre it hit).2⟩
  have hbad2 : bad.isString = false ∨
      doUnsubscribe.streamCall ispSub.getSeq (ext.asString bad) = none := by
    rcases hbad with hb | hb
    · exact Or.inl hb
    · right
      cases hc : doUnsubscribe.streamCall ispSub.getSeq (ext.asString bad) with
      | none => rfl
      | some c =>
        have hs : (doUnsubscribe.streamCall ispSub.getSeq
            (ext.asString bad)).isSome = true := by
          rw [hc]
          rfl
        exact absurd ((doUnsubscribe.streamCall_isSome _ _).mp hs) hb
  have hbody : ∀ removeUrl,
      doUnsubscribe.body ext ux context ispSub removeUrl =
        (UnsubscribeResult.rpcError RpcErrorCode.rpcSTREAM_MALFORMED,
          pre.filterMap
            (fun it =>
              doUnsubscribe.streamCall ispSub.getSeq (ext.asString it))) := by
    intro removeUrl
    unfold doUnsubscribe.body
    dsimp only
    rw [hmem, hstreams]
    have hloop := doUnsubscribe.streams_stop ext ispSub.getSeq pre bad post
      hpre2 hbad2 []
    rw [List.nil_append] at hloop
    simp only [Json.isArray, Json.items, Bool.not_true, Bool.false_eq_true,
      if_false, if_true]
    rw [hloop]
  have hval : doUnsubscribe ext ux context =
      (UnsubscribeResult.rpcError RpcErrorCode.rpcSTREAM_MALFORMED,
        pre.filterMap
          (fun it =>
            doUnsubscribe.streamCall ispSub.getSeq (ext.asString it))) := by
    unfold doUnsubscribe
    rcases hsub with ⟨hurl, hinfo⟩ | ⟨hurl, hrole, hfind⟩
    · rw [hurl, hinfo]
      simp only [Option.isNone_some, Bool.false_and, Bool.false_eq_true,
        if_false]
      exact hbody false
    · rw [hurl, hrole, hfind]
      simp only [Bool.not_true, Bool.and_false, Bool.false_eq_true, if_false,
        if_true, ne_eq, not_true_eq_false]
      exact hbody true
  have hlen : (pre.filterMap
      (fun it => doUnsubscribe.streamCall ispSub.getSeq
        (ext.asString it))).length = pre.length := by
    clear hval hbody hpre hstreams
    induction pre with
    | nil => rfl
    | cons it rest ih =>
      obtain ⟨c, hc⟩ := Option.isSome_iff_exists.mp
        (hpre2 it (List.mem_cons_self _ _)).2
      rw [List.filterMap_cons, hc]
      simp only [List.length_cons]
      rw [ih (fun x hx => hpre2 x (List.mem_cons_of_mem _ hx))]
  refine ⟨hval, hlen, ?_⟩
  intro c hc
  rw [hval] at hc
  obtain ⟨it, _, hit⟩ := List.mem_filterMap.mp hc
  exact doUnsubscribe.streamCall_kind _ _ c hit

/-! ## The fields of the stored ballot -/

/-- C39: the ballot entry that a successful `BallotCreate::doApply` stores
carries `Flags`, `OwnerNode`, `InitialVotes` (when the transaction has it) and
`BallotChoiceIDs` (when the transaction has it), and no other field: its
`OpenTime`, `CloseTime`, `BallotDocumentURI`, `BallotDocumentHash`,
`MembershipNFTIssuer` and `MembershipNFTTaxon` are absent whatever the
transaction holds.  Two transactions that differ only in those six fields get
the same result code and leave the same view, hence the same ballot. -/
theorem BallotCreate_doApply_ballot_fields (t : TransactorState)
    (view : ApplyView)
    (hok : (BallotCreate.doApply t view).1 = TER.tesSUCCESS) :
    (∃ ownerNode,
      (BallotCreate.doApply t view).2.peek
        (Keylet.ballot t.account_ t.tx.seqProxy) =
        some
          { key := Keylet.ballot t.account_ t.tx.seqProxy
            sfFlags := t.tx.getFlags &&& not32 tfUniversal
            sfOwnerNode := some ownerNode
            sfInitialVotes := t.tx.sfInitialVotes
            sfBallotChoiceIDs := t.tx.sfBallotChoiceIDs }) ∧
    (∀ ballot,
      (BallotCreate.doApply t view).2.peek
        (Keylet.ballot t.account_ t.tx.seqProxy) = some ballot →
      ballot.sfOwnerNode.isSome = true ∧
      ballot.sfInitialVotes = t.tx.sfInitialVotes ∧
      ballot.sfBallotChoiceIDs = t.tx.sfBallotChoiceIDs ∧
      ballot.sfOpenTime = none ∧
      ballot.sfCloseTime = none ∧
      ballot.sfBallotDocumentURI = none ∧
      ballot.sfBallotDocumentHash = none ∧
      ballot.sfMembershipNFTIssuer = none ∧
      ballot.sfMembershipNFTTaxon = none ∧
      ballot.sfAccount = none ∧
      ballot.sfSequence = 0 ∧
      ballot.sfBalance = 0 ∧
      ballot.sfOwnerCount = 0) ∧
    (∀ (openTime closeTime : Option Nat) (uri : Option Blob)
        (hash issuer taxon : Option Nat),
      BallotCreate.doApply
          { t with
            tx :=
              { t.tx with
                sfOpenTime := openTime
                sfCloseTime := closeTime
                sfBallotDocumentURI := uri
                sfBallotDocumentHash := hash
                sfMembershipNFTIssuer := issuer
                sfMembershipNFTTaxon := taxon } }
          view =
        BallotCreate.doApply t view) := by
  obtain ⟨n, hpeek⟩ := BallotCreate.doApply_stored_ballot t view hok
  refine ⟨⟨n, hpeek⟩, ?_, ?_⟩
  · intro ballot hb
    rw [hpeek] at hb
    cases hb
    exact ⟨rfl, rfl, rfl, rfl, rfl, rfl, rfl, rfl, rfl, rfl, rfl, rfl, rfl⟩
  · intro openTime closeTime uri hash issuer taxon
    rfl

/-! ## The later claims at sample inputs -/

/-- The sample payment from account 5 to itself gets `temREDUNDANT`. -/
theorem Payment_preflight_self_payment_witness :
    selfPayment.sfAccount = selfPayment.sfDestination ∧
    Payment.preflight sampleExternals sampleAmountExternals
      selfPaymentContext = TER.temREDUNDANT ∧
    (isTesSuccess (Payment.preflight sampleExternals sampleAmountExternals selfPaymentContext) = false ∧
      ((isTesSuccess (sampleExternals.preflight1 selfPaymentContext) = false ∧
          Payment.preflight sampleExternals sampleAmountExternals selfPaymentContext = sampleExternals.preflight1 selfPaymentContext) ∨
        Payment.preflight sampleExternals sampleAmountExternals selfPaymentContext ∈
          [TER.temINVALID_FLAG, TER.temBAD_AMOUNT, TER.temDST_NEEDED,
            TER.temBAD_CURRENCY, TER.temREDUNDANT, TER.temBAD_SEND_XRP_MAX]) ∧
      ((isTesSuccess (sampleExternals.preflight1 selfPaymentContext) = false →
          (sampleExternals.preflight1 selfPaymentContext).codeClass = some TERClass.tem) →
        (Payment.preflight sampleExternals sampleAmountExternals selfPaymentContext).codeClass = some TERClass.tem) ∧
      (selfPaymentContext.tx.sfSendMax = none →
        sampleExternals.preflight1 selfPaymentContext = TER.tesSUCCESS →
        selfPaymentContext.tx.getFlags &&& tfPaymentMask = 0 →
        sampleAmountExternals.isLegalNet selfPaymentContext.tx.sfAmount = true →
        selfPaymentContext.tx.sfDestination ≠ 0 →
        0 < selfPaymentContext.tx.sfAmount.value →
        sampleAmountExternals.badCurrency ≠ selfPaymentContext.tx.sfAmount.getCurrency →
        Payment.preflight sampleExternals sampleAmountExternals selfPaymentContext = TER.temREDUNDANT)) :=
  ⟨by decide, by decide,
    Payment_preflight_self_payment sampleExternals sampleAmountExternals
      selfPaymentContext (by decide)⟩

/-- The sample payment with a `SendMax` of 200 drops gets
`temBAD_SEND_XRP_MAX`. -/
theorem Payment_preflight_send_max_witness :
    sendMaxPayment.sfSendMax = some { value := 200 } ∧
    Payment.preflight sampleExternals sampleAmountExternals
      sendMaxContext = TER.temBAD_SEND_XRP_MAX ∧
    (isTesSuccess (Payment.preflight sampleExternals sampleAmountExternals sendMaxContext) = false ∧
      ((isTesSuccess (sampleExternals.preflight1 sendMaxContext) = false ∧
          Payment.preflight sampleExternals sampleAmountExternals sendMaxContext = sampleExternals.preflight1 sendMaxContext) ∨
        Payment.preflight sampleExternals sampleAmountExternals sendMaxContext ∈
          [TER.temINVALID_FLAG, TER.temBAD_AMOUNT, TER.temDST_NEEDED,
            TER.temBAD_CURRENCY, TER.temREDUNDANT, TER.temBAD_SEND_XRP_MAX]) ∧
      ((isTesSuccess (sampleExternals.preflight1 sendMaxContext) = false →
          (sampleExternals.preflight1 sendMaxContext).codeClass = some TERClass.tem) →
        (Payment.preflight sampleExternals sampleAmountExternals sendMaxContext).codeClass = some TERClass.tem) ∧
      (sampleExternals.preflight1 sendMaxContext = TER.tesSUCCESS →
        sendMaxContext.tx.getFlags &&& tfPaymentMask = 0 →
        sampleAmountExternals.isLegalNet sendMaxContext.tx.sfAmount = true → sampleAmountExternals.isLegalNet ({ value := 200 } : STAmount) = true →
        sendMaxContext.tx.sfDestination ≠ 0 →
        0 < ({ value := 200 } : STAmount).value → 0 < sendMaxContext.tx.sfAmount.value →
        sampleAmountExternals.badCurrency ≠ ({ value := 200 } : STAmount).getCurrency →
        sampleAmountExternals.badCurrency ≠ sendMaxContext.tx.sfAmount.getCurrency →
        ¬ (sendMaxContext.tx.sfAccount = sendMaxContext.tx.sfDestination ∧
          ({ value := 200 } : STAmount).getCurrency = sendMaxContext.tx.sfAmount.getCurrency) →
        Payment.preflight sampleExternals sampleAmountExternals sendMaxContext = TER.temBAD_SEND_XRP_MAX)) :=
  ⟨by decide, by decide,
    Payment_preflight_send_max sampleExternals sampleAmountExternals
      sendMaxContext { value := 200 }
      (by decide)⟩

/-- The sample payment with a `DeliverMin` of 50 drops gets `temBAD_AMOUNT`,
and with `tfPartialPayment` as well it gets `temBAD_SEND_XRP_PARTIAL`. -/
theorem Payment_preflight_deliver_min_witness :
    deliverMinPayment.sfDeliverMin = some { value := 50 } ∧
    Payment.preflight sampleExternals sampleAmountExternals
      deliverMinContext = TER.temBAD_AMOUNT ∧
    Payment.preflight sampleExternals sampleAmountExternals
      { tx := { deliverMinPayment with sfFlags := tfPartialPayment },
        rules := allEnabled } = TER.temBAD_SEND_XRP_PARTIAL ∧
    (isTesSuccess (Payment.preflight sampleExternals sampleAmountExternals deliverMinContext) = false ∧
      (deliverMinContext.tx.getFlags &&& tfPartialPayment ≠ 0 →
        (isTesSuccess (sampleExternals.preflight1 deliverMinContext) = false ∧
          Payment.preflight sampleExternals sampleAmountExternals deliverMinContext = sampleExternals.preflight1 deliverMinContext) ∨
        Payment.preflight sampleExternals sampleAmountExternals deliverMinContext ∈
          [TER.temINVALID_FLAG, TER.temBAD_AMOUNT, TER.temDST_NEEDED,
            TER.temBAD_CURRENCY, TER.temREDUNDANT, TER.temBAD_SEND_XRP_MAX,
            TER.temBAD_SEND_XRP_PARTIAL]) ∧
      ((isTesSuccess (sampleExternals.preflight1 deliverMinContext) = false ∧
          Payment.preflight sampleExternals sampleAmountExternals deliverMinContext = sampleExternals.preflight1 deliverMinContext) ∨
        Payment.preflight sampleExternals sampleAmountExternals deliverMinContext ∈
          [TER.temINVALID_FLAG, TER.temBAD_AMOUNT, TER.temDST_NEEDED,
            TER.temBAD_CURRENCY, TER.temREDUNDANT, TER.temBAD_SEND_XRP_MAX,
            TER.temBAD_SEND_XRP_PARTIAL, TER.temBAD_SEND_XRP_LIMIT,
            TER.temBAD_SEND_XRP_NO_DIRECT]) ∧
      ((isTesSuccess (sampleExternals.preflight1 deliverMinContext) = false →
          (sampleExternals.preflight1 deliverMinContext).codeClass = some TERClass.tem) →
        (Payment.preflight sampleExternals sampleAmountExternals deliverMinContext).codeClass = some TERClass.tem) ∧
      (sampleExternals.preflight1 deliverMinContext = TER.tesSUCCESS →
        deliverMinContext.tx.getFlags &&& tfPaymentMask = 0 →
        sampleAmountExternals.isLegalNet deliverMinContext.tx.sfAmount = true →
        deliverMinContext.tx.sfDestination ≠ 0 →
        deliverMinContext.tx.sfSendMax = none →
        0 < deliverMinContext.tx.sfAmount.value →
        sampleAmountExternals.badCurrency ≠ deliverMinContext.tx.sfAmount.getCurrency →
        deliverMinContext.tx.sfAccount ≠ deliverMinContext.tx.sfDestination →
        deliverMinContext.tx.getFlags &&& tfPartialPayment = 0 →
        deliverMinContext.tx.getFlags &&& tfLimitQuality = 0 →
        deliverMinContext.tx.getFlags &&& tfNoRippleDirect = 0 →
        Payment.preflight sampleExternals sampleAmountExternals deliverMinContext = TER.temBAD_AMOUNT)) :=
  ⟨by decide, by decide, by decide,
    Payment_preflight_deliver_min sampleExternals sampleAmountExternals
      deliverMinContext { value := 50 }
      (by decide)⟩

/-- The sample payment passes `Payment::preflight`; its flags are
`tfUniversal`. -/
theorem Payment_preflight_success_shape_witness :
    isTesSuccess
      (Payment.preflight sampleExternals sampleAmountExternals
        samplePaymentContext) = true ∧
    samplePayment.getFlags = 0x80000000 ∧
    (samplePaymentContext.tx.getFlags &&& not32 0x80000000 = 0 ∧
      (samplePaymentContext.tx.getFlags = 0 ∨ samplePaymentContext.tx.getFlags = 0x80000000) ∧
      0 < samplePaymentContext.tx.sfAmount.value ∧
      samplePaymentContext.tx.sfDestination ≠ 0 ∧
      samplePaymentContext.tx.sfDestination ≠ samplePaymentContext.tx.sfAccount ∧
      samplePaymentContext.tx.getFlags &&& tfPartialPayment = 0 ∧
      samplePaymentContext.tx.getFlags &&& tfLimitQuality = 0 ∧
      samplePaymentContext.tx.getFlags &&& tfNoRippleDirect = 0) :=
  ⟨by decide, by decide,
    Payment_preflight_success_shape sampleExternals sampleAmountExternals
      samplePaymentContext (by decide)⟩

/-- The sample payment passes `Payment::preflight`, and `Payment::preclaim`
accepts it on the sample view, which is not open. -/
theorem Payment_preclaim_not_retryable_after_preflight_witness :
    isTesSuccess
      (Payment.preflight sampleExternals sampleAmountExternals
        samplePaymentContext) = true ∧
    Payment.preclaim sampleLedgerFlags
      { view := sampleView, tx := samplePayment } = TER.tesSUCCESS ∧
    (samplePaymentContext.tx.getFlags &&& tfPartialPayment = 0 ∧
      ∀ (lf : LedgerFlags) (view : ApplyView),
        Payment.preclaim lf { view := view, tx := samplePaymentContext.tx } ≠
          TER.telNO_DST_PARTIAL) :=
  ⟨by decide, by decide,
    Payment_preclaim_not_retryable_after_preflight sampleExternals
      sampleAmountExternals samplePaymentContext
      (by decide)⟩

/-- The request for the key 1 on the sample ledger gets the entry, as `node`,
with `index`. -/
theorem doLedgerEntry_lookup_outcomes_witness :
    (doLedgerEntry.resolve sampleRpc
      (Json.obj [("index", Json.str oneKeyHex)])).uNodeIndex = 1 ∧
    (doLedgerEntry sampleRpc
      (Json.obj [("index", Json.str oneKeyHex)])).node.isSome = true ∧
    (doLedgerEntry sampleRpc
      (Json.obj [("index", Json.str oneKeyHex)])).index = some oneKeyHex ∧
    (doLedgerEntry sampleRpc
      (Json.obj [("account_root", Json.str "rAlice"),
        ("binary", Json.bool true)])).node_binary = some "1100612200000000" ∧
    (((doLedgerEntry.resolve sampleRpc (Json.obj [("index", Json.str oneKeyHex)])).uNodeIndex ≠ 0 →
        (sampleLedger.read (doLedgerEntry.resolve sampleRpc (Json.obj [("index", Json.str oneKeyHex)])).uNodeIndex = none →
          (doLedgerEntry sampleRpc (Json.obj [("index", Json.str oneKeyHex)])).error = some "entryNotFound" ∧
          (doLedgerEntry sampleRpc (Json.obj [("index", Json.str oneKeyHex)])).node = none ∧
          (doLedgerEntry sampleRpc (Json.obj [("index", Json.str oneKeyHex)])).node_binary = none ∧
          (doLedgerEntry sampleRpc (Json.obj [("index", Json.str oneKeyHex)])).index = none) ∧
        (∀ sleNode,
          sampleLedger.read (doLedgerEntry.resolve sampleRpc (Json.obj [("index", Json.str oneKeyHex)])).uNodeIndex =
            some sleNode →
          (doLedgerEntry.resolve sampleRpc (Json.obj [("index", Json.str oneKeyHex)])).expectedType ≠
            LedgerEntryType.ltANY →
          (doLedgerEntry.resolve sampleRpc (Json.obj [("index", Json.str oneKeyHex)])).expectedType ≠ sleNode.getType →
          (doLedgerEntry sampleRpc (Json.obj [("index", Json.str oneKeyHex)])).error = some "unexpectedLedgerType" ∧
          (doLedgerEntry sampleRpc (Json.obj [("index", Json.str oneKeyHex)])).node = none ∧
          (doLedgerEntry sampleRpc (Json.obj [("index", Json.str oneKeyHex)])).node_binary = none ∧
          (doLedgerEntry sampleRpc (Json.obj [("index", Json.str oneKeyHex)])).index = none) ∧
        (∀ sleNode,
          sampleLedger.read (doLedgerEntry.resolve sampleRpc (Json.obj [("index", Json.str oneKeyHex)])).uNodeIndex =
            some sleNode →
          ((doLedgerEntry.resolve sampleRpc (Json.obj [("index", Json.str oneKeyHex)])).expectedType =
              LedgerEntryType.ltANY ∨
            (doLedgerEntry.resolve sampleRpc (Json.obj [("index", Json.str oneKeyHex)])).expectedType = sleNode.getType) →
          (doLedgerEntry sampleRpc (Json.obj [("index", Json.str oneKeyHex)])).error = none ∧
          (doLedgerEntry sampleRpc (Json.obj [("index", Json.str oneKeyHex)])).index =
            some (sampleRpc.to_string (doLedgerEntry.resolve sampleRpc (Json.obj [("index", Json.str oneKeyHex)])).uNodeIndex) ∧
          (((Json.obj [("index", Json.str oneKeyHex)]).isMember "binary" = true ∧
              sampleRpc.asBool ((Json.obj [("index", Json.str oneKeyHex)]).get "binary") = true) →
            (doLedgerEntry sampleRpc (Json.obj [("index", Json.str oneKeyHex)])).node_binary = some sleNode.hex ∧
            (doLedgerEntry sampleRpc (Json.obj [("index", Json.str oneKeyHex)])).node = none) ∧
          (¬ ((Json.obj [("index", Json.str oneKeyHex)]).isMember "binary" = true ∧
              sampleRpc.asBool ((Json.obj [("index", Json.str oneKeyHex)]).get "binary") = true) →
            (doLedgerEntry sampleRpc (Json.obj [("index", Json.str oneKeyHex)])).node = some sleNode.json ∧
            (doLedgerEntry sampleRpc (Json.obj [("index", Json.str oneKeyHex)])).node_binary = none))) ∧
      ((Json.obj [("index", Json.str oneKeyHex)]).isMember "index" = true →
        (doLedgerEntry.resolve sampleRpc (Json.obj [("index", Json.str oneKeyHex)])).expectedType =
          LedgerEntryType.ltANY ∧
        (doLedgerEntry sampleRpc (Json.obj [("index", Json.str oneKeyHex)])).error ≠ some "unexpectedLedgerType")) :=
  ⟨by decide, by decide, by decide, by decide,
    doLedgerEntry_lookup_outcomes sampleRpc
      (Json.obj [("index", Json.str oneKeyHex)]) sampleLedger
      (Json.obj [("ledger_current_index", Json.int 3)]) rfl⟩

/-- The request with an index that is not hexadecimal gets
`malformedRequest` and nothing else. -/
theorem doLedgerEntry_resolution_error_kept_witness :
    (doLedgerEntry.resolve sampleRpc
      (Json.obj [("index", Json.str "xyz")])).error =
        some "malformedRequest" ∧
    ("malformedRequest" ∈ ["malformedRequest", "malformedAddress", "malformedOwner",
        "malformedAuthorized", "malformedCurrency", "unknownOption"] ∧
      (doLedgerEntry.resolve sampleRpc (Json.obj [("index", Json.str "xyz")])).uNodeIndex = 0 ∧
      doLedgerEntry sampleRpc (Json.obj [("index", Json.str "xyz")]) = { ledgerInfo := (Json.obj [("ledger_current_index", Json.int 3)]), error := some "malformedRequest" } ∧
      (doLedgerEntry sampleRpc (Json.obj [("index", Json.str "xyz")])).error = some "malformedRequest" ∧
      (doLedgerEntry sampleRpc (Json.obj [("index", Json.str "xyz")])).node = none ∧
      (doLedgerEntry sampleRpc (Json.obj [("index", Json.str "xyz")])).node_binary = none ∧
      (doLedgerEntry sampleRpc (Json.obj [("index", Json.str "xyz")])).index = none ∧
      (∀ other : ReadView,
        doLedgerEntry
            { sampleRpc with lookupLedger := fun _ => (some other, (Json.obj [("ledger_current_index", Json.int 3)])) } (Json.obj [("index", Json.str "xyz")]) =
          doLedgerEntry sampleRpc (Json.obj [("index", Json.str "xyz")]))) :=
  ⟨by decide,
    doLedgerEntry_resolution_error_kept sampleRpc
      (Json.obj [("index", Json.str "xyz")]) sampleLedger
      (Json.obj [("ledger_current_index", Json.int 3)]) rfl
      "malformedRequest" (by decide)⟩

/-- The sample call: the third stream is not a stream name, the calls for the
first two streams are made, and nothing is done for `transactions` or for
`accounts`. -/
theorem doUnsubscribe_streams_not_atomic_witness :
    doUnsubscribe sampleRpc sampleUnsubscribe sampleContext =
      (UnsubscribeResult.rpcError RpcErrorCode.rpcSTREAM_MALFORMED,
        [NetOpsCall.unsubLedger 7, NetOpsCall.unsubServer 7]) ∧
    (doUnsubscribe sampleRpc sampleUnsubscribe sampleContext =
        (UnsubscribeResult.rpcError RpcErrorCode.rpcSTREAM_MALFORMED,
          [Json.str "ledger", Json.str "server"].filterMap
            (fun it => doUnsubscribe.streamCall ({ getSeq := 7 } : InfoSub).getSeq (sampleRpc.asString it))) ∧
      ([Json.str "ledger", Json.str "server"].filterMap
        (fun it => doUnsubscribe.streamCall ({ getSeq := 7 } : InfoSub).getSeq
          (sampleRpc.asString it))).length = [Json.str "ledger", Json.str "server"].length ∧
      (∀ c ∈ (doUnsubscribe sampleRpc sampleUnsubscribe sampleContext).2,
        c ∈ [NetOpsCall.unsubServer ({ getSeq := 7 } : InfoSub).getSeq,
          NetOpsCall.unsubLedger ({ getSeq := 7 } : InfoSub).getSeq,
          NetOpsCall.unsubManifests ({ getSeq := 7 } : InfoSub).getSeq,
          NetOpsCall.unsubTransactions ({ getSeq := 7 } : InfoSub).getSeq,
          NetOpsCall.unsubRTTransactions ({ getSeq := 7 } : InfoSub).getSeq,
          NetOpsCall.unsubValidations ({ getSeq := 7 } : InfoSub).getSeq,
          NetOpsCall.unsubPeerStatus ({ getSeq := 7 } : InfoSub).getSeq,
          NetOpsCall.unsubConsensus ({ getSeq := 7 } : InfoSub).getSeq])) :=
  ⟨by decide,
    doUnsubscribe_streams_not_atomic sampleRpc sampleUnsubscribe sampleContext
      { getSeq := 7 } [Json.str "ledger", Json.str "server"]
      (Json.str "bogus") [Json.str "transactions"]
      (Or.inl ⟨by decide, rfl⟩) (by decide) rfl
      (by
        intro it hit
        simp only [List.mem_cons, List.mem_singleton, List.not_mem_nil,
          or_false] at hit
        rcases hit with rfl | rfl <;> exact ⟨rfl, by decide⟩)
      (Or.inr (by decide))⟩

/-- The sample ballot creation, whose transaction has a document URI, a
document hash, a membership issuer and a taxon: the stored ballot has none of
them. -/
theorem BallotCreate_doApply_ballot_fields_witness :
    (BallotCreate.doApply sampleState sampleView).1 = TER.tesSUCCESS ∧
    sampleState.tx.sfBallotDocumentURI = some [100, 105, 100] ∧
    ((BallotCreate.doApply sampleState sampleView).2.peek
      (Keylet.ballot 5 3)).map (fun sle => sle.sfBallotDocumentURI) =
        some none ∧
    ((∃ ownerNode,
        (BallotCreate.doApply sampleState sampleView).2.peek
          (Keylet.ballot sampleState.account_ sampleState.tx.seqProxy) =
          some
            { key := Keylet.ballot sampleState.account_ sampleState.tx.seqProxy
              sfFlags := sampleState.tx.getFlags &&& not32 tfUniversal
              sfOwnerNode := some ownerNode
              sfInitialVotes := sampleState.tx.sfInitialVotes
              sfBallotChoiceIDs := sampleState.tx.sfBallotChoiceIDs }) ∧
      (∀ ballot,
        (BallotCreate.doApply sampleState sampleView).2.peek
          (Keylet.ballot sampleState.account_ sampleState.tx.seqProxy) = some ballot →
        ballot.sfOwnerNode.isSome = true ∧
        ballot.sfInitialVotes = sampleState.tx.sfInitialVotes ∧
        ballot.sfBallotChoiceIDs = sampleState.tx.sfBallotChoiceIDs ∧
        ballot.sfOpenTime = none ∧
        ballot.sfCloseTime = none ∧
        ballot.sfBallotDocumentURI = none ∧
        ballot.sfBallotDocumentHash = none ∧
        ballot.sfMembershipNFTIssuer = none ∧
        ballot.sfMembershipNFTTaxon = none ∧
        ballot.sfAccount = none ∧
        ballot.sfSequence = 0 ∧
        ballot.sfBalance = 0 ∧
        ballot.sfOwnerCount = 0) ∧
      (∀ (openTime closeTime : Option Nat) (uri : Option Blob)
          (hash issuer taxon : Option Nat),
        BallotCreate.doApply
            { sampleState with
              tx :=
                { sampleState.tx with
                  sfOpenTime := openTime
                  sfCloseTime := closeTime
                  sfBallotDocumentURI := uri
                  sfBallotDocumentHash := hash
                  sfMembershipNFTIssuer := issuer
                  sfMembershipNFTTaxon := taxon } }
            sampleView =
          BallotCreate.doApply sampleState sampleView)) :=
  ⟨by decide, by decide, by decide,
    BallotCreate_doApply_ballot_fields sampleState sampleView (by decide)⟩

/-! ## `doApply` on the transactions that reach it -/

end ripple
